import Mathlib

/-! maya-usd joint export: a shallow embedding of `jointWriter.cpp`.

The file embeds `lib/usd/translators/jointWriter.cpp` (the skeleton / joint
prim writer of maya-usd) as pure Lean functions and proves properties of it.

* Matrices are 4x4 matrices over `ℚ` (exact arithmetic in place of `double`).
* The Maya scene is read-only input: everything the writer can read from a
  `MDagPath` at the current time is a `JointNode` record, looked up in `Env`.
* The USD stage and the diagnostic sinks are an append-only log of `Event`s:
  every `UsdMayaWriteUtil::SetAttribute` call, every schema call that authors
  and every diagnostic is one entry, in program order.
* Stateful code is explicit state passing over `PxrUsdTranslators_JointWriter`.

Definitions come first, theorems after them.
-/

namespace MayaUsd

/-! ## Matrices -/

/-- Type `GfMatrix4d`: a 4x4 matrix, entries in exact rational arithmetic. -/
abbrev GfMatrix4d := Matrix (Fin 4) (Fin 4) ℚ

/-- Type `MMatrix`: the Maya 4x4 matrix; `GfMatrix4d(m.matrix)` is the identity
conversion in this model. -/
abbrev MMatrix := Matrix (Fin 4) (Fin 4) ℚ

/-- Modelled from the spec: `GfMatrix4d::GetInverse` and `MMatrix::inverse`
(USD and Maya libraries, not under src/) invert a transform; here the exact
inverse `det⁻¹ • adjugate` (which is the zero matrix on a singular input). -/
def GetInverse (m : GfMatrix4d) : GfMatrix4d := (m.det)⁻¹ • m.adjugate

/-- Modelled from the spec: `GfIsClose(m1, m2, tolerance)` (USD library, not
under src/): the two matrices agree within the tolerance, entry by entry. -/
def GfIsClose (m1 m2 : GfMatrix4d) (tolerance : ℚ) : Bool :=
  decide (∀ i j, |m1 i j - m2 i j| < tolerance)

/-- The tolerance literal `1e-6` of the bind-pose agreement test: the value of
the double nearest to one millionth, 4722366482869645 / 2^72, which lies just
below one millionth. -/
def bindPoseTolerance : ℚ := 4722366482869645 / 2 ^ 72

/-! ## Diagnostics -/

/-- One message sent to a diagnostic sink. -/
inductive Diag where
  /-- A `TF_VERIFY(expr)` whose expression was false. -/
  | tfVerifyFailed (expr : String)
  /-- A `TF_CODING_ERROR(msg)`. -/
  | tfCodingError (msg : String)
  /-- A `TF_WARN(msg)`. -/
  | tfWarn (msg : String)
  /-- A `MGlobal::displayWarning(msg)`. -/
  | displayWarning (msg : String)
  deriving DecidableEq, Repr

/-- Is the diagnostic a `TF_CODING_ERROR`? -/
def Diag.isCodingError : Diag → Bool
  | .tfCodingError _ => true
  | _ => false

/-- Is the diagnostic a `MGlobal::displayWarning`? -/
def Diag.isDisplayWarning : Diag → Bool
  | .displayWarning _ => true
  | _ => false

/-! ## The Maya scene as the writer reads it -/

/-- Type `MDagPath`: the identity of a DAG path. What can be read through it
depends on the scene state and lives in `Env.node`. -/
structure MDagPath where
  fullPathName : String
  deriving DecidableEq, Repr

/-- Type `MObject` for a dependency node reached through a destination plug:
the answers of the calls `_GetJointWorldBindTransform` makes on it. -/
structure MObject where
  /-- Answer of `hasFn(MFn::kSkinClusterFilter)`. -/
  hasFnSkinClusterFilter : Bool
  /-- Answer of `hasFn(MFn::kDagPose)`. -/
  hasFnDagPose : Bool
  /-- Status of constructing `MFnDependencyNode fnNode(node, &status)`. -/
  fnStatus : Bool
  /-- Answer of `fnNode.name()`. -/
  name : String
  /-- Plug `bindPreMatrix`: `none` when `findPlug` fails; otherwise, per logical
  index, the matrix of the element or `none` when `MFnMatrixData` cannot read it. -/
  bindPreMatrix : Option (Nat → Option MMatrix)
  /-- Plug `worldMatrix` of a dagPose node, read the same way. -/
  worldMatrix : Option (Nat → Option MMatrix)

/-- Type `MPlug` for a destination plug of a connection. -/
structure MPlug where
  /-- Answer of `plgDest.node()`. -/
  node : MObject
  /-- Answer of `plgDest.isElement()`. -/
  isElement : Bool
  /-- Answer of `plgDest.logicalIndex()`. -/
  logicalIndex : Nat

/-- The array plug `worldMatrix` of a joint. -/
structure WorldMatrixPlug where
  /-- Answer of `numElements(&status)`. -/
  numElements : Nat
  /-- Status of that call. -/
  numElementsStatus : Bool
  /-- Destinations of `elementByLogicalIndex(instanceIndex)`. -/
  destinations : Nat → List MPlug

/-- The plug `message` of a joint. -/
structure MessagePlug where
  /-- Answer of `plgMsg.isSource()`. -/
  isSource : Bool
  /-- Answer of `plgMsg.destinations(plgsDest)`. -/
  destinations : List MPlug

/-- Everything the writer reads from one DAG path at the current time. -/
structure JointNode where
  /-- Answer of `dgNode.name()`. -/
  name : String
  /-- Plug `worldMatrix`; `none` when `findPlug` fails. -/
  worldMatrixPlug : Option WorldMatrixPlug
  /-- Plug `message`; `none` when `findPlug` fails. -/
  messagePlug : Option MessagePlug
  /-- Attribute `bindPose` through `UsdMayaUtil::getPlugMatrix`; `none` when
  it returns false. -/
  bindPose : Option MMatrix
  /-- Answer of `dagPath.inclusiveMatrix(&status)`; `none` on a failed status. -/
  inclusiveMatrix : Option MMatrix
  /-- Answer of `MFnTransform(dagPath).transformation().asMatrix()`; `none`
  when either status fails. -/
  transformation : Option MMatrix

/-! ## `_GetJointWorldBindTransform` -/

/-- Locals of the skin-cluster loop: `result`, `resultNode`, `hasResult`, and
the diagnostics emitted so far. -/
structure BindScan where
  result : GfMatrix4d
  resultNode : Option MObject
  hasResult : Bool
  diags : List Diag

/-- The text of the "different bind poses" warning. -/
def bindPoseWarning (jointName resultNodeName nodeName : String) : String :=
  "Joint '" ++ jointName ++ "' has different bind poses. bindPreMatrix values on "
    ++ resultNodeName ++ " and " ++ nodeName ++ " differ. Using bindPreMatrix from "
    ++ resultNodeName ++ "."

/-- One iteration of the loop over `plgsDest` (source lines 120-162). Each
`continue` leaves the locals as they are. -/
def skinClusterStep (jointName : String) (st : BindScan) (plgDest : MPlug) : BindScan :=
  let curNode := plgDest.node
  if !curNode.hasFnSkinClusterFilter then st
  else
    let st1 : BindScan :=
      if plgDest.isElement then st
      else { st with diags := st.diags ++ [Diag.tfVerifyFailed "plgDest.isElement()"] }
    let membersIdx := plgDest.logicalIndex
    if !curNode.fnStatus then st1
    else
      match curNode.bindPreMatrix with
      | none => st1
      | some plgWorldMatrices =>
        match plgWorldMatrices membersIdx with
        | none => st1
        | some m =>
          let mayaResult := GetInverse m
          if !st1.hasResult then
            { st1 with result := mayaResult, resultNode := some curNode, hasResult := true }
          else
            let tempResult := mayaResult
            if !GfIsClose tempResult st1.result bindPoseTolerance then
              match st1.resultNode with
              | none => st1
              | some resultNode =>
                if !resultNode.fnStatus then st1
                else
                  { st1 with diags := st1.diags ++
                      [Diag.displayWarning
                        (bindPoseWarning jointName resultNode.name curNode.name)] }
            else st1

/-- The loop over the instances of `worldMatrix` (source lines 111-167): each
instance starts with fresh locals, and the first instance that has a result
returns it. The declared but unassigned `GfMatrix4d result` is `0` here; it
is read only after `hasResult` was set. -/
def instanceLoop (jointName : String) (plug : WorldMatrixPlug) :
    List Nat → List Diag → Option GfMatrix4d × List Diag
  | [], diags => (none, diags)
  | instanceIndex :: rest, diags =>
    let st := (plug.destinations instanceIndex).foldl (skinClusterStep jointName)
      { result := 0, resultNode := none, hasResult := false, diags := diags }
    if st.hasResult then (some st.result, st.diags)
    else instanceLoop jointName plug rest st.diags

/-- The loop over the destinations of the `message` plug (source lines
176-197): the first dagPose member slot that can be read is returned. -/
def dagPoseLoop : List MPlug → List Diag → Option GfMatrix4d × List Diag
  | [], diags => (none, diags)
  | plgDest :: rest, diags =>
    let curNode := plgDest.node
    if !curNode.hasFnDagPose then dagPoseLoop rest diags
    else
      let diags1 :=
        if plgDest.isElement then diags
        else diags ++ [Diag.tfVerifyFailed "plgDest.isElement()"]
      let membersIdx := plgDest.logicalIndex
      if !curNode.fnStatus then dagPoseLoop rest diags1
      else
        match curNode.worldMatrix with
        | none => dagPoseLoop rest diags1
        | some plgWorldMatrices =>
          match plgWorldMatrices membersIdx with
          | none => dagPoseLoop rest diags1
          | some result => (some result, diags1)

/-! ## USD-side types -/

/-- Type `TfToken`. -/
structure TfToken where
  text : String
  deriving DecidableEq, Repr

/-- Type `SdfPath`; the empty text is the empty (invalid) path. -/
structure SdfPath where
  text : String
  deriving DecidableEq, Repr

/-- Type `UsdTimeCode`: the default time code or a numeric sample time. -/
inductive UsdTimeCode where
  | Default
  | Numeric (frame : ℚ)
  deriving DecidableEq

/-- Method `UsdTimeCode::IsDefault`. -/
def UsdTimeCode.IsDefault : UsdTimeCode → Bool
  | .Default => true
  | .Numeric _ => false

/-- Type `UsdSkelTopology`: the parent index of every joint, negative for a
joint without a parent. -/
structure UsdSkelTopology where
  parentIndices : List Int

/-- Method `UsdSkelTopology::size`. -/
def UsdSkelTopology.size (t : UsdSkelTopology) : Nat := t.parentIndices.length

/-- Method `UsdSkelTopology::GetParent`. -/
def UsdSkelTopology.GetParent (t : UsdSkelTopology) (i : Nat) : Int :=
  t.parentIndices.getD i (-1)

/-- Modelled from the spec: the test `UsdSkelTopology::Validate` (USD library,
not under src/) makes on joint `i`: "every non-root joint's parent appears
earlier in the sequence". -/
def UsdSkelTopology.jointOk (t : UsdSkelTopology) (i : Nat) : Bool :=
  decide (t.GetParent i < 0) || decide (t.GetParent i < (i : Int))

/-- Modelled from the spec: `UsdSkelTopology::Validate` (USD library, not under
src/): the topology is valid when every joint passes `jointOk`; otherwise the
reason names the first joint that does not. -/
def UsdSkelTopology.Validate (t : UsdSkelTopology) : Bool × String :=
  match (List.range t.size).find? (fun i => !t.jointOk i) with
  | none => (true, "")
  | some i => (false, "Joint " ++ toString i ++ " has a parent that is not ordered before it.")

/-- Type `UsdSkelSkeleton` (a valid one; an invalid schema object is `none`). -/
structure UsdSkelSkeleton where
  primPath : SdfPath
  deriving DecidableEq, Repr

/-- Type `UsdSkelAnimation` (a valid one; an invalid schema object is `none`). -/
structure UsdSkelAnimation where
  primPath : SdfPath
  deriving DecidableEq, Repr

/-- Type `UsdAttribute`: the prim, the attribute name, and whether the handle
is valid (`operator bool`). -/
structure UsdAttribute where
  primPath : SdfPath
  name : String
  isValid : Bool
  deriving DecidableEq, Repr

/-- Type `UsdSkelAnimMapper`: the source (skeleton) order and the target
(animation) order it was built from; the default mapper has both empty. -/
structure UsdSkelAnimMapper where
  sourceOrder : List TfToken
  targetOrder : List TfToken
  deriving DecidableEq, Repr

/-- Modelled from the spec: `UsdSkelAnimMapper::Remap` (USD library, not under
src/): "remap from topology order to animated-joint order"; entry `i` of the
target is the source value of the joint named `targetOrder[i]`, and a name
missing from the source order gets the default value. -/
def UsdSkelAnimMapper.Remap (mapper : UsdSkelAnimMapper) (source : List GfMatrix4d) :
    Bool × List GfMatrix4d :=
  (true, mapper.targetOrder.map (fun n => source.getD (mapper.sourceOrder.indexOf n) 0))

/-- Type `GfVec3f`. -/
structure GfVec3f where
  x : ℚ
  y : ℚ
  z : ℚ
  deriving DecidableEq

/-- Type `GfVec3h`. -/
structure GfVec3h where
  x : ℚ
  y : ℚ
  z : ℚ
  deriving DecidableEq

/-- Type `GfQuatf`. -/
structure GfQuatf where
  real : ℚ
  i : ℚ
  j : ℚ
  k : ℚ
  deriving DecidableEq

/-- The value handed to `UsdMayaWriteUtil::SetAttribute`. -/
inductive VtValue where
  | tokens (v : List TfToken)
  | matrices (v : List GfMatrix4d)
  | matrix (v : GfMatrix4d)
  | vec3fs (v : List GfVec3f)
  | quatfs (v : List GfQuatf)
  | vec3hs (v : List GfVec3h)

/-- One entry of the log of what the writer does to the stage, the job context
and the diagnostic sinks, in program order. -/
inductive Event where
  /-- A diagnostic. -/
  | diag (d : Diag)
  /-- Call `UsdSkelSkeleton::Define(GetUsdStage(), usdPath)`. -/
  | DefineSkeleton (usdPath : SdfPath)
  /-- Call `UsdMayaTranslatorSkel::MarkSkelAsMayaGenerated(_skel)`. -/
  | MarkSkelAsMayaGenerated (skel : Option UsdSkelSkeleton)
  /-- Call `GetAPISchemaForAuthoring<UsdSkelBindingAPI>(_skel.GetPrim())`. -/
  | GetBindingAPIForAuthoring (skel : Option UsdSkelSkeleton)
  /-- Call `UsdMayaWriteUtil::SetAttribute(attr, value, time, writer)`. -/
  | SetAttribute (attr : UsdAttribute) (value : VtValue) (time : UsdTimeCode)
  /-- Call `_writeJobCtx.MarkSkelBindings(skelPath, skelPath, exportSkels)`. -/
  | MarkSkelBindings (skelPath : SdfPath) (exportSkels : TfToken)
  /-- Call `_skel.MakeMatrixXform()`. -/
  | MakeMatrixXform (skel : Option UsdSkelSkeleton)
  /-- Call `UsdSkelAnimation::Define(GetUsdStage(), animPath)`. -/
  | DefineSkelAnimation (animPath : SdfPath)
  /-- Call `binding.CreateAnimationSourceRel().SetTargets({ animPath })`. -/
  | SetAnimationSource (animPath : SdfPath)

/-- Name of `UsdSkelSkeleton::GetJointsAttr` and `UsdSkelAnimation::GetJointsAttr`. -/
def jointsAttrName : String := "joints"

/-- Name of `UsdSkelSkeleton::GetBindTransformsAttr`. -/
def bindTransformsAttrName : String := "bindTransforms"

/-- Name of `UsdSkelSkeleton::GetRestTransformsAttr`. -/
def restTransformsAttrName : String := "restTransforms"

/-- Name of the attribute of the op made by `MakeMatrixXform`. -/
def matrixXformAttrName : String := "xformOp:transform"

/-- Name of `UsdSkelAnimation::GetTranslationsAttr`. -/
def translationsAttrName : String := "translations"

/-- Name of `UsdSkelAnimation::GetRotationsAttr`. -/
def rotationsAttrName : String := "rotations"

/-- Name of `UsdSkelAnimation::GetScalesAttr`. -/
def scalesAttrName : String := "scales"

/-- Accessor `_skel.GetPrim().GetPath()`; the empty path on an invalid skeleton. -/
def skelPrimPath (skel : Option UsdSkelSkeleton) : SdfPath :=
  match skel with
  | some s => s.primPath
  | none => ⟨""⟩

/-- An attribute accessor of the skeleton schema, such as `_skel.GetJointsAttr()`;
an invalid skeleton gives an invalid attribute. -/
def skelAttr (skel : Option UsdSkelSkeleton) (name : String) : UsdAttribute :=
  { primPath := skelPrimPath skel, name := name, isValid := skel.isSome }

/-- An attribute accessor of the animation schema, such as
`_skelAnim.GetTranslationsAttr()`. -/
def animAttr (anim : UsdSkelAnimation) (name : String) : UsdAttribute :=
  { primPath := anim.primPath, name := name, isValid := true }

/-- The default-constructed, invalid `UsdAttribute`. -/
def invalidAttr : UsdAttribute := { primPath := ⟨""⟩, name := "", isValid := false }

/-- Is the event a `SetAttribute` call on an attribute of the given name
(valid handle or not)? -/
def Event.setsAttrNamed (name : String) : Event → Bool
  | .SetAttribute a _ _ => a.name == name
  | _ => false

/-- Is the event any `SetAttribute` call? -/
def Event.isSetAttribute : Event → Bool
  | .SetAttribute _ _ _ => true
  | _ => false

/-- Is the event one of the three animation-channel writes of `Write`
(translations, rotations or scales)? -/
def Event.isAnimSample : Event → Bool
  | .SetAttribute _ (.vec3fs _) _ => true
  | .SetAttribute _ (.quatfs _) _ => true
  | .SetAttribute _ (.vec3hs _) _ => true
  | _ => false

/-- Is the event a `TF_CODING_ERROR`? -/
def Event.isCodingError : Event → Bool
  | .diag d => d.isCodingError
  | _ => false

/-! ## The environment of one call -/

/-- Everything outside `jointWriter.cpp` that a call reads: the Maya scene at
the current time, the export arguments, and the answers of the maya-usd and
USD helpers whose code is not under src/. -/
structure Env where
  /-- The scene: what can be read through a dag path at the current time. -/
  node : MDagPath → JointNode
  /-- Answer of `MDagPath::isValid`. -/
  dagPathIsValid : MDagPath → Bool
  /-- Export argument `_GetExportArgs().exportSkels`. -/
  exportSkels : TfToken
  /-- Is `_GetExportArgs().timeSamples` empty? -/
  timeSamplesEmpty : Bool
  /-- Answer of `UsdSkelSkeleton::Define(GetUsdStage(), usdPath)`. -/
  defineSkeleton : SdfPath → Option UsdSkelSkeleton
  /-- Answer of `UsdMayaTranslatorSkel::IsUsdSkeleton`. -/
  IsUsdSkeleton : MDagPath → Bool
  /-- Outputs of `UsdMayaJointUtil::getJointHierarchyComponents`:
  the skeleton xform path, the joint hierarchy root path, the joints. -/
  getJointHierarchyComponents : MDagPath → MDagPath × MDagPath × List MDagPath
  /-- The USD joint name `UsdMayaJointUtil::getJointNames` gives a joint. -/
  jointName : MDagPath → TfToken
  /-- Constructor `UsdSkelTopology(skelJointNames)`. -/
  topologyOfNames : List TfToken → UsdSkelTopology
  /-- Answer of `UsdMayaUtil::isAnimated(node)`. -/
  isAnimated : MDagPath → Bool
  /-- Answer of `UsdMayaJointUtil::getAnimationPath(skelPath)`. -/
  getAnimationPath : SdfPath → SdfPath
  /-- Answer of `UsdSkelAnimation::Define(GetUsdStage(), animPath)`. -/
  defineSkelAnimation : SdfPath → Option UsdSkelAnimation
  /-- Function `UsdSkelDecomposeTransform` on one matrix; `none` when it fails. -/
  decomposeTransform : GfMatrix4d → Option (GfVec3f × GfQuatf × GfVec3h)

/-- Token `UsdMayaJobExportArgsTokens->auto_`. -/
def exportSkelsAuto : TfToken := ⟨"auto"⟩

/-- Token `UsdMayaJobExportArgsTokens->explicit_`. -/
def exportSkelsExplicit : TfToken := ⟨"explicit"⟩

/-- Modelled from the spec: `UsdMayaJointUtil::getJointNames` (maya-usd
`fileio/utils/jointWriteUtils`, not under src/) "derives joint names ... from
host scene nodes": one name per joint, in the order of the joints. -/
def getJointNames (env : Env) (joints : List MDagPath) : List TfToken :=
  joints.map env.jointName

/-- Modelled from the spec: `UsdSkelDecomposeTransforms` (USD library, not
under src/) "decompose[s] each local matrix into translation, unit-quaternion
rotation, and scale"; it fails when one matrix cannot be decomposed. -/
def UsdSkelDecomposeTransforms (env : Env) :
    List GfMatrix4d → Option (List GfVec3f × List GfQuatf × List GfVec3h)
  | [] => some ([], [], [])
  | xf :: rest =>
    match env.decomposeTransform xf, UsdSkelDecomposeTransforms env rest with
    | some (t, r, s), some (ts, rs, ss) => some (t :: ts, r :: rs, s :: ss)
    | _, _ => none

/-! ## `_GetJointWorldBindTransform` and `_GetJointWorldBindTransforms` -/

/-- Function `_GetJointWorldBindTransform`: the bind matrix of the dag path and
the diagnostics emitted while resolving it. -/
def _GetJointWorldBindTransform (env : Env) (dagPath : MDagPath) : GfMatrix4d × List Diag :=
  let dagNode := env.node dagPath
  let skin : Option GfMatrix4d × List Diag :=
    match dagNode.worldMatrixPlug with
    | none => (none, [])
    | some plugWorldMatrixParent =>
      let numInstance := plugWorldMatrixParent.numElements
      let diags0 :=
        if decide (numInstance < 2) && plugWorldMatrixParent.numElementsStatus then []
        else [Diag.tfVerifyFailed "numInstance < 2 && status"]
      instanceLoop dagNode.name plugWorldMatrixParent (List.range numInstance) diags0
  match skin.1 with
  | some result => (result, skin.2)
  | none =>
    let pose : Option GfMatrix4d × List Diag :=
      match dagNode.messagePlug with
      | none => (none, skin.2)
      | some plgMsg =>
        if plgMsg.isSource then dagPoseLoop plgMsg.destinations skin.2
        else (none, skin.2)
    match pose.1 with
    | some result => (result, pose.2)
    | none =>
      match dagNode.bindPose with
      | some restTransformWorld => (restTransformWorld, pose.2)
      | none => (1, pose.2)

/-- Function `_GetJointWorldBindTransforms`: one bind matrix per dag path, and
the diagnostics of all of them in order. The topology argument is unused, as
in the source. -/
def _GetJointWorldBindTransforms (env : Env) (_topology : UsdSkelTopology)
    (jointDagPaths : List MDagPath) : List GfMatrix4d × List Diag :=
  jointDagPaths.foldl
    (fun acc dagPath =>
      let r := _GetJointWorldBindTransform env dagPath
      (acc.1 ++ [r.1], acc.2 ++ r.2))
    ([], [])

/-! ## World and local transforms -/

/-- Function `_GetJointWorldTransform`: the inclusive matrix, or the identity
when the status fails. -/
def _GetJointWorldTransform (env : Env) (dagPath : MDagPath) : GfMatrix4d :=
  match (env.node dagPath).inclusiveMatrix with
  | some mx => mx
  | none => 1

/-- Function `_GetJointLocalTransform`: the local transformation matrix, or the
identity when a status fails. -/
def _GetJointLocalTransform (env : Env) (dagPath : MDagPath) : GfMatrix4d :=
  match (env.node dagPath).transformation with
  | some mx => mx
  | none => 1

/-- Function `_GetJointWorldTransforms`: always succeeds, one matrix per path. -/
def _GetJointWorldTransforms (env : Env) (dagPaths : List MDagPath) :
    Bool × List GfMatrix4d :=
  (true, dagPaths.map (_GetJointWorldTransform env))

/-- Modelled from the spec: the local transform `UsdSkelComputeJointLocalTransforms`
(USD library, not under src/) gives joint `i`: "a joint's local transform is
relative to its already-resolved parent", a joint without a parent is relative
to the hierarchy root, and a parent that is not ordered earlier is a failure. -/
def jointLocalXform (topology : UsdSkelTopology) (xforms inverseXforms : List GfMatrix4d)
    (rootInverseXform : GfMatrix4d) (i : Nat) : Option GfMatrix4d :=
  let parent := topology.GetParent i
  if 0 ≤ parent then
    if parent.toNat < i then some (xforms.getD i 0 * inverseXforms.getD parent.toNat 0)
    else none
  else some (xforms.getD i 0 * rootInverseXform)

/-- The loop of `UsdSkelComputeJointLocalTransforms` over the joints, "in
topology order"; on a failure the entries not yet computed keep the default
value. -/
def jointLocalXformsLoop (topology : UsdSkelTopology) (xforms inverseXforms : List GfMatrix4d)
    (rootInverseXform : GfMatrix4d) : List Nat → List GfMatrix4d → Bool × List GfMatrix4d
  | [], acc => (true, acc)
  | i :: rest, acc =>
    match jointLocalXform topology xforms inverseXforms rootInverseXform i with
    | none => (false, acc ++ List.replicate (rest.length + 1) 0)
    | some m => jointLocalXformsLoop topology xforms inverseXforms rootInverseXform rest (acc ++ [m])

/-- Modelled from the spec: `UsdSkelComputeJointLocalTransforms` (USD library,
not under src/), the "topology-aware world-to-local decomposition" of §4.3.
The output array is resized to the size of the topology; the call fails when
the sizes of the inputs differ from it or when the loop fails. -/
def UsdSkelComputeJointLocalTransforms (topology : UsdSkelTopology)
    (xforms inverseXforms : List GfMatrix4d) (rootInverseXform : GfMatrix4d) :
    Bool × List GfMatrix4d :=
  if xforms.length ≠ topology.size ∨ inverseXforms.length ≠ topology.size then
    (false, List.replicate topology.size 0)
  else
    jointLocalXformsLoop topology xforms inverseXforms rootInverseXform
      (List.range topology.size) []

/-- Function `_GetJointLocalTransforms`: the success flag and the new contents
of `*localXforms`. -/
def _GetJointLocalTransforms (env : Env) (topology : UsdSkelTopology)
    (dagPaths : List MDagPath) (rootXf : GfMatrix4d) (localXforms : List GfMatrix4d) :
    Bool × List GfMatrix4d :=
  let w := _GetJointWorldTransforms env dagPaths
  if w.1 then
    let worldXforms := w.2
    let rootInvXf := GetInverse rootXf
    let worldInvXforms := worldXforms.map GetInverse
    UsdSkelComputeJointLocalTransforms topology worldXforms worldInvXforms rootInvXf
  else (true, localXforms)

/-! ## `_GetAnimatedJoints` -/

/-- Function `_GetAnimatedJoints`: the new contents of `*animatedJointNames`
and `*animatedJointPaths`, and the diagnostics. -/
def _GetAnimatedJoints (usdJointNames : List TfToken) (jointDagPaths : List MDagPath)
    (restXforms : List GfMatrix4d) (animatedJointNames : List TfToken)
    (animatedJointPaths : List MDagPath) : (List TfToken × List MDagPath) × List Diag :=
  if usdJointNames.length ≠ jointDagPaths.length then
    ((animatedJointNames, animatedJointPaths),
      [Diag.tfVerifyFailed "usdJointNames.size() == jointDagPaths.size()"])
  else if restXforms.length ≠ usdJointNames.length then
    ((usdJointNames, jointDagPaths), [])
  else
    ((List.range jointDagPaths.length).foldl
      (fun acc i =>
        match usdJointNames[i]?, jointDagPaths[i]? with
        | some jointName, some dagPath => (acc.1 ++ [jointName], acc.2 ++ [dagPath])
        | _, _ => acc)
      (animatedJointNames, animatedJointPaths), [])

/-! ## The writer -/

/-- Class `PxrUsdTranslators_JointWriter`: its data members, and the dag path
and USD path of the base class `UsdMayaPrimWriter`. -/
structure PxrUsdTranslators_JointWriter where
  /-- Answer of `GetDagPath()`. -/
  dagPath : MDagPath
  /-- The USD path handed to the constructor. -/
  usdPath : SdfPath
  _valid : Bool
  _skel : Option UsdSkelSkeleton
  /-- Member `_usdPrim` of the base class: the path of the prim, when set. -/
  _usdPrim : Option SdfPath
  _skelAnim : Option UsdSkelAnimation
  _skelXformAttr : UsdAttribute
  _skelXformIsAnimated : Bool
  _topology : UsdSkelTopology
  _skelToAnimMapper : UsdSkelAnimMapper
  _skelXformPath : MDagPath
  _jointHierarchyRootPath : MDagPath
  _joints : List MDagPath
  _animatedJoints : List MDagPath

/-- The writer as the member initialisers leave it, before the constructor body
runs: `_valid(false)`, default-constructed members. The constructor does not
initialise `_skelXformIsAnimated`; its starting value is an argument. -/
def PxrUsdTranslators_JointWriter.initial (dagPath : MDagPath) (usdPath : SdfPath)
    (skelXformIsAnimated : Bool) : PxrUsdTranslators_JointWriter :=
  { dagPath := dagPath
    usdPath := usdPath
    _valid := false
    _skel := none
    _usdPrim := none
    _skelAnim := none
    _skelXformAttr := invalidAttr
    _skelXformIsAnimated := skelXformIsAnimated
    _topology := ⟨[]⟩
    _skelToAnimMapper := ⟨[], []⟩
    _skelXformPath := ⟨""⟩
    _jointHierarchyRootPath := ⟨""⟩
    _joints := []
    _animatedJoints := [] }

/-- The constructor `PxrUsdTranslators_JointWriter::PxrUsdTranslators_JointWriter`
(source lines 69-92): the new writer and the events of the construction. -/
def PxrUsdTranslators_JointWriter.construct (env : Env) (dagPath : MDagPath)
    (usdPath : SdfPath) (skelXformIsAnimated : Bool) :
    PxrUsdTranslators_JointWriter × List Event :=
  let w := PxrUsdTranslators_JointWriter.initial dagPath usdPath skelXformIsAnimated
  if !env.dagPathIsValid dagPath then
    (w, [Event.diag (Diag.tfVerifyFailed "GetDagPath().isValid()")])
  else if env.exportSkels ≠ exportSkelsAuto ∧ env.exportSkels ≠ exportSkelsExplicit then
    (w, [])
  else
    match env.defineSkeleton usdPath with
    | none => (w, [Event.DefineSkeleton usdPath, Event.diag (Diag.tfVerifyFailed "_skel")])
    | some skel =>
      ({ w with _skel := some skel, _usdPrim := some skel.primPath },
        [Event.DefineSkeleton usdPath])

/-- Did the constructor return early, leaving the skeleton prim missing? -/
def PxrUsdTranslators_JointWriter.constructorReturnedEarly (env : Env) (dagPath : MDagPath)
    (usdPath : SdfPath) : Bool :=
  !env.dagPathIsValid dagPath
    || (decide (env.exportSkels ≠ exportSkelsAuto) && decide (env.exportSkels ≠ exportSkelsExplicit))
    || (env.defineSkeleton usdPath).isNone

/-- The text of the coding error of a failed topology validation. -/
def topologyInvalidMsg (whyNotValid : String) : String :=
  "Joint topology is invalid: " ++ whyNotValid

/-- The text of the warning of a failed rest-transform computation. -/
def restTransformsWarning : String := "Unable to set rest transforms"

/-- The text of the coding error of a missing SkelAnimation in `Write`. -/
def skelAnimMissingMsg (animPath : SdfPath) : String :=
  "SkelAnimation <" ++ animPath.text ++ "> doesn't exist but should "
    ++ "have been created during default-time pass."

/-- Method `_WriteRestState`, first part (source lines 364-388): the skeleton
marker, the joint hierarchy, the joint names, the topology and its
validation. Returns the joint names, whether the root is the special skeleton
joint, whether validation passed, the writer and the log. -/
def PxrUsdTranslators_JointWriter.restStateTopology (env : Env)
    (w : PxrUsdTranslators_JointWriter) (log : List Event) :
    List TfToken × Bool × Bool × PxrUsdTranslators_JointWriter × List Event :=
  let haveUsdSkelXform := env.IsUsdSkeleton w.dagPath
  let log1 :=
    if !haveUsdSkelXform then log ++ [Event.MarkSkelAsMayaGenerated w._skel] else log
  let comps := env.getJointHierarchyComponents w.dagPath
  let w1 : PxrUsdTranslators_JointWriter :=
    { w with _skelXformPath := comps.1, _jointHierarchyRootPath := comps.2.1,
             _joints := comps.2.2 }
  let skelJointNames := getJointNames env w1._joints
  let w2 : PxrUsdTranslators_JointWriter :=
    { w1 with _topology := env.topologyOfNames skelJointNames }
  let v := w2._topology.Validate
  if !v.1 then
    (skelJointNames, haveUsdSkelXform, false, w2,
      log1 ++ [Event.diag (Diag.tfCodingError (topologyInvalidMsg v.2))])
  else (skelJointNames, haveUsdSkelXform, true, w2, log1)

/-- Method `_WriteRestState`, second part (source lines 390-426): the binding
API, the joints, the bind transforms, the rest transforms, the animated joints.
Returns the animated joint names, the writer and the log. -/
def PxrUsdTranslators_JointWriter.restStateAttrs (env : Env)
    (skelJointNames : List TfToken) (w : PxrUsdTranslators_JointWriter) (log : List Event) :
    List TfToken × PxrUsdTranslators_JointWriter × List Event :=
  let log1 := log ++ [Event.GetBindingAPIForAuthoring w._skel]
  let log2 := log1 ++
    [Event.SetAttribute (skelAttr w._skel jointsAttrName) (VtValue.tokens skelJointNames)
      UsdTimeCode.Default]
  let skelPath := skelPrimPath w._skel
  let log3 := log2 ++ [Event.MarkSkelBindings skelPath env.exportSkels]
  let bind := _GetJointWorldBindTransforms env w._topology w._joints
  let log4 := log3 ++ bind.2.map Event.diag ++
    [Event.SetAttribute (skelAttr w._skel bindTransformsAttrName) (VtValue.matrices bind.1)
      UsdTimeCode.Default]
  let rootXf := _GetJointWorldTransform env w._jointHierarchyRootPath
  let rest := _GetJointLocalTransforms env w._topology w._joints rootXf []
  let restXforms := rest.2
  let log5 :=
    if rest.1 then
      log4 ++ [Event.SetAttribute (skelAttr w._skel restTransformsAttrName)
        (VtValue.matrices restXforms) UsdTimeCode.Default]
    else log4 ++ [Event.diag (Diag.tfWarn restTransformsWarning)]
  let anim := _GetAnimatedJoints skelJointNames w._joints restXforms [] w._animatedJoints
  let w1 : PxrUsdTranslators_JointWriter := { w with _animatedJoints := anim.1.2 }
  (anim.1.1, w1, log5 ++ anim.2.map Event.diag)

/-- Method `_WriteRestState`, third part (source lines 428-457): the skeleton
xform and the SkelAnimation. Returns the result of `_WriteRestState`. -/
def PxrUsdTranslators_JointWriter.restStateAnim (env : Env) (haveUsdSkelXform : Bool)
    (skelJointNames animJointNames : List TfToken) (w : PxrUsdTranslators_JointWriter)
    (log : List Event) : Bool × PxrUsdTranslators_JointWriter × List Event :=
  let st : PxrUsdTranslators_JointWriter × List Event :=
    if haveUsdSkelXform then
      ({ w with
          _skelXformAttr := skelAttr w._skel matrixXformAttrName,
          _skelXformIsAnimated :=
            if !env.timeSamplesEmpty then env.isAnimated w._skelXformPath else false },
        log ++ [Event.MakeMatrixXform w._skel])
    else (w, log)
  let w1 := st.1
  let log1 := st.2
  if !animJointNames.isEmpty then
    let animPath := env.getAnimationPath (skelPrimPath w1._skel)
    let w2 : PxrUsdTranslators_JointWriter :=
      { w1 with _skelAnim := env.defineSkelAnimation animPath }
    let log2 := log1 ++ [Event.DefineSkelAnimation animPath]
    match w2._skelAnim with
    | some skelAnim =>
      ( true,
        { w2 with _skelToAnimMapper := ⟨skelJointNames, animJointNames⟩ },
        log2 ++
          [ Event.SetAttribute (animAttr skelAnim jointsAttrName)
              (VtValue.tokens animJointNames) UsdTimeCode.Default,
            Event.SetAnimationSource animPath ] )
    | none => (false, w2, log2 ++ [Event.diag (Diag.tfVerifyFailed "_skelAnim")])
  else (true, w1, log1)

/-- Method `PxrUsdTranslators_JointWriter::_WriteRestState`: its return value,
the writer and the log after it. -/
def PxrUsdTranslators_JointWriter._WriteRestState (env : Env)
    (w : PxrUsdTranslators_JointWriter) (log : List Event) :
    Bool × PxrUsdTranslators_JointWriter × List Event :=
  let t := PxrUsdTranslators_JointWriter.restStateTopology env w log
  let skelJointNames := t.1
  let haveUsdSkelXform := t.2.1
  if !t.2.2.1 then (false, t.2.2.2.1, t.2.2.2.2)
  else
    let a := PxrUsdTranslators_JointWriter.restStateAttrs env skelJointNames t.2.2.2.1 t.2.2.2.2
    PxrUsdTranslators_JointWriter.restStateAnim env haveUsdSkelXform skelJointNames a.1 a.2.1 a.2.2

/-- Method `Write`, the default-time pass (source lines 463-465): at the default
time code `_valid` becomes the result of `_WriteRestState`; at any other time
code nothing happens here. -/
def PxrUsdTranslators_JointWriter.writeRestPass (env : Env) (usdTime : UsdTimeCode)
    (w : PxrUsdTranslators_JointWriter) (log : List Event) :
    PxrUsdTranslators_JointWriter × List Event :=
  if usdTime.IsDefault then
    let r := PxrUsdTranslators_JointWriter._WriteRestState env w log
    ({ r.2.1 with _valid := r.1 }, r.2.2)
  else (w, log)

/-- Method `Write`, the packed joint animation (source lines 483-528): the
events it appends. -/
def PxrUsdTranslators_JointWriter.writeAnimation (env : Env) (usdTime : UsdTimeCode)
    (w : PxrUsdTranslators_JointWriter) : List Event :=
  if !w._animatedJoints.isEmpty then
    match w._skelAnim with
    | none =>
      let animPath := env.getAnimationPath (skelPrimPath w._skel)
      [Event.diag (Diag.tfCodingError (skelAnimMissingMsg animPath))]
    | some skelAnim =>
      let rootXf := _GetJointWorldTransform env w._jointHierarchyRootPath
      let l := _GetJointLocalTransforms env w._topology w._joints rootXf []
      if l.1 then
        let localXforms := l.2
        let m := w._skelToAnimMapper.Remap localXforms
        if m.1 then
          let animLocalXforms := m.2
          match UsdSkelDecomposeTransforms env animLocalXforms with
          | some (translations, rotations, scales) =>
            [ Event.SetAttribute (animAttr skelAnim translationsAttrName)
                (VtValue.vec3fs translations) usdTime,
              Event.SetAttribute (animAttr skelAnim rotationsAttrName)
                (VtValue.quatfs rotations) usdTime,
              Event.SetAttribute (animAttr skelAnim scalesAttrName)
                (VtValue.vec3hs scales) usdTime ]
          | none => []
        else []
      else []
  else []

/-- Method `Write`, after the default-time pass (source lines 467-528): nothing
on an invalid writer; otherwise the skeleton xform and the joint animation. -/
def PxrUsdTranslators_JointWriter.writeSample (env : Env) (usdTime : UsdTimeCode)
    (w : PxrUsdTranslators_JointWriter) (log : List Event) :
    PxrUsdTranslators_JointWriter × List Event :=
  if !w._valid then (w, log)
  else
    let log1 :=
      if (usdTime.IsDefault || w._skelXformIsAnimated) && w._skelXformAttr.isValid then
        let localXf := _GetJointLocalTransform env w._skelXformPath
        log ++ [Event.SetAttribute w._skelXformAttr (VtValue.matrix localXf) usdTime]
      else log
    (w, log1 ++ PxrUsdTranslators_JointWriter.writeAnimation env usdTime w)

/-- Method `PxrUsdTranslators_JointWriter::Write`: the writer and the log after
a call at the given time code. -/
def PxrUsdTranslators_JointWriter.Write (env : Env) (usdTime : UsdTimeCode)
    (w : PxrUsdTranslators_JointWriter) (log : List Event) :
    PxrUsdTranslators_JointWriter × List Event :=
  let r := PxrUsdTranslators_JointWriter.writeRestPass env usdTime w log
  PxrUsdTranslators_JointWriter.writeSample env usdTime r.1 r.2

/-- A run of `Write` calls, each with its own scene state and time code. -/
def PxrUsdTranslators_JointWriter.WriteAll :
    List (Env × UsdTimeCode) → PxrUsdTranslators_JointWriter × List Event →
      PxrUsdTranslators_JointWriter × List Event
  | [], st => st
  | (env, usdTime) :: rest, st =>
    PxrUsdTranslators_JointWriter.WriteAll rest
      (PxrUsdTranslators_JointWriter.Write env usdTime st.1 st.2)

/-! ## Specification-side definitions: bind-transform priority -/

/-- The bindPreMatrix entry that a destination plug yields: the plug sits on a
skin cluster whose function set, `bindPreMatrix` plug and matrix data at the
plug's logical index can all be read. -/
def skinClusterBindPreMatrix (plgDest : MPlug) : Option MMatrix :=
  if plgDest.node.hasFnSkinClusterFilter && plgDest.node.fnStatus then
    match plgDest.node.bindPreMatrix with
    | some entries => entries plgDest.logicalIndex
    | none => none
  else none

/-- The world matrix recorded in the member slot of a dagPose node that a
destination plug yields, when everything can be read. -/
def dagPoseWorldMatrix (plgDest : MPlug) : Option MMatrix :=
  if plgDest.node.hasFnDagPose && plgDest.node.fnStatus then
    match plgDest.node.worldMatrix with
    | some entries => entries plgDest.logicalIndex
    | none => none
  else none

/-- Priority 1: the first readable bindPreMatrix entry among the skin-cluster
destinations of the joint's `worldMatrix`, instance by instance. -/
def firstSkinClusterBindPreMatrix (dagNode : JointNode) : Option MMatrix :=
  match dagNode.worldMatrixPlug with
  | none => none
  | some plug =>
    ((List.range plug.numElements).flatMap plug.destinations).findSome? skinClusterBindPreMatrix

/-- Priority 2: the first readable member slot among the dagPose nodes fed by
the joint's `message` plug. -/
def firstDagPoseWorldMatrix (dagNode : JointNode) : Option MMatrix :=
  match dagNode.messagePlug with
  | none => none
  | some plgMsg =>
    if plgMsg.isSource then plgMsg.destinations.findSome? dagPoseWorldMatrix else none

/-- The bind transform in the priority order of the specification: skin
cluster, then dagPose, then the `bindPose` attribute, then the identity. -/
def bindTransformByPriority (dagNode : JointNode) : GfMatrix4d :=
  match firstSkinClusterBindPreMatrix dagNode with
  | some m => GetInverse m
  | none =>
    match firstDagPoseWorldMatrix dagNode with
    | some m => m
    | none =>
      match dagNode.bindPose with
      | some m => m
      | none => 1

/-- The number of `MGlobal::displayWarning` messages among the diagnostics. -/
def displayWarningCount (diags : List Diag) : Nat := diags.countP Diag.isDisplayWarning

/-- Invariant of the skin-cluster loop: once there is a result, `resultNode`
is a node whose function set could be constructed. -/
def BindScan.ok (st : BindScan) : Prop :=
  st.hasResult = true → ∃ n : MObject, st.resultNode = some n ∧ n.fnStatus = true

/-- The number of warnings that a later readable entry `m` adds when the
result kept is `kept`. -/
def mismatchCount (kept : GfMatrix4d) (ms : List MMatrix) : Nat :=
  ms.countP (fun m => !GfIsClose (GetInverse m) kept bindPoseTolerance)

/-! ## Sample data -/

/-- A skin cluster whose `bindPreMatrix` entries all hold `m`. -/
def sampleSkinCluster (name : String) (m : MMatrix) : MObject :=
  { hasFnSkinClusterFilter := true
    hasFnDagPose := false
    fnStatus := true
    name := name
    bindPreMatrix := some (fun _ => some m)
    worldMatrix := none }

/-- The `worldMatrix` plug of a joint bound by two skin clusters whose
`bindPreMatrix` entries are the identity and twice the identity. -/
def sampleTwoDeformerPlug : WorldMatrixPlug :=
  { numElements := 1
    numElementsStatus := true
    destinations := fun _ =>
      [ { node := sampleSkinCluster "skinCluster1" 1, isElement := true, logicalIndex := 0 },
        { node := sampleSkinCluster "skinCluster2" 2, isElement := true, logicalIndex := 0 } ] }

/-- A joint bound by the two skin clusters of `sampleTwoDeformerPlug`. -/
def sampleBoundJoint : JointNode :=
  { name := "joint1"
    worldMatrixPlug := some sampleTwoDeformerPlug
    messagePlug := none
    bindPose := none
    inclusiveMatrix := some 1
    transformation := some 1 }

/-- The `worldMatrix` plug of a joint bound by two skin clusters whose
`bindPreMatrix` entries are both the identity. -/
def sampleMatchingDeformerPlug : WorldMatrixPlug :=
  { numElements := 1
    numElementsStatus := true
    destinations := fun _ =>
      [ { node := sampleSkinCluster "skinCluster1" 1, isElement := true, logicalIndex := 0 },
        { node := sampleSkinCluster "skinCluster2" 1, isElement := true, logicalIndex := 0 } ] }

/-- A joint bound by the two skin clusters of `sampleMatchingDeformerPlug`. -/
def sampleMatchingJoint : JointNode :=
  { name := "joint1"
    worldMatrixPlug := some sampleMatchingDeformerPlug
    messagePlug := none
    bindPose := none
    inclusiveMatrix := some 1
    transformation := some 1 }

/-- The `worldMatrix` plug of an instanced joint bound by two skin clusters:
element 0 goes to a skin cluster whose `bindPreMatrix` entries are the
identity, element 1 to one whose entries are twice the identity. -/
def sampleSplitDeformerPlug : WorldMatrixPlug :=
  { numElements := 2
    numElementsStatus := true
    destinations := fun instanceIndex =>
      if instanceIndex = 0 then
        [ { node := sampleSkinCluster "skinCluster1" 1, isElement := true, logicalIndex := 0 } ]
      else if instanceIndex = 1 then
        [ { node := sampleSkinCluster "skinCluster2" 2, isElement := true, logicalIndex := 0 } ]
      else [] }

/-- A joint bound by the two skin clusters of `sampleSplitDeformerPlug`. -/
def sampleSplitJoint : JointNode :=
  { name := "joint1"
    worldMatrixPlug := some sampleSplitDeformerPlug
    messagePlug := none
    bindPose := none
    inclusiveMatrix := some 1
    transformation := some 1 }

/-- A joint with no skin cluster, no dagPose and no `bindPose` attribute, at
the origin. -/
def sampleFreeJoint : JointNode :=
  { name := "joint1"
    worldMatrixPlug := none
    messagePlug := none
    bindPose := none
    inclusiveMatrix := some 1
    transformation := some 1 }

/-- A scene of one root joint: every dag path reads as `node`, the hierarchy
under the writer's path has the joints `joints`, and the topology of the
names is `topology`. -/
def sampleEnv (node : JointNode) (joints : List MDagPath) (topology : UsdSkelTopology)
    (exportSkels : TfToken) : Env :=
  { node := fun _ => node
    dagPathIsValid := fun _ => true
    exportSkels := exportSkels
    timeSamplesEmpty := false
    defineSkeleton := fun usdPath => some ⟨usdPath⟩
    IsUsdSkeleton := fun _ => false
    getJointHierarchyComponents := fun _ => (⟨""⟩, ⟨"|rig"⟩, joints)
    jointName := fun dagPath => ⟨dagPath.fullPathName⟩
    topologyOfNames := fun _ => topology
    isAnimated := fun _ => false
    getAnimationPath := fun skelPath => ⟨skelPath.text ++ "/Animation"⟩
    defineSkelAnimation := fun animPath => some ⟨animPath⟩
    decomposeTransform := fun xf =>
      some (⟨xf 3 0, xf 3 1, xf 3 2⟩, ⟨1, 0, 0, 0⟩, ⟨1, 1, 1⟩) }

/-! ## Specification-side definitions: composing local transforms -/

/-- The composition of the local transform of joint `i` with the local
transforms of its ancestors along the topology: the local transform of a joint
without a parent, otherwise the joint's local transform times the composition
for its parent. `fuel` bounds the length of the chain of ancestors walked. -/
def composeWithAncestors (topology : UsdSkelTopology) (localXforms : List GfMatrix4d) :
    Nat → Nat → Option GfMatrix4d
  | 0, _ => none
  | fuel + 1, i =>
    let parent := topology.GetParent i
    if 0 ≤ parent then
      match composeWithAncestors topology localXforms fuel parent.toNat with
      | some parentXform => some (localXforms.getD i 0 * parentXform)
      | none => none
    else some (localXforms.getD i 0)

/-- The parent-before-child invariant of a joint topology: every joint either
has no parent or has a parent that appears earlier in the sequence. -/
def UsdSkelTopology.parentsFirst (t : UsdSkelTopology) : Prop :=
  ∀ i, i < t.size → t.GetParent i < 0 ∨ t.GetParent i < (i : Int)

/-- A writer that is valid and has an animated joint but no SkelAnimation. -/
def sampleOrphanWriter : PxrUsdTranslators_JointWriter :=
  { PxrUsdTranslators_JointWriter.initial ⟨"|rig|a"⟩ ⟨"/rig/a"⟩ false with
    _valid := true, _animatedJoints := [⟨"|rig|a"⟩] }

/-- The writer of a one-joint skeleton after construction and its default-time
`Write`, with the log so far. -/
def sampleExportedWriter : PxrUsdTranslators_JointWriter × List Event :=
  PxrUsdTranslators_JointWriter.Write
    (sampleEnv sampleFreeJoint [⟨"|rig|a"⟩] ⟨[-1]⟩ exportSkelsAuto) UsdTimeCode.Default
    (PxrUsdTranslators_JointWriter.construct
      (sampleEnv sampleFreeJoint [⟨"|rig|a"⟩] ⟨[-1]⟩ exportSkelsAuto) ⟨"|rig|a"⟩ ⟨"/rig/a"⟩
      false).1
    (PxrUsdTranslators_JointWriter.construct
      (sampleEnv sampleFreeJoint [⟨"|rig|a"⟩] ⟨[-1]⟩ exportSkelsAuto) ⟨"|rig|a"⟩ ⟨"/rig/a"⟩
      false).2

/-! ## Specification-side definitions: trees, cycles, outside parents -/

/-- The parent of joint `i` as a joint index; `none` for a joint without a
parent. -/
def UsdSkelTopology.parentJoint (t : UsdSkelTopology) (i : Nat) : Option Nat :=
  if 0 ≤ t.GetParent i then some (t.GetParent i).toNat else none

/-- The joint reached from joint `i` by following the parent link `k` times. -/
def UsdSkelTopology.ancestor (t : UsdSkelTopology) : Nat → Nat → Option Nat
  | 0, i => some i
  | k + 1, i =>
    match t.parentJoint i with
    | some p => t.ancestor k p
    | none => none

/-- The joint list contains a cycle: following parent links from some joint
leads back to it. -/
def UsdSkelTopology.hasCycle (t : UsdSkelTopology) : Prop :=
  ∃ i k, i < t.size ∧ 0 < k ∧ t.ancestor k i = some i

/-- The joint list contains a joint whose parent lies outside the hierarchy:
its parent index is not the index of a joint of the list. -/
def UsdSkelTopology.hasOutsideParent (t : UsdSkelTopology) : Prop :=
  ∃ i, i < t.size ∧ (t.size : Int) ≤ t.GetParent i

/-! ## `OpUndoItemRecorder` (`lib/mayaUsd/undo/OpUndoItemRecorder.cpp`) -/

/-- Type `OpUndoItem`: one recorded undo item. -/
structure OpUndoItem where
  name : String
  deriving DecidableEq, Repr

/-- Type `OpUndoItemList`: the undo items it holds, in recording order. -/
structure OpUndoItemList where
  items : List OpUndoItem
  deriving DecidableEq, Repr

/-- Modelled from the spec: `OpUndoItemList::clear` (maya-usd
`undo/OpUndoItems`, not under src/) empties the list. -/
def OpUndoItemList.clear (_l : OpUndoItemList) : OpUndoItemList := ⟨[]⟩

/-- Modelled from the spec: `OpUndoItemList::addItem` (maya-usd
`undo/OpUndoItems`, not under src/) records an item at the end of the list. -/
def OpUndoItemList.addItem (l : OpUndoItemList) (item : OpUndoItem) : OpUndoItemList :=
  ⟨l.items ++ [item]⟩

/-- The two lists an `OpUndoItemRecorder` works on: the caller-supplied list
that `_undoInfo` refers to, and the global list `OpUndoItemList::instance()`. -/
structure UndoLists where
  undoInfo : OpUndoItemList
  globalList : OpUndoItemList
  deriving DecidableEq, Repr

/-- The constructor `OpUndoItemRecorder::OpUndoItemRecorder` (source lines
23-30): clears the given list and the global list. -/
def OpUndoItemRecorder.construct (s : UndoLists) : UndoLists :=
  { undoInfo := s.undoInfo.clear, globalList := s.globalList.clear }

/-- The destructor `OpUndoItemRecorder::~OpUndoItemRecorder` (source lines
32-38): move-assigns the global list into the given list, then clears the
global list. `movedFrom` is what the move leaves behind in the global list. -/
def OpUndoItemRecorder.destruct (movedFrom : OpUndoItemList) (s : UndoLists) : UndoLists :=
  let afterMove : UndoLists := { undoInfo := s.globalList, globalList := movedFrom }
  { afterMove with globalList := afterMove.globalList.clear }

/-- Recording items into the global list, one after the other, while a
recorder is alive. -/
def UndoLists.record (s : UndoLists) (recorded : List OpUndoItem) : UndoLists :=
  { s with globalList := recorded.foldl OpUndoItemList.addItem s.globalList }

/-! ## `UsdTransform3dPointInstanceHandler` (`lib/mayaUsd/ufe/UsdTransform3dPointInstance.cpp`) -/

/-- Type `UsdUfe::UsdSceneItem`: what the handler reads of a USD scene item. -/
structure UsdSceneItem where
  path : String
  /-- Answer of `usdItem->isPointInstance()`. -/
  isPointInstance : Bool
  deriving DecidableEq, Repr

/-- Type `Ufe::SceneItem::Ptr`: a null pointer, a scene item of another
runtime, or a USD scene item. -/
inductive SceneItemPtr where
  | null
  | nonUsd (path : String)
  | usd (item : UsdSceneItem)
  deriving DecidableEq, Repr

/-- Function `downcast` (usdUfe, not under src/), a dynamic pointer cast to
`UsdSceneItem`: `none` is the null pointer. -/
def downcast : SceneItemPtr → Option UsdSceneItem
  | .usd item => some item
  | _ => none

/-- Type `Ufe::EditTransform3dHint`. -/
structure EditTransform3dHint where
  type : Nat
  deriving DecidableEq, Repr

/-- Type `Ufe::Transform3d::Ptr`: a null pointer, a new
`UsdTransform3dPointInstance` on an item, or an object made by another
handler. -/
inductive Transform3dPtr where
  | null
  | pointInstance (item : UsdSceneItem)
  | other (tag : String)
  deriving DecidableEq, Repr

/-- Function `UsdTransform3dPointInstance::create` (source lines 61-65). -/
def UsdTransform3dPointInstance.create (item : UsdSceneItem) : Transform3dPtr :=
  Transform3dPtr.pointInstance item

/-- Type `Ufe::Transform3dHandler`: the next handler in the chain, as the two
virtual functions the point-instance handler calls on it. -/
structure Transform3dHandler where
  transform3d : SceneItemPtr → Transform3dPtr
  editTransform3d : SceneItemPtr → EditTransform3dHint → Transform3dPtr

/-- One call made on the next handler. -/
inductive NextHandlerCall where
  | transform3d (item : SceneItemPtr)
  | editTransform3d (item : SceneItemPtr) (hint : EditTransform3dHint)
  deriving DecidableEq, Repr

/-- Method `UsdTransform3dPointInstanceHandler::transform3d` (source lines
195-208): the pointer returned and the calls made on `_nextHandler`. -/
def UsdTransform3dPointInstanceHandler.transform3d (_nextHandler : Transform3dHandler)
    (item : SceneItemPtr) : Transform3dPtr × List NextHandlerCall :=
  match downcast item with
  | none => (Transform3dPtr.null, [])
  | some usdItem =>
    if !usdItem.isPointInstance then
      (_nextHandler.transform3d item, [NextHandlerCall.transform3d item])
    else (UsdTransform3dPointInstance.create usdItem, [])

/-- Method `UsdTransform3dPointInstanceHandler::editTransform3d` (source lines
211-225): the pointer returned and the calls made on `_nextHandler`. -/
def UsdTransform3dPointInstanceHandler.editTransform3d (_nextHandler : Transform3dHandler)
    (item : SceneItemPtr) (hint : EditTransform3dHint) :
    Transform3dPtr × List NextHandlerCall :=
  match downcast item with
  | none => (Transform3dPtr.null, [])
  | some usdItem =>
    if !usdItem.isPointInstance then
      (_nextHandler.editTransform3d item hint, [NextHandlerCall.editTransform3d item hint])
    else (UsdTransform3dPointInstance.create usdItem, [])

/-- A next handler that answers every item with an object of its own. -/
def sampleNextHandler : Transform3dHandler :=
  { transform3d := fun _ => Transform3dPtr.other "next"
    editTransform3d := fun _ _ => Transform3dPtr.other "next-edit" }

/-! ## Specification-side definitions: the samples of one `Write` -/

/-- The joint-local transforms that `Write` computes for the writer's joints
in the current scene (source lines 496-499): the success flag and one matrix
per joint, in skeleton order. -/
def PxrUsdTranslators_JointWriter.sampleLocalXforms (env : Env)
    (w : PxrUsdTranslators_JointWriter) : Bool × List GfMatrix4d :=
  _GetJointLocalTransforms env w._topology w._joints
    (_GetJointWorldTransform env w._jointHierarchyRootPath) []

/-- The local transforms of `sampleLocalXforms` remapped into the order of the
animated joints (source lines 502-503). -/
def PxrUsdTranslators_JointWriter.sampleAnimLocalXforms (env : Env)
    (w : PxrUsdTranslators_JointWriter) : Bool × List GfMatrix4d :=
  w._skelToAnimMapper.Remap (PxrUsdTranslators_JointWriter.sampleLocalXforms env w).2

/-- The three animation-channel writes of one `Write` (source lines 516-524). -/
def animSampleEvents (skelAnim : UsdSkelAnimation) (usdTime : UsdTimeCode)
    (translations : List GfVec3f) (rotations : List GfQuatf) (scales : List GfVec3h) :
    List Event :=
  [ Event.SetAttribute (animAttr skelAnim translationsAttrName)
      (VtValue.vec3fs translations) usdTime,
    Event.SetAttribute (animAttr skelAnim rotationsAttrName)
      (VtValue.quatfs rotations) usdTime,
    Event.SetAttribute (animAttr skelAnim scalesAttrName)
      (VtValue.vec3hs scales) usdTime ]

/-- The local transforms in animation order that a `Write` at frame 1 computes
for `sampleExportedWriter`. -/
def sampleAnimLocalXformsAtFrame1 : List GfMatrix4d :=
  (PxrUsdTranslators_JointWriter.sampleAnimLocalXforms
    (sampleEnv sampleFreeJoint [⟨"|rig|a"⟩] ⟨[-1]⟩ exportSkelsAuto)
    (PxrUsdTranslators_JointWriter.writeRestPass
      (sampleEnv sampleFreeJoint [⟨"|rig|a"⟩] ⟨[-1]⟩ exportSkelsAuto) (UsdTimeCode.Numeric 1)
      sampleExportedWriter.1 sampleExportedWriter.2).1).2

/-! ## Sample data: repeated default-time passes -/

/-- The joint names that an event sets on the given attribute, when it is a
`SetAttribute` call with a token array on that attribute. -/
def Event.tokensSetOn (attr : UsdAttribute) : Event → Option (List TfToken)
  | .SetAttribute a (.tokens v) _ => if a = attr then some v else none
  | _ => none

/-- The joint-name lists authored on the joints attribute of the SkelAnimation,
in program order. -/
def animJointNamesAuthored (skelAnim : UsdSkelAnimation) (log : List Event) :
    List (List TfToken) :=
  log.filterMap (Event.tokensSetOn (animAttr skelAnim jointsAttrName))

/-- The scene of `sampleEnv` in which `UsdSkelAnimation::Define` fails. -/
def sampleEnvDefineFails (node : JointNode) (joints : List MDagPath)
    (topology : UsdSkelTopology) : Env :=
  { sampleEnv node joints topology exportSkelsAuto with defineSkelAnimation := fun _ => none }

/-- The writer of `sampleExportedWriter` after a second `Write` at the default
time code in the same scene, with the log of that second call alone. -/
def sampleTwiceExportedWriter : PxrUsdTranslators_JointWriter × List Event :=
  PxrUsdTranslators_JointWriter.Write
    (sampleEnv sampleFreeJoint [⟨"|rig|a"⟩] ⟨[-1]⟩ exportSkelsAuto) UsdTimeCode.Default
    sampleExportedWriter.1 []

/-- A freshly constructed writer after two `Write` calls at the default time
code: the first in a scene with one joint where `UsdSkelAnimation::Define`
fails, the second in a scene whose hierarchy has no joints. The log is that of
the second call alone. -/
def sampleStaleWriter : PxrUsdTranslators_JointWriter × List Event :=
  PxrUsdTranslators_JointWriter.Write
    (sampleEnv sampleFreeJoint [] ⟨[]⟩ exportSkelsAuto) UsdTimeCode.Default
    (PxrUsdTranslators_JointWriter.Write
      (sampleEnvDefineFails sampleFreeJoint [⟨"|rig|a"⟩] ⟨[-1]⟩) UsdTimeCode.Default
      (PxrUsdTranslators_JointWriter.construct
        (sampleEnv sampleFreeJoint [⟨"|rig|a"⟩] ⟨[-1]⟩ exportSkelsAuto) ⟨"|rig|a"⟩ ⟨"/rig/a"⟩
        false).1 []).1
    []

/-! ## Specification-side definitions: a chain of three translated joints -/

/-- The matrix of a pure translation by `v`: the identity with the offset in
the last row (the row-vector convention of `GfMatrix4d`). -/
def translationMatrix (v : GfVec3f) : GfMatrix4d :=
  !![1, 0, 0, 0; 0, 1, 0, 0; 0, 0, 1, 0; v.x, v.y, v.z, 1]

/-- The identity quaternion. -/
def identityQuat : GfQuatf := ⟨1, 0, 0, 0⟩

/-- The scale (1, 1, 1). -/
def unitScale : GfVec3h := ⟨1, 1, 1⟩

/-- The pose of a linear chain root, mid, tip in a scene state: the hierarchy
root has the invertible world transform `rootXf`, each joint carries only a
translation offset (`a`, `b`, `c`) relative to its parent, so that its world
matrix is its offset times the world matrix of its parent; and the
decomposition routine decomposes a pure translation into the offset, the
identity quaternion and the scale (1, 1, 1). -/
structure ChainPose (env : Env) (hierarchyRoot root mid tip : MDagPath)
    (rootXf : GfMatrix4d) (a b c : GfVec3f) : Prop where
  hierarchyRootWorld : _GetJointWorldTransform env hierarchyRoot = rootXf
  hierarchyRootInvertible : rootXf.det ≠ 0
  rootWorld : (env.node root).inclusiveMatrix = some (translationMatrix a * rootXf)
  midWorld : (env.node mid).inclusiveMatrix
    = some (translationMatrix b * (translationMatrix a * rootXf))
  tipWorld : (env.node tip).inclusiveMatrix
    = some (translationMatrix c * (translationMatrix b * (translationMatrix a * rootXf)))
  decomposesTranslation : ∀ v : GfVec3f,
    env.decomposeTransform (translationMatrix v) = some (v, identityQuat, unitScale)

/-- The scene of a linear chain root, mid, tip as the default-time pass of the
writer `w` reads it: the hierarchy under the writer's path is the three joints
below `hierarchyRoot`, not a round-tripped USD skeleton; the joint names are
distinct and their topology is the chain; no joint has skin-cluster, dagPose
or `bindPose` data; and the SkelAnimation prim can be defined. -/
structure ChainScene (env : Env) (w : PxrUsdTranslators_JointWriter)
    (hierarchyRoot root mid tip : MDagPath) (skelAnim : UsdSkelAnimation) : Prop where
  notUsdSkeleton : env.IsUsdSkeleton w.dagPath = false
  hierarchy : (env.getJointHierarchyComponents w.dagPath).2 = (hierarchyRoot, [root, mid, tip])
  namesDistinct : (getJointNames env [root, mid, tip]).Nodup
  chainTopology : env.topologyOfNames (getJointNames env [root, mid, tip]) = ⟨[-1, 0, 1]⟩
  noBindData : ∀ j ∈ [root, mid, tip],
    firstSkinClusterBindPreMatrix (env.node j) = none
      ∧ firstDagPoseWorldMatrix (env.node j) = none
      ∧ (env.node j).bindPose = none
  animationDefined :
    env.defineSkelAnimation (env.getAnimationPath (skelPrimPath w._skel)) = some skelAnim


/-! ## Sample data: a chain of three joints -/

/-- A joint with no skin cluster, no dagPose and no `bindPose` attribute whose
world matrix is `world`. -/
def sampleChainJoint (world : GfMatrix4d) : JointNode :=
  { sampleFreeJoint with inclusiveMatrix := some world }

/-- A scene with the chain `|rig|root`, `|rig|root|mid`, `|rig|root|mid|tip`
under a hierarchy root at the origin; each joint is offset from its parent by
a translation only. -/
def sampleChainEnv (a b c : GfVec3f) : Env :=
  { sampleEnv sampleFreeJoint [⟨"|rig|root"⟩, ⟨"|rig|root|mid"⟩, ⟨"|rig|root|mid|tip"⟩]
      ⟨[-1, 0, 1]⟩ exportSkelsAuto with
    node := fun dagPath =>
      if dagPath = ⟨"|rig|root"⟩ then sampleChainJoint (translationMatrix a)
      else if dagPath = ⟨"|rig|root|mid"⟩ then
        sampleChainJoint (translationMatrix b * translationMatrix a)
      else if dagPath = ⟨"|rig|root|mid|tip"⟩ then
        sampleChainJoint (translationMatrix c * (translationMatrix b * translationMatrix a))
      else sampleFreeJoint }

/-- The chain scene with the offsets (1,0,0), (0,2,0) and (0,0,3). -/
def sampleChain : Env := sampleChainEnv ⟨1, 0, 0⟩ ⟨0, 2, 0⟩ ⟨0, 0, 3⟩

/-- The writer constructed for `|rig` in `sampleChain`. -/
def sampleChainWriter : PxrUsdTranslators_JointWriter :=
  (PxrUsdTranslators_JointWriter.construct sampleChain ⟨"|rig"⟩ ⟨"/rig"⟩ false).1
/-! ## Theorems -/

/-! ### Bind transforms -/

theorem skinClusterStep_of_none (jointName : String) (st : BindScan) (p : MPlug)
    (h : skinClusterBindPreMatrix p = none) :
    (skinClusterStep jointName st p).result = st.result
      ∧ (skinClusterStep jointName st p).resultNode = st.resultNode
      ∧ (skinClusterStep jointName st p).hasResult = st.hasResult
      ∧ displayWarningCount (skinClusterStep jointName st p).diags
          = displayWarningCount st.diags := by
  unfold skinClusterBindPreMatrix at h
  unfold skinClusterStep
  cases hf : p.node.hasFnSkinClusterFilter <;> simp [hf] at h ⊢
  cases hs : p.node.fnStatus <;> simp [hs] at h ⊢
  · cases p.isElement <;> simp [displayWarningCount, Diag.isDisplayWarning]
  · cases hb : p.node.bindPreMatrix with
    | none => cases p.isElement <;> simp [displayWarningCount, Diag.isDisplayWarning]
    | some entries =>
      simp [hb] at h
      simp [h]
      cases p.isElement <;> simp [displayWarningCount, Diag.isDisplayWarning]


theorem skinClusterStep_first (jointName : String) (st : BindScan) (p : MPlug) (m : MMatrix)
    (h : skinClusterBindPreMatrix p = some m) (hno : st.hasResult = false) :
    (skinClusterStep jointName st p).result = GetInverse m
      ∧ (skinClusterStep jointName st p).hasResult = true
      ∧ (skinClusterStep jointName st p).ok
      ∧ displayWarningCount (skinClusterStep jointName st p).diags
          = displayWarningCount st.diags := by
  unfold skinClusterBindPreMatrix at h
  unfold skinClusterStep BindScan.ok
  cases hf : p.node.hasFnSkinClusterFilter <;> simp [hf] at h ⊢
  cases hs : p.node.fnStatus <;> simp [hs] at h ⊢
  cases hb : p.node.bindPreMatrix with
  | none => simp [hb] at h
  | some entries =>
    simp [hb] at h
    simp [h]
    cases p.isElement <;> simp [displayWarningCount, Diag.isDisplayWarning, hno, hs]

theorem skinClusterStep_later (jointName : String) (st : BindScan) (p : MPlug) (m : MMatrix)
    (h : skinClusterBindPreMatrix p = some m) (hhas : st.hasResult = true) (hok : st.ok) :
    (skinClusterStep jointName st p).result = st.result
      ∧ (skinClusterStep jointName st p).hasResult = true
      ∧ (skinClusterStep jointName st p).ok
      ∧ displayWarningCount (skinClusterStep jointName st p).diags
          = displayWarningCount st.diags + mismatchCount st.result [m] := by
  obtain ⟨n, hn, hns⟩ := hok hhas
  unfold skinClusterBindPreMatrix at h
  unfold skinClusterStep BindScan.ok
  cases hf : p.node.hasFnSkinClusterFilter <;> simp [hf] at h ⊢
  cases hs : p.node.fnStatus <;> simp [hs] at h ⊢
  cases hb : p.node.bindPreMatrix with
  | none => simp [hb] at h
  | some entries =>
    simp [hb] at h
    simp [h]
    cases hc : GfIsClose (GetInverse m) st.result bindPoseTolerance <;>
      cases p.isElement <;>
      simp [displayWarningCount, Diag.isDisplayWarning, hhas, hn, hns, hc, mismatchCount,
        List.countP_cons, List.countP_append]

theorem findSome_eq_head_filterMap {α β : Type} (f : α → Option β) (l : List α) :
    l.findSome? f = (l.filterMap f).head? := by
  induction l with
  | nil => rfl
  | cons a l ih =>
    cases h : f a with
    | none => rw [List.findSome?_cons, List.filterMap_cons, h]; exact ih
    | some b => rw [List.findSome?_cons, List.filterMap_cons, h]; rfl

theorem skinClusterFold_has (jointName : String) (l : List MPlug) :
    ∀ st : BindScan, st.hasResult = true → st.ok →
      (l.foldl (skinClusterStep jointName) st).result = st.result
        ∧ (l.foldl (skinClusterStep jointName) st).hasResult = true
        ∧ displayWarningCount (l.foldl (skinClusterStep jointName) st).diags
            = displayWarningCount st.diags
              + mismatchCount st.result (l.filterMap skinClusterBindPreMatrix) := by
  induction l with
  | nil => intro st hhas _; simp [hhas, mismatchCount]
  | cons p l ih =>
    intro st hhas hok
    simp only [List.foldl_cons]
    cases h : skinClusterBindPreMatrix p with
    | none =>
      obtain ⟨h1, h2, h3, h4⟩ := skinClusterStep_of_none jointName st p h
      have hok2 : (skinClusterStep jointName st p).ok := by
        intro _
        obtain ⟨n, hn, hns⟩ := hok hhas
        exact ⟨n, by rw [h2, hn], hns⟩
      obtain ⟨i1, i2, i3⟩ := ih _ (by rw [h3, hhas]) hok2
      refine ⟨by rw [i1, h1], i2, ?_⟩
      rw [i3, h4, h1, List.filterMap_cons, h]
    | some m =>
      obtain ⟨h1, h2, h3, h4⟩ := skinClusterStep_later jointName st p m h hhas hok
      obtain ⟨i1, i2, i3⟩ := ih _ h2 h3
      refine ⟨by rw [i1, h1], i2, ?_⟩
      rw [i3, h4, h1, List.filterMap_cons, h]
      simp [mismatchCount, List.countP_cons]
      omega

theorem skinClusterFold_none (jointName : String) (l : List MPlug) :
    ∀ st : BindScan, st.hasResult = false →
      match l.filterMap skinClusterBindPreMatrix with
      | [] =>
        (l.foldl (skinClusterStep jointName) st).hasResult = false
          ∧ displayWarningCount (l.foldl (skinClusterStep jointName) st).diags
              = displayWarningCount st.diags
      | m :: ms =>
        (l.foldl (skinClusterStep jointName) st).hasResult = true
          ∧ (l.foldl (skinClusterStep jointName) st).result = GetInverse m
          ∧ displayWarningCount (l.foldl (skinClusterStep jointName) st).diags
              = displayWarningCount st.diags + mismatchCount (GetInverse m) ms := by
  induction l with
  | nil => intro st hno; simp [hno]
  | cons p l ih =>
    intro st hno
    simp only [List.foldl_cons]
    cases h : skinClusterBindPreMatrix p with
    | none =>
      obtain ⟨_, _, h3, h4⟩ := skinClusterStep_of_none jointName st p h
      have := ih (skinClusterStep jointName st p) (by rw [h3, hno])
      rw [List.filterMap_cons, h]
      simp only
      cases hl : l.filterMap skinClusterBindPreMatrix with
      | nil => rw [hl] at this; simpa [h4] using this
      | cons m ms => rw [hl] at this; simpa [h4] using this
    | some m =>
      obtain ⟨h1, h2, h3, h4⟩ := skinClusterStep_first jointName st p m h hno
      obtain ⟨i1, i2, i3⟩ := skinClusterFold_has jointName l _ h2 h3
      rw [List.filterMap_cons, h]
      simp only
      exact ⟨i2, by rw [i1, h1], by rw [i3, h4, h1]⟩

theorem instanceLoop_result (jointName : String) (plug : WorldMatrixPlug) (idxs : List Nat) :
    ∀ diags : List Diag,
      (instanceLoop jointName plug idxs diags).1
        = ((idxs.flatMap plug.destinations).findSome? skinClusterBindPreMatrix).map GetInverse := by
  induction idxs with
  | nil => intro diags; rfl
  | cons i rest ih =>
    intro diags
    have hf := skinClusterFold_none jointName (plug.destinations i)
      { result := 0, resultNode := none, hasResult := false, diags := diags } rfl
    rw [List.flatMap_cons, List.findSome?_append, findSome_eq_head_filterMap _ (plug.destinations i)]
    unfold instanceLoop
    cases hl : (plug.destinations i).filterMap skinClusterBindPreMatrix with
    | nil =>
      rw [hl] at hf
      simp only [hf.1, Bool.false_eq_true, if_false, ih, List.head?_nil, Option.or]
    | cons m ms =>
      rw [hl] at hf
      simp only [hf.1, hf.2.1, if_true, List.head?_cons, Option.or, Option.map]

theorem instanceLoop_warnings (jointName : String) (plug : WorldMatrixPlug)
    (pre : List Nat) (k : Nat) (post : List Nat) (m : MMatrix) (ms : List MMatrix)
    (hpre : ∀ i ∈ pre, (plug.destinations i).filterMap skinClusterBindPreMatrix = [])
    (hk : (plug.destinations k).filterMap skinClusterBindPreMatrix = m :: ms) :
    ∀ diags : List Diag,
      (instanceLoop jointName plug (pre ++ k :: post) diags).1 = some (GetInverse m)
        ∧ displayWarningCount (instanceLoop jointName plug (pre ++ k :: post) diags).2
            = displayWarningCount diags + mismatchCount (GetInverse m) ms := by
  induction pre with
  | nil =>
    intro diags
    have hf := skinClusterFold_none jointName (plug.destinations k)
      { result := 0, resultNode := none, hasResult := false, diags := diags } rfl
    rw [hk] at hf
    simp only [List.nil_append]
    unfold instanceLoop
    simp only [hf.1, hf.2.1, if_true, hf.2.2, and_self]
  | cons i rest ih =>
    intro diags
    have hf := skinClusterFold_none jointName (plug.destinations i)
      { result := 0, resultNode := none, hasResult := false, diags := diags } rfl
    rw [hpre i (List.mem_cons_self _ _)] at hf
    have ih2 := ih (fun j hj => hpre j (List.mem_cons_of_mem _ hj))
      ((plug.destinations i).foldl (skinClusterStep jointName)
        { result := 0, resultNode := none, hasResult := false, diags := diags }).diags
    simp only [List.cons_append]
    unfold instanceLoop
    simp only [hf.1, Bool.false_eq_true, if_false]
    rw [ih2.1, ih2.2, hf.2]
    exact ⟨rfl, rfl⟩

theorem dagPoseLoop_result (l : List MPlug) :
    ∀ diags : List Diag, (dagPoseLoop l diags).1 = l.findSome? dagPoseWorldMatrix := by
  induction l with
  | nil => intro diags; rfl
  | cons p l ih =>
    intro diags
    rw [List.findSome?_cons]
    have hp : dagPoseWorldMatrix p
        = if p.node.hasFnDagPose && p.node.fnStatus then
            match p.node.worldMatrix with
            | some entries => entries p.logicalIndex
            | none => none
          else none := rfl
    rw [hp]
    unfold dagPoseLoop
    cases hf : p.node.hasFnDagPose
    · simp [ih, hf]
    · cases hs : p.node.fnStatus
      · simp [ih, hf, hs]
      · cases hb : p.node.worldMatrix with
        | none => simp [ih, hf, hs, hb]
        | some entries =>
          cases he : entries p.logicalIndex <;> simp [ih, he, hf, hs, hb]

theorem dagPoseLoop_warnings (l : List MPlug) :
    ∀ diags : List Diag,
      displayWarningCount (dagPoseLoop l diags).2 = displayWarningCount diags := by
  induction l with
  | nil => intro diags; rfl
  | cons p l ih =>
    intro diags
    have hv : displayWarningCount
        (if p.isElement then diags else diags ++ [Diag.tfVerifyFailed "plgDest.isElement()"])
        = displayWarningCount diags := by
      cases p.isElement <;> simp [displayWarningCount, Diag.isDisplayWarning]
    unfold dagPoseLoop
    cases hf : p.node.hasFnDagPose
    · simp [ih, hf]
    · cases hs : p.node.fnStatus
      · simp [ih, hv, hf, hs]
      · cases hb : p.node.worldMatrix with
        | none => simp [ih, hv, hf, hs, hb]
        | some entries =>
          cases he : entries p.logicalIndex <;> simp [ih, he, hv, hf, hs, hb]

theorem getJointWorldBindTransform_eq (env : Env) (dagPath : MDagPath) :
    (_GetJointWorldBindTransform env dagPath).1 = bindTransformByPriority (env.node dagPath) := by
  unfold _GetJointWorldBindTransform bindTransformByPriority firstSkinClusterBindPreMatrix
    firstDagPoseWorldMatrix
  generalize env.node dagPath = dagNode
  obtain ⟨name, wm, msg, bp, incl, tr⟩ := dagNode
  have tail : ∀ diags : List Diag,
      (match
          (match msg with
            | none => ((none : Option GfMatrix4d), diags)
            | some plgMsg =>
              if plgMsg.isSource then dagPoseLoop plgMsg.destinations diags
              else (none, diags)).1 with
        | some result => (result,
            (match msg with
              | none => ((none : Option GfMatrix4d), diags)
              | some plgMsg =>
                if plgMsg.isSource then dagPoseLoop plgMsg.destinations diags
                else (none, diags)).2)
        | none =>
          match bp with
          | some restTransformWorld => (restTransformWorld,
              (match msg with
                | none => ((none : Option GfMatrix4d), diags)
                | some plgMsg =>
                  if plgMsg.isSource then dagPoseLoop plgMsg.destinations diags
                  else (none, diags)).2)
          | none => (1,
              (match msg with
                | none => ((none : Option GfMatrix4d), diags)
                | some plgMsg =>
                  if plgMsg.isSource then dagPoseLoop plgMsg.destinations diags
                  else (none, diags)).2)).1
        = match (match msg with
            | none => none
            | some plgMsg =>
              if plgMsg.isSource then plgMsg.destinations.findSome? dagPoseWorldMatrix
              else none) with
          | some m => m
          | none =>
            match bp with
            | some m => m
            | none => 1 := by
    intro diags
    cases msg with
    | none => cases bp <;> rfl
    | some plgMsg =>
      obtain ⟨isSource, dests⟩ := plgMsg
      cases isSource
      · cases bp <;> rfl
      · have hr := dagPoseLoop_result dests diags
        simp only [if_true]
        cases hd : dests.findSome? dagPoseWorldMatrix with
        | none => rw [hd] at hr; simp only [hr]; cases bp <;> rfl
        | some m => rw [hd] at hr; simp only [hr]
  cases wm with
  | none => exact tail []
  | some plug =>
    simp only
    have hr := instanceLoop_result name plug (List.range plug.numElements)
      (if decide (plug.numElements < 2) && plug.numElementsStatus then []
        else [Diag.tfVerifyFailed "numInstance < 2 && status"])
    cases hd : ((List.range plug.numElements).flatMap plug.destinations).findSome?
      skinClusterBindPreMatrix with
    | some m => rw [hd] at hr; simp only [Option.map] at hr; simp only [hr]
    | none =>
      rw [hd] at hr
      simp only [Option.map] at hr
      simp only [hr]
      exact tail _

theorem getJointWorldBindTransforms_fold (env : Env) (jointDagPaths : List MDagPath) :
    ∀ acc : List GfMatrix4d × List Diag,
      (jointDagPaths.foldl
        (fun acc dagPath =>
          ((acc.1 ++ [(_GetJointWorldBindTransform env dagPath).1],
            acc.2 ++ (_GetJointWorldBindTransform env dagPath).2) : List GfMatrix4d × List Diag))
        acc).1
        = acc.1 ++ jointDagPaths.map (fun p => (_GetJointWorldBindTransform env p).1) := by
  induction jointDagPaths with
  | nil => intro acc; simp
  | cons p l ih => intro acc; simp [ih]

/-- C1. `_GetJointWorldBindTransform` returns, for every joint, the bind
transform in the priority order skin-cluster `bindPreMatrix` (inverted), then
dagPose member slot, then the joint's `bindPose` attribute, then the identity;
`_GetJointWorldBindTransforms` returns exactly one such matrix per input joint,
in input order. -/
theorem bindTransforms_follow_priority (env : Env) (topology : UsdSkelTopology)
    (jointDagPaths : List MDagPath) :
    (∀ dagPath : MDagPath,
      (_GetJointWorldBindTransform env dagPath).1
        = bindTransformByPriority (env.node dagPath))
    ∧ (_GetJointWorldBindTransforms env topology jointDagPaths).1
        = jointDagPaths.map (fun p => bindTransformByPriority (env.node p))
    ∧ (_GetJointWorldBindTransforms env topology jointDagPaths).1.length
        = jointDagPaths.length := by
  have h2 : (_GetJointWorldBindTransforms env topology jointDagPaths).1
      = jointDagPaths.map (fun p => bindTransformByPriority (env.node p)) := by
    unfold _GetJointWorldBindTransforms
    rw [getJointWorldBindTransforms_fold env jointDagPaths ([], [])]
    simp [getJointWorldBindTransform_eq]
  exact ⟨getJointWorldBindTransform_eq env, h2, by rw [h2, List.length_map]⟩

theorem range_split (n k : Nat) (hk : k < n) :
    ∃ post : List Nat, List.range n = List.range k ++ k :: post := by
  obtain ⟨m, rfl⟩ : ∃ m, n = k + (m + 1) := ⟨n - k - 1, by omega⟩
  refine ⟨(List.range m).map (fun i => k + (i + 1)), ?_⟩
  rw [List.range_add, List.range_succ_eq_map]
  simp [Function.comp_def]

theorem bindPoseTolerance_pos : 0 < bindPoseTolerance := by
  unfold bindPoseTolerance
  positivity

theorem bindPoseTolerance_lt : bindPoseTolerance < 1 / 1000000 := by
  unfold bindPoseTolerance
  norm_num

theorem mismatchCount_single (kept : GfMatrix4d) (m : MMatrix) :
    mismatchCount kept [m]
      = if GfIsClose (GetInverse m) kept bindPoseTolerance then 0 else 1 := by
  cases hc : GfIsClose (GetInverse m) kept bindPoseTolerance <;> simp [mismatchCount, hc]

theorem mismatchCount_single_far (kept : GfMatrix4d) (m : MMatrix)
    (h : ∃ i j, bindPoseTolerance < |GetInverse m i j - kept i j|) :
    mismatchCount kept [m] = 1 := by
  obtain ⟨i, j, hij⟩ := h
  have hc : GfIsClose (GetInverse m) kept bindPoseTolerance = false := by
    unfold GfIsClose
    rw [decide_eq_false_iff_not]
    intro hall
    exact absurd (hall i j) (not_lt.mpr (le_of_lt hij))
  simp [mismatchCount, hc]

theorem mismatchCount_single_same (m : MMatrix) :
    mismatchCount (GetInverse m) [m] = 0 := by
  have hc : GfIsClose (GetInverse m) (GetInverse m) bindPoseTolerance = true := by
    unfold GfIsClose
    rw [decide_eq_true_iff]
    intro i j
    simpa using bindPoseTolerance_pos
  simp [mismatchCount, hc]

theorem getInverse_one : GetInverse 1 = 1 := by
  simp [GetInverse]

theorem getInverse_two : GetInverse 2 = (1 / 2 : ℚ) • (1 : GfMatrix4d) := by
  have h : (2 : GfMatrix4d) = (2 : ℚ) • (1 : GfMatrix4d) := by
    rw [two_smul, one_add_one_eq_two]
  unfold GetInverse
  rw [h, Matrix.det_smul, Matrix.adjugate_smul]
  simp [smul_smul]
  norm_num

theorem getInverse_two_far :
    ∃ i j, (1 / 1000000 : ℚ)
      < |GetInverse (2 : MMatrix) i j - GetInverse (1 : MMatrix) i j| :=
  ⟨0, 0, by rw [getInverse_two, getInverse_one]; norm_num [Matrix.smul_apply, abs_of_neg]⟩

theorem instanceLoop_noDisplayWarning_start (plug : WorldMatrixPlug) :
    displayWarningCount
      (if decide (plug.numElements < 2) && plug.numElementsStatus then []
        else [Diag.tfVerifyFailed "numInstance < 2 && status"]) = 0 := by
  cases (decide (plug.numElements < 2) && plug.numElementsStatus) <;>
    simp [displayWarningCount, Diag.isDisplayWarning]

theorem getJointWorldBindTransform_of_first_readable (env : Env) (dagPath : MDagPath)
    (plug : WorldMatrixPlug) (k : Nat) (m : MMatrix) (ms : List MMatrix)
    (hplug : (env.node dagPath).worldMatrixPlug = some plug)
    (hk : k < plug.numElements)
    (hpre : ∀ i, i < k → (plug.destinations i).filterMap skinClusterBindPreMatrix = [])
    (hms : (plug.destinations k).filterMap skinClusterBindPreMatrix = m :: ms) :
    (_GetJointWorldBindTransform env dagPath).1 = GetInverse m
      ∧ displayWarningCount (_GetJointWorldBindTransform env dagPath).2
          = mismatchCount (GetInverse m) ms := by
  obtain ⟨post, hrange⟩ := range_split plug.numElements k hk
  have hloop := instanceLoop_warnings (env.node dagPath).name plug (List.range k) k post m ms
    (fun i hi => hpre i (List.mem_range.mp hi)) hms
    (if decide (plug.numElements < 2) && plug.numElementsStatus then []
      else [Diag.tfVerifyFailed "numInstance < 2 && status"])
  rw [← hrange, instanceLoop_noDisplayWarning_start, Nat.zero_add] at hloop
  have hres : _GetJointWorldBindTransform env dagPath
      = (GetInverse m, (instanceLoop (env.node dagPath).name plug (List.range plug.numElements)
          (if decide (plug.numElements < 2) && plug.numElementsStatus then []
            else [Diag.tfVerifyFailed "numInstance < 2 && status"])).2) := by
    unfold _GetJointWorldBindTransform
    simp only [hplug, hloop.1]
  rw [hres]
  exact ⟨rfl, hloop.2⟩

/-- C2, as amended. For a joint whose `worldMatrix` element `k`, the first
element with a readable skin-cluster `bindPreMatrix` entry, is connected to two
skin deformers with readable `bindPreMatrix` entries `b1` then `b2`,
`_GetJointWorldBindTransform` returns the matrix resolved from the first one,
emits exactly one "different bind poses" warning when the two resolved matrices
differ by more than 1e-6 in some entry, and emits no warning when the two
`bindPreMatrix` values are the same. Exactly: the number of warnings is 0 when
every entry of the two resolved matrices differs by less than the tolerance
literal, and 1 otherwise. -/
theorem bindPose_agreement_on_one_element (env : Env) (dagPath : MDagPath)
    (plug : WorldMatrixPlug) (k : Nat) (b1 b2 : MMatrix)
    (hplug : (env.node dagPath).worldMatrixPlug = some plug)
    (hk : k < plug.numElements)
    (hpre : ∀ i, i < k → (plug.destinations i).filterMap skinClusterBindPreMatrix = [])
    (htwo : (plug.destinations k).filterMap skinClusterBindPreMatrix = [b1, b2]) :
    (_GetJointWorldBindTransform env dagPath).1 = GetInverse b1
      ∧ ((∃ i j, 1 / 1000000 < |GetInverse b2 i j - GetInverse b1 i j|) →
          displayWarningCount (_GetJointWorldBindTransform env dagPath).2 = 1)
      ∧ (b1 = b2 → displayWarningCount (_GetJointWorldBindTransform env dagPath).2 = 0)
      ∧ displayWarningCount (_GetJointWorldBindTransform env dagPath).2
          = (if (∀ i j, |GetInverse b2 i j - GetInverse b1 i j| < bindPoseTolerance) then 0
              else 1) := by
  obtain ⟨hres, hcount⟩ := getJointWorldBindTransform_of_first_readable env dagPath plug k b1
    [b2] hplug hk hpre htwo
  refine ⟨hres, ?_, ?_, ?_⟩
  · rintro ⟨i, j, hfar⟩
    rw [hcount]
    exact mismatchCount_single_far _ _ ⟨i, j, lt_trans bindPoseTolerance_lt hfar⟩
  · intro heq
    rw [hcount]
    subst heq
    exact mismatchCount_single_same _
  · rw [hcount, mismatchCount_single]
    unfold GfIsClose
    by_cases h : ∀ i j, |GetInverse b2 i j - GetInverse b1 i j| < bindPoseTolerance
    · simp [h]
    · simp [h]

/-- Witness of C2 as amended: a joint bound on element 0 by two skin clusters
whose `bindPreMatrix` entries are the identity and twice the identity gets one
warning, a joint bound by two skin clusters whose entries are both the identity
gets none, and both get the inverse of the identity. -/
theorem bindPose_agreement_on_one_element_witness :
    ((_GetJointWorldBindTransform
          (sampleEnv sampleBoundJoint [⟨"|rig|joint1"⟩] ⟨[-1]⟩ exportSkelsAuto)
          ⟨"|rig|joint1"⟩).1 = GetInverse 1
        ∧ displayWarningCount (_GetJointWorldBindTransform
            (sampleEnv sampleBoundJoint [⟨"|rig|joint1"⟩] ⟨[-1]⟩ exportSkelsAuto)
            ⟨"|rig|joint1"⟩).2 = 1)
      ∧ ((_GetJointWorldBindTransform
            (sampleEnv sampleMatchingJoint [⟨"|rig|joint1"⟩] ⟨[-1]⟩ exportSkelsAuto)
            ⟨"|rig|joint1"⟩).1 = GetInverse 1
          ∧ displayWarningCount (_GetJointWorldBindTransform
              (sampleEnv sampleMatchingJoint [⟨"|rig|joint1"⟩] ⟨[-1]⟩ exportSkelsAuto)
              ⟨"|rig|joint1"⟩).2 = 0) :=
  ⟨⟨(bindPose_agreement_on_one_element
        (sampleEnv sampleBoundJoint [⟨"|rig|joint1"⟩] ⟨[-1]⟩ exportSkelsAuto) ⟨"|rig|joint1"⟩
        sampleTwoDeformerPlug 0 1 2 rfl (by decide)
        (fun i hi => absurd hi (Nat.not_lt_zero i)) rfl).1,
      (bindPose_agreement_on_one_element
        (sampleEnv sampleBoundJoint [⟨"|rig|joint1"⟩] ⟨[-1]⟩ exportSkelsAuto) ⟨"|rig|joint1"⟩
        sampleTwoDeformerPlug 0 1 2 rfl (by decide)
        (fun i hi => absurd hi (Nat.not_lt_zero i)) rfl).2.1 getInverse_two_far⟩,
    ⟨(bindPose_agreement_on_one_element
        (sampleEnv sampleMatchingJoint [⟨"|rig|joint1"⟩] ⟨[-1]⟩ exportSkelsAuto)
        ⟨"|rig|joint1"⟩ sampleMatchingDeformerPlug 0 1 1 rfl (by decide)
        (fun i hi => absurd hi (Nat.not_lt_zero i)) rfl).1,
      (bindPose_agreement_on_one_element
        (sampleEnv sampleMatchingJoint [⟨"|rig|joint1"⟩] ⟨[-1]⟩ exportSkelsAuto)
        ⟨"|rig|joint1"⟩ sampleMatchingDeformerPlug 0 1 1 rfl (by decide)
        (fun i hi => absurd hi (Nat.not_lt_zero i)) rfl).2.2.1 rfl⟩⟩

/-- C2, counterexample to the claim as stated. The joint is referenced by two
skin deformers with readable `bindPreMatrix` entries, the identity on
`worldMatrix` element 0 and twice the identity on element 1, and the two
resolved matrices differ by more than 1e-6; yet `_GetJointWorldBindTransform`
returns after element 0 with the first resolved matrix and emits no "different
bind poses" warning. -/
theorem bindPose_two_elements_counterexample :
    (sampleSplitDeformerPlug.destinations 0).filterMap skinClusterBindPreMatrix = [1]
      ∧ (sampleSplitDeformerPlug.destinations 1).filterMap skinClusterBindPreMatrix = [2]
      ∧ (∃ i j, (1 / 1000000 : ℚ)
          < |GetInverse (2 : MMatrix) i j - GetInverse (1 : MMatrix) i j|)
      ∧ (_GetJointWorldBindTransform
          (sampleEnv sampleSplitJoint [⟨"|rig|joint1"⟩] ⟨[-1]⟩ exportSkelsAuto)
          ⟨"|rig|joint1"⟩).1 = GetInverse 1
      ∧ displayWarningCount (_GetJointWorldBindTransform
          (sampleEnv sampleSplitJoint [⟨"|rig|joint1"⟩] ⟨[-1]⟩ exportSkelsAuto)
          ⟨"|rig|joint1"⟩).2 = 0
      ∧ displayWarningCount (_GetJointWorldBindTransform
          (sampleEnv sampleSplitJoint [⟨"|rig|joint1"⟩] ⟨[-1]⟩ exportSkelsAuto)
          ⟨"|rig|joint1"⟩).2 ≠ 1 := by
  have h := getJointWorldBindTransform_of_first_readable
    (sampleEnv sampleSplitJoint [⟨"|rig|joint1"⟩] ⟨[-1]⟩ exportSkelsAuto) ⟨"|rig|joint1"⟩
    sampleSplitDeformerPlug 0 1 [] rfl (by decide)
    (fun i hi => absurd hi (Nat.not_lt_zero i)) rfl
  refine ⟨rfl, rfl, getInverse_two_far, h.1, ?_, ?_⟩
  · rw [h.2]
    rfl
  · rw [h.2]
    decide

/-! ### Animated joints -/

theorem getAnimatedJoints_of_restCount_mismatch (usdJointNames : List TfToken)
    (jointDagPaths : List MDagPath) (restXforms : List GfMatrix4d)
    (animatedJointNames : List TfToken) (animatedJointPaths : List MDagPath)
    (hlen : usdJointNames.length = jointDagPaths.length)
    (hrest : restXforms.length ≠ usdJointNames.length) :
    _GetAnimatedJoints usdJointNames jointDagPaths restXforms animatedJointNames
        animatedJointPaths = ((usdJointNames, jointDagPaths), []) := by
  unfold _GetAnimatedJoints
  rw [if_neg (not_not.mpr hlen), if_pos hrest]

/-- C3. With a joint-name list and a dag-path list of equal length and a
rest-transform array of a different length, `_GetAnimatedJoints` makes the
animated names and paths exactly the full input lists, whatever the output
lists held before the call. -/
theorem animatedJoints_all_of_restCount_mismatch (usdJointNames : List TfToken)
    (jointDagPaths : List MDagPath) (restXforms : List GfMatrix4d)
    (animatedJointNames : List TfToken) (animatedJointPaths : List MDagPath)
    (hlen : usdJointNames.length = jointDagPaths.length)
    (hrest : restXforms.length ≠ usdJointNames.length) :
    (_GetAnimatedJoints usdJointNames jointDagPaths restXforms animatedJointNames
        animatedJointPaths).1 = (usdJointNames, jointDagPaths) := by
  rw [getAnimatedJoints_of_restCount_mismatch usdJointNames jointDagPaths restXforms
    animatedJointNames animatedJointPaths hlen hrest]

/-- Witness of C3: two joints, no rest transforms, stale output lists. -/
theorem animatedJoints_all_of_restCount_mismatch_witness :
    (_GetAnimatedJoints [⟨"a"⟩, ⟨"a/b"⟩] [⟨"|a"⟩, ⟨"|a|b"⟩] [] [⟨"old"⟩] [⟨"|old"⟩]).1
      = ([⟨"a"⟩, ⟨"a/b"⟩], [⟨"|a"⟩, ⟨"|a|b"⟩]) :=
  animatedJoints_all_of_restCount_mismatch [⟨"a"⟩, ⟨"a/b"⟩] [⟨"|a"⟩, ⟨"|a|b"⟩] [] [⟨"old"⟩]
    [⟨"|old"⟩] rfl (by decide)

/-! ### Topology validation -/

theorem jointOk_iff (t : UsdSkelTopology) (i : Nat) :
    t.jointOk i = true ↔ (t.GetParent i < 0 ∨ t.GetParent i < (i : Int)) := by
  unfold UsdSkelTopology.jointOk
  rw [Bool.or_eq_true, decide_eq_true_iff, decide_eq_true_iff]

theorem validate_iff_parentsFirst (t : UsdSkelTopology) :
    t.Validate.1 = true ↔ t.parentsFirst := by
  unfold UsdSkelTopology.Validate UsdSkelTopology.parentsFirst
  constructor
  · intro h i hi
    cases hf : (List.range t.size).find? (fun i => !t.jointOk i) with
    | some j => rw [hf] at h; simp at h
    | none =>
      have hn := List.find?_eq_none.mp hf i (List.mem_range.mpr hi)
      have hj : t.jointOk i = true := by
        cases hb : t.jointOk i
        · rw [hb] at hn; exact absurd rfl hn
        · rfl
      exact (jointOk_iff t i).mp hj
  · intro h
    have hf : (List.range t.size).find? (fun i => !t.jointOk i) = none := by
      rw [List.find?_eq_none]
      intro i hi
      have hj := (jointOk_iff t i).mpr (h i (List.mem_range.mp hi))
      rw [hj]
      decide
    rw [hf]

/-! ### Local transforms -/

theorem getInverse_mul_self (m : GfMatrix4d) (h : m.det ≠ 0) : GetInverse m * m = 1 := by
  unfold GetInverse
  rw [Matrix.smul_mul, Matrix.adjugate_mul, smul_smul, inv_mul_cancel₀ h, one_smul]

theorem jointLocalXformsLoop_ok (topology : UsdSkelTopology) (xforms inverseXforms : List GfMatrix4d)
    (rootInverseXform : GfMatrix4d) (idxs : List Nat) :
    ∀ acc : List GfMatrix4d,
      (∀ i ∈ idxs, (jointLocalXform topology xforms inverseXforms rootInverseXform i).isSome) →
      jointLocalXformsLoop topology xforms inverseXforms rootInverseXform idxs acc
        = (true, acc ++ idxs.map (fun i =>
            (jointLocalXform topology xforms inverseXforms rootInverseXform i).getD 0)) := by
  induction idxs with
  | nil => intro acc _; simp [jointLocalXformsLoop]
  | cons i rest ih =>
    intro acc h
    have hi := h i (List.mem_cons_self _ _)
    unfold jointLocalXformsLoop
    cases hm : jointLocalXform topology xforms inverseXforms rootInverseXform i with
    | none => rw [hm] at hi; simp at hi
    | some m =>
      simp only
      rw [ih (acc ++ [m]) (fun j hj => h j (List.mem_cons_of_mem _ hj))]
      simp [hm]

theorem jointLocalXform_of_parentsFirst (topology : UsdSkelTopology)
    (xforms inverseXforms : List GfMatrix4d) (rootInverseXform : GfMatrix4d)
    (hvalid : topology.parentsFirst) (i : Nat) (hi : i < topology.size) :
    jointLocalXform topology xforms inverseXforms rootInverseXform i
      = some (if 0 ≤ topology.GetParent i then
          xforms.getD i 0 * inverseXforms.getD (topology.GetParent i).toNat 0
        else xforms.getD i 0 * rootInverseXform) := by
  unfold jointLocalXform
  by_cases hp : 0 ≤ topology.GetParent i
  · have hlt : (topology.GetParent i).toNat < i := by
      rcases hvalid i hi with h | h
      · omega
      · omega
    simp [hp, hlt]
  · simp [hp]

theorem computeJointLocalTransforms_ok (topology : UsdSkelTopology)
    (xforms inverseXforms : List GfMatrix4d) (rootInverseXform : GfMatrix4d)
    (hvalid : topology.parentsFirst) (hx : xforms.length = topology.size)
    (hinv : inverseXforms.length = topology.size) :
    UsdSkelComputeJointLocalTransforms topology xforms inverseXforms rootInverseXform
      = (true, (List.range topology.size).map (fun i =>
          if 0 ≤ topology.GetParent i then
            xforms.getD i 0 * inverseXforms.getD (topology.GetParent i).toNat 0
          else xforms.getD i 0 * rootInverseXform)) := by
  unfold UsdSkelComputeJointLocalTransforms
  rw [if_neg (by simp [hx, hinv])]
  rw [jointLocalXformsLoop_ok]
  · simp only [List.nil_append]
    congr 1
    apply List.map_congr_left
    intro i hi
    rw [jointLocalXform_of_parentsFirst topology xforms inverseXforms rootInverseXform hvalid i
      (List.mem_range.mp hi)]
    rfl
  · intro i hi
    rw [jointLocalXform_of_parentsFirst topology xforms inverseXforms rootInverseXform hvalid i
      (List.mem_range.mp hi)]
    rfl

theorem getD_map_range (f : Nat → GfMatrix4d) (n i : Nat) (hi : i < n) :
    ((List.range n).map f).getD i 0 = f i := by
  rw [List.getD_eq_getElem?_getD, List.getElem?_map, List.getElem?_range hi]
  rfl

theorem getD_map_getInverse (xs : List GfMatrix4d) (i : Nat) (hi : i < xs.length) :
    (xs.map GetInverse).getD i 0 = GetInverse (xs.getD i 0) := by
  rw [List.getD_eq_getElem?_getD, List.getD_eq_getElem?_getD, List.getElem?_map,
    List.getElem?_eq_getElem hi]
  rfl

theorem getD_mem (xs : List GfMatrix4d) (i : Nat) (hi : i < xs.length) :
    xs.getD i 0 ∈ xs := by
  rw [List.getD_eq_getElem?_getD, List.getElem?_eq_getElem hi]
  exact List.getElem_mem hi

theorem composeWithAncestors_localXforms (topology : UsdSkelTopology) (xs : List GfMatrix4d)
    (rootInv : GfMatrix4d) (hvalid : topology.parentsFirst) (hx : xs.length = topology.size)
    (hdet : ∀ x ∈ xs, x.det ≠ 0) :
    ∀ i, i < topology.size → ∀ fuel, i < fuel →
      composeWithAncestors topology
        ((List.range topology.size).map (fun i =>
          if 0 ≤ topology.GetParent i then
            xs.getD i 0 * (xs.map GetInverse).getD (topology.GetParent i).toNat 0
          else xs.getD i 0 * rootInv)) fuel i
        = some (xs.getD i 0 * rootInv) := by
  intro i
  induction i using Nat.strong_induction_on with
  | _ i ih =>
    intro hi fuel hfuel
    cases fuel with
    | zero => omega
    | succ fuel =>
      unfold composeWithAncestors
      rw [getD_map_range _ _ _ hi]
      dsimp only
      by_cases hp : 0 ≤ topology.GetParent i
      · have hlt : (topology.GetParent i).toNat < i := by
          rcases hvalid i hi with h | h
          · omega
          · omega
        have hps : (topology.GetParent i).toNat < topology.size := by omega
        rw [ih _ hlt hps fuel (by omega)]
        simp only [hp, if_true]
        rw [getD_map_getInverse xs _ (by omega)]
        congr 1
        rw [Matrix.mul_assoc, ← Matrix.mul_assoc (GetInverse _),
          getInverse_mul_self _ (hdet _ (getD_mem xs _ (by omega))), Matrix.one_mul]
      · simp only [hp, if_false]

/-- C4. For a valid joint topology and invertible world transforms of the
joints and of the hierarchy root, `_GetJointLocalTransforms` succeeds with one
local transform per joint, and the local transforms round-trip exactly:
composing a joint's local transform with those of its ancestors gives the
joint's captured world transform relative to the hierarchy root, and putting
the root transform back gives the captured world transform itself. -/
theorem localTransforms_roundTrip (env : Env) (topology : UsdSkelTopology)
    (dagPaths : List MDagPath) (rootXf : GfMatrix4d) (localXforms : List GfMatrix4d)
    (hvalid : topology.Validate.1 = true)
    (hsize : topology.size = dagPaths.length)
    (hjoints : ∀ p ∈ dagPaths, (_GetJointWorldTransform env p).det ≠ 0)
    (hroot : rootXf.det ≠ 0) :
    (_GetJointLocalTransforms env topology dagPaths rootXf localXforms).1 = true
      ∧ (_GetJointLocalTransforms env topology dagPaths rootXf localXforms).2.length
          = dagPaths.length
      ∧ ∀ (i : Nat) (hi : i < dagPaths.length),
          composeWithAncestors topology
              (_GetJointLocalTransforms env topology dagPaths rootXf localXforms).2 (i + 1) i
            = some (_GetJointWorldTransform env dagPaths[i] * GetInverse rootXf)
          ∧ (_GetJointWorldTransform env dagPaths[i] * GetInverse rootXf) * rootXf
              = _GetJointWorldTransform env dagPaths[i] := by
  have hpf := (validate_iff_parentsFirst topology).mp hvalid
  have hx : (dagPaths.map (_GetJointWorldTransform env)).length = topology.size := by
    rw [List.length_map, hsize]
  have hcomp := computeJointLocalTransforms_ok topology (dagPaths.map (_GetJointWorldTransform env))
    ((dagPaths.map (_GetJointWorldTransform env)).map GetInverse) (GetInverse rootXf) hpf hx
    (by rw [List.length_map, hx])
  have hres : _GetJointLocalTransforms env topology dagPaths rootXf localXforms
      = (true, (List.range topology.size).map (fun i =>
          if 0 ≤ topology.GetParent i then
            (dagPaths.map (_GetJointWorldTransform env)).getD i 0
              * ((dagPaths.map (_GetJointWorldTransform env)).map GetInverse).getD
                  (topology.GetParent i).toNat 0
          else (dagPaths.map (_GetJointWorldTransform env)).getD i 0 * GetInverse rootXf)) := by
    unfold _GetJointLocalTransforms _GetJointWorldTransforms
    simp only [if_true]
    exact hcomp
  rw [hres]
  refine ⟨rfl, by simp [hsize], ?_⟩
  intro i hi
  have hdet : ∀ x ∈ dagPaths.map (_GetJointWorldTransform env), x.det ≠ 0 := by
    intro x hxm
    obtain ⟨p, hp, rfl⟩ := List.mem_map.mp hxm
    exact hjoints p hp
  have hget : (dagPaths.map (_GetJointWorldTransform env)).getD i 0
      = _GetJointWorldTransform env dagPaths[i] := by
    rw [List.getD_eq_getElem?_getD, List.getElem?_map, List.getElem?_eq_getElem hi]
    rfl
  refine ⟨?_, ?_⟩
  · have := composeWithAncestors_localXforms topology (dagPaths.map (_GetJointWorldTransform env))
      (GetInverse rootXf) hpf hx hdet i (by omega) (i + 1) (by omega)
    rw [hget] at this
    exact this
  · rw [Matrix.mul_assoc, getInverse_mul_self rootXf hroot, Matrix.mul_one]

/-- Witness of C4: a chain of two joints at the origin. -/
theorem localTransforms_roundTrip_witness :
    (_GetJointLocalTransforms
        (sampleEnv sampleFreeJoint [⟨"|rig|a"⟩, ⟨"|rig|a|b"⟩] ⟨[-1, 0]⟩ exportSkelsAuto)
        ⟨[-1, 0]⟩ [⟨"|rig|a"⟩, ⟨"|rig|a|b"⟩] 1 []).1 = true
      ∧ (_GetJointLocalTransforms
          (sampleEnv sampleFreeJoint [⟨"|rig|a"⟩, ⟨"|rig|a|b"⟩] ⟨[-1, 0]⟩ exportSkelsAuto)
          ⟨[-1, 0]⟩ [⟨"|rig|a"⟩, ⟨"|rig|a|b"⟩] 1 []).2.length = 2 :=
  have h := localTransforms_roundTrip
    (sampleEnv sampleFreeJoint [⟨"|rig|a"⟩, ⟨"|rig|a|b"⟩] ⟨[-1, 0]⟩ exportSkelsAuto)
    ⟨[-1, 0]⟩ [⟨"|rig|a"⟩, ⟨"|rig|a|b"⟩] 1 [] (by decide) rfl
    (by intro p _; simp [_GetJointWorldTransform, sampleEnv, sampleFreeJoint])
    (by simp)
  ⟨h.1, h.2.1⟩

/-! ### The writer: invalid writers and non-default time codes -/

theorem writeSample_of_invalid (env : Env) (usdTime : UsdTimeCode)
    (w : PxrUsdTranslators_JointWriter) (log : List Event) (h : w._valid = false) :
    PxrUsdTranslators_JointWriter.writeSample env usdTime w log = (w, log) := by
  unfold PxrUsdTranslators_JointWriter.writeSample
  simp [h]

theorem write_nonDefault_of_invalid (env : Env) (usdTime : UsdTimeCode)
    (w : PxrUsdTranslators_JointWriter) (log : List Event)
    (ht : usdTime.IsDefault = false) (h : w._valid = false) :
    PxrUsdTranslators_JointWriter.Write env usdTime w log = (w, log) := by
  unfold PxrUsdTranslators_JointWriter.Write PxrUsdTranslators_JointWriter.writeRestPass
  simp [ht, writeSample_of_invalid env usdTime w log h]

theorem writeAll_nonDefault_of_invalid (calls : List (Env × UsdTimeCode)) :
    ∀ (w : PxrUsdTranslators_JointWriter) (log : List Event),
      w._valid = false → (∀ c ∈ calls, c.2.IsDefault = false) →
      PxrUsdTranslators_JointWriter.WriteAll calls (w, log) = (w, log) := by
  induction calls with
  | nil => intro w log _ _; rfl
  | cons c rest ih =>
    intro w log h hc
    obtain ⟨env, usdTime⟩ := c
    unfold PxrUsdTranslators_JointWriter.WriteAll
    have ht : usdTime.IsDefault = false := hc (env, usdTime) (List.mem_cons_self _ _)
    simp only [write_nonDefault_of_invalid env usdTime w log ht h]
    exact ih w log h (fun c hcm => hc c (List.mem_cons_of_mem _ hcm))

theorem write_nonDefault_writer (env : Env) (usdTime : UsdTimeCode)
    (w : PxrUsdTranslators_JointWriter) (log : List Event) (ht : usdTime.IsDefault = false) :
    (PxrUsdTranslators_JointWriter.Write env usdTime w log).1 = w := by
  unfold PxrUsdTranslators_JointWriter.Write PxrUsdTranslators_JointWriter.writeRestPass
    PxrUsdTranslators_JointWriter.writeSample
  simp only [ht, Bool.false_eq_true, if_false]
  split <;> rfl

/-! ### The writer: the default-time pass -/

theorem restStateTopology_valid (env : Env) (w : PxrUsdTranslators_JointWriter)
    (log : List Event) :
    (PxrUsdTranslators_JointWriter.restStateTopology env w log).2.2.1
      = (env.topologyOfNames
          (getJointNames env (env.getJointHierarchyComponents w.dagPath).2.2)).Validate.1 := by
  unfold PxrUsdTranslators_JointWriter.restStateTopology
  simp only
  split <;> simp_all

theorem restStateTopology_writer (env : Env) (w : PxrUsdTranslators_JointWriter)
    (log : List Event) :
    (PxrUsdTranslators_JointWriter.restStateTopology env w log).2.2.2.1
      = { w with
          _skelXformPath := (env.getJointHierarchyComponents w.dagPath).1
          _jointHierarchyRootPath := (env.getJointHierarchyComponents w.dagPath).2.1
          _joints := (env.getJointHierarchyComponents w.dagPath).2.2
          _topology := env.topologyOfNames
            (getJointNames env (env.getJointHierarchyComponents w.dagPath).2.2) } := by
  unfold PxrUsdTranslators_JointWriter.restStateTopology
  simp only
  split <;> rfl

theorem restStateTopology_names (env : Env) (w : PxrUsdTranslators_JointWriter)
    (log : List Event) :
    (PxrUsdTranslators_JointWriter.restStateTopology env w log).1
      = getJointNames env (env.getJointHierarchyComponents w.dagPath).2.2 := by
  unfold PxrUsdTranslators_JointWriter.restStateTopology
  simp only
  split <;> rfl

theorem restStateTopology_log (env : Env) (w : PxrUsdTranslators_JointWriter)
    (log : List Event) :
    (PxrUsdTranslators_JointWriter.restStateTopology env w log).2.2.2.2
      = log
        ++ (if env.IsUsdSkeleton w.dagPath then [] else [Event.MarkSkelAsMayaGenerated w._skel])
        ++ (if (env.topologyOfNames
              (getJointNames env (env.getJointHierarchyComponents w.dagPath).2.2)).Validate.1
            then []
            else [Event.diag (Diag.tfCodingError (topologyInvalidMsg
              (env.topologyOfNames
                (getJointNames env (env.getJointHierarchyComponents w.dagPath).2.2)).Validate.2))]) := by
  unfold PxrUsdTranslators_JointWriter.restStateTopology
  simp only
  cases hv : (env.topologyOfNames
      (getJointNames env (env.getJointHierarchyComponents w.dagPath).2.2)).Validate.1 <;>
    cases hu : env.IsUsdSkeleton w.dagPath <;> simp [hv, hu]

theorem writeRestState_of_invalidTopology (env : Env) (w : PxrUsdTranslators_JointWriter)
    (log : List Event)
    (hbad : (env.topologyOfNames
      (getJointNames env (env.getJointHierarchyComponents w.dagPath).2.2)).Validate.1 = false) :
    (PxrUsdTranslators_JointWriter._WriteRestState env w log).1 = false
      ∧ (PxrUsdTranslators_JointWriter._WriteRestState env w log).2.2
        = log
          ++ (if env.IsUsdSkeleton w.dagPath then []
              else [Event.MarkSkelAsMayaGenerated w._skel])
          ++ [Event.diag (Diag.tfCodingError (topologyInvalidMsg
              (env.topologyOfNames
                (getJointNames env (env.getJointHierarchyComponents w.dagPath).2.2)).Validate.2))] := by
  have hv := restStateTopology_valid env w log
  have hl := restStateTopology_log env w log
  rw [hbad] at hv
  rw [hbad] at hl
  unfold PxrUsdTranslators_JointWriter._WriteRestState
  simp only [hv, Bool.not_false, if_true]
  refine ⟨trivial, ?_⟩
  rw [hl]
  simp

/-- C5. If joint-topology validation fails during the default-time `Write`,
`_WriteRestState` returns false having reported the coding error and made no
`SetAttribute` call at all (so the joints, bind-transform and rest-transform
attributes are not authored), the writer is marked invalid, and every later
run of `Write` calls at non-default time codes changes neither the writer nor
the log. -/
theorem write_of_invalidTopology (env : Env) (w : PxrUsdTranslators_JointWriter)
    (log : List Event)
    (hbad : (env.topologyOfNames
      (getJointNames env (env.getJointHierarchyComponents w.dagPath).2.2)).Validate.1 = false) :
    (PxrUsdTranslators_JointWriter._WriteRestState env w log).1 = false
      ∧ (∃ new : List Event,
          (PxrUsdTranslators_JointWriter._WriteRestState env w log).2.2 = log ++ new
            ∧ (∃ msg, Event.diag (Diag.tfCodingError msg) ∈ new)
            ∧ ∀ e ∈ new, e.isSetAttribute = false)
      ∧ (PxrUsdTranslators_JointWriter.Write env UsdTimeCode.Default w log).1._valid = false
      ∧ (PxrUsdTranslators_JointWriter.Write env UsdTimeCode.Default w log).2
          = (PxrUsdTranslators_JointWriter._WriteRestState env w log).2.2
      ∧ ∀ calls : List (Env × UsdTimeCode), (∀ c ∈ calls, c.2.IsDefault = false) →
          PxrUsdTranslators_JointWriter.WriteAll calls
              (PxrUsdTranslators_JointWriter.Write env UsdTimeCode.Default w log)
            = PxrUsdTranslators_JointWriter.Write env UsdTimeCode.Default w log := by
  obtain ⟨h1, h2⟩ := writeRestState_of_invalidTopology env w log hbad
  have hw : PxrUsdTranslators_JointWriter.Write env UsdTimeCode.Default w log
      = ({ (PxrUsdTranslators_JointWriter._WriteRestState env w log).2.1 with _valid := false },
          (PxrUsdTranslators_JointWriter._WriteRestState env w log).2.2) := by
    unfold PxrUsdTranslators_JointWriter.Write PxrUsdTranslators_JointWriter.writeRestPass
    simp only [UsdTimeCode.IsDefault, if_true, h1]
    exact writeSample_of_invalid _ _ _ _ rfl
  refine ⟨h1,
    ⟨(if env.IsUsdSkeleton w.dagPath then [] else [Event.MarkSkelAsMayaGenerated w._skel])
        ++ [Event.diag (Diag.tfCodingError (topologyInvalidMsg
            (env.topologyOfNames
              (getJointNames env (env.getJointHierarchyComponents w.dagPath).2.2)).Validate.2))],
      by rw [h2, List.append_assoc],
      ⟨topologyInvalidMsg (env.topologyOfNames
          (getJointNames env (env.getJointHierarchyComponents w.dagPath).2.2)).Validate.2,
        List.mem_append_right _ (List.mem_singleton.mpr rfl)⟩, ?_⟩, ?_, ?_, ?_⟩
  · intro e he
    cases hu : env.IsUsdSkeleton w.dagPath
    · simp only [hu, Bool.false_eq_true, if_false, List.singleton_append, List.mem_cons,
        List.mem_singleton, List.not_mem_nil, or_false] at he
      rcases he with rfl | rfl <;> rfl
    · simp only [hu, if_true, List.nil_append, List.mem_singleton] at he
      rw [he]
      rfl
  · rw [hw]
  · rw [hw]
  · intro calls hc
    rw [hw]
    exact writeAll_nonDefault_of_invalid calls _ _ rfl hc

/-- Witness of C5: a one-joint scene whose topology makes the joint its own
parent. -/
theorem write_of_invalidTopology_witness :
    (PxrUsdTranslators_JointWriter.Write
        (sampleEnv sampleFreeJoint [⟨"|rig|a"⟩] ⟨[0]⟩ exportSkelsAuto) UsdTimeCode.Default
        (PxrUsdTranslators_JointWriter.construct
          (sampleEnv sampleFreeJoint [⟨"|rig|a"⟩] ⟨[0]⟩ exportSkelsAuto) ⟨"|rig|a"⟩ ⟨"/rig/a"⟩
          false).1 []).1._valid = false :=
  (write_of_invalidTopology (sampleEnv sampleFreeJoint [⟨"|rig|a"⟩] ⟨[0]⟩ exportSkelsAuto)
    (PxrUsdTranslators_JointWriter.construct
      (sampleEnv sampleFreeJoint [⟨"|rig|a"⟩] ⟨[0]⟩ exportSkelsAuto) ⟨"|rig|a"⟩ ⟨"/rig/a"⟩
      false).1 [] (by decide)).2.2.1

/-! ### The writer: after an early return of the constructor -/

theorem construct_of_earlyReturn (env : Env) (dagPath : MDagPath) (usdPath : SdfPath)
    (skelXformIsAnimated : Bool)
    (hearly : PxrUsdTranslators_JointWriter.constructorReturnedEarly env dagPath usdPath = true) :
    (PxrUsdTranslators_JointWriter.construct env dagPath usdPath skelXformIsAnimated).1
      = PxrUsdTranslators_JointWriter.initial dagPath usdPath skelXformIsAnimated := by
  unfold PxrUsdTranslators_JointWriter.constructorReturnedEarly at hearly
  unfold PxrUsdTranslators_JointWriter.construct
  cases hd : env.dagPathIsValid dagPath
  · simp
  · by_cases he : env.exportSkels ≠ exportSkelsAuto ∧ env.exportSkels ≠ exportSkelsExplicit
    · simp [he]
    · cases hs : env.defineSkeleton usdPath with
      | none => simp [he]
      | some skel =>
        exfalso
        have h1 : (decide (env.exportSkels ≠ exportSkelsAuto)
            && decide (env.exportSkels ≠ exportSkelsExplicit)) = false := by
          rw [Bool.and_eq_false_iff]
          by_cases ha : env.exportSkels ≠ exportSkelsAuto
          · right
            exact decide_eq_false (fun hx => he ⟨ha, hx⟩)
          · left
            exact decide_eq_false ha
        rw [hd, hs, h1] at hearly
        simp at hearly

/-- C6, as the code has it. If the constructor returned early (invalid dag
path, `exportSkels` neither auto nor explicit, or `UsdSkelSkeleton::Define`
failed), the writer starts invalid and without a skeleton, and every run of
`Write` calls at non-default time codes is a no-op: it changes neither the
writer nor the log. A `Write` at the default time code runs `_WriteRestState`
all the same and leaves the writer exactly as valid as its result says. -/
theorem write_after_constructor_earlyReturn (env : Env) (dagPath : MDagPath)
    (usdPath : SdfPath) (skelXformIsAnimated : Bool)
    (hearly : PxrUsdTranslators_JointWriter.constructorReturnedEarly env dagPath usdPath = true) :
    (PxrUsdTranslators_JointWriter.construct env dagPath usdPath skelXformIsAnimated).1._valid
        = false
      ∧ (PxrUsdTranslators_JointWriter.construct env dagPath usdPath skelXformIsAnimated).1._skel
          = none
      ∧ (∀ calls : List (Env × UsdTimeCode), (∀ c ∈ calls, c.2.IsDefault = false) →
          PxrUsdTranslators_JointWriter.WriteAll calls
              (PxrUsdTranslators_JointWriter.construct env dagPath usdPath skelXformIsAnimated)
            = PxrUsdTranslators_JointWriter.construct env dagPath usdPath skelXformIsAnimated)
      ∧ ∀ (env2 : Env) (log : List Event),
          (PxrUsdTranslators_JointWriter.Write env2 UsdTimeCode.Default
              (PxrUsdTranslators_JointWriter.construct env dagPath usdPath
                skelXformIsAnimated).1 log).1._valid
            = (PxrUsdTranslators_JointWriter._WriteRestState env2
                (PxrUsdTranslators_JointWriter.construct env dagPath usdPath
                  skelXformIsAnimated).1 log).1 := by
  have hc := construct_of_earlyReturn env dagPath usdPath skelXformIsAnimated hearly
  have hv : (PxrUsdTranslators_JointWriter.construct env dagPath usdPath
      skelXformIsAnimated).1._valid = false := by rw [hc]; rfl
  refine ⟨hv, by rw [hc]; rfl, ?_, ?_⟩
  · intro calls hcalls
    exact writeAll_nonDefault_of_invalid calls
      (PxrUsdTranslators_JointWriter.construct env dagPath usdPath skelXformIsAnimated).1
      (PxrUsdTranslators_JointWriter.construct env dagPath usdPath skelXformIsAnimated).2
      hv hcalls
  · intro env2 log
    unfold PxrUsdTranslators_JointWriter.Write PxrUsdTranslators_JointWriter.writeRestPass
      PxrUsdTranslators_JointWriter.writeSample
    simp only [UsdTimeCode.IsDefault, if_true]
    split <;> rfl

/-- Witness of C6 as amended: skeleton export is switched off. -/
theorem write_after_constructor_earlyReturn_witness :
    (PxrUsdTranslators_JointWriter.construct (sampleEnv sampleFreeJoint [] ⟨[]⟩ ⟨"none"⟩)
        ⟨"|rig"⟩ ⟨"/rig"⟩ false).1._valid = false :=
  (write_after_constructor_earlyReturn (sampleEnv sampleFreeJoint [] ⟨[]⟩ ⟨"none"⟩)
    ⟨"|rig"⟩ ⟨"/rig"⟩ false (by decide)).1

/-- C6, counterexample to the claim as stated. Skeleton export is switched off
(`exportSkels` is "none"), so the constructor returns early; the hierarchy
under the writer's path has no joints. A `Write` at the default time code is
then not a no-op: it appends events to the log and leaves the writer valid. -/
theorem write_default_after_constructor_earlyReturn_counterexample :
    PxrUsdTranslators_JointWriter.constructorReturnedEarly
        (sampleEnv sampleFreeJoint [] ⟨[]⟩ ⟨"none"⟩) ⟨"|rig"⟩ ⟨"/rig"⟩ = true
      ∧ (PxrUsdTranslators_JointWriter.Write (sampleEnv sampleFreeJoint [] ⟨[]⟩ ⟨"none"⟩)
          UsdTimeCode.Default
          (PxrUsdTranslators_JointWriter.construct (sampleEnv sampleFreeJoint [] ⟨[]⟩ ⟨"none"⟩)
            ⟨"|rig"⟩ ⟨"/rig"⟩ false).1 []).1._valid = true
      ∧ (PxrUsdTranslators_JointWriter.Write (sampleEnv sampleFreeJoint [] ⟨[]⟩ ⟨"none"⟩)
          UsdTimeCode.Default
          (PxrUsdTranslators_JointWriter.construct (sampleEnv sampleFreeJoint [] ⟨[]⟩ ⟨"none"⟩)
            ⟨"|rig"⟩ ⟨"/rig"⟩ false).1 []).2.length = 6 := by
  refine ⟨by decide, by decide, by decide⟩

/-! ### The writer: what the default-time pass appends to the log -/

theorem skinClusterStep_noCodingError (jointName : String) (st : BindScan) (p : MPlug)
    (h : ∀ d ∈ st.diags, d.isCodingError = false) :
    ∀ d ∈ (skinClusterStep jointName st p).diags, d.isCodingError = false := by
  intro d hd
  unfold skinClusterStep at hd
  simp only at hd
  repeat' split at hd
  all_goals
    first
    | exact h d hd
    | (simp only [List.mem_append, List.mem_singleton] at hd
       rcases hd with hd | rfl
       · exact h d hd
       · rfl)
    | (simp only [List.mem_append, List.mem_singleton] at hd
       rcases hd with (hd | rfl) | rfl
       · exact h d hd
       · rfl
       · rfl)

theorem skinClusterFold_noCodingError (jointName : String) (l : List MPlug) :
    ∀ st : BindScan, (∀ d ∈ st.diags, d.isCodingError = false) →
      ∀ d ∈ (l.foldl (skinClusterStep jointName) st).diags, d.isCodingError = false := by
  induction l with
  | nil => intro st h; exact h
  | cons p l ih =>
    intro st h
    simp only [List.foldl_cons]
    exact ih _ (skinClusterStep_noCodingError jointName st p h)

theorem instanceLoop_noCodingError (jointName : String) (plug : WorldMatrixPlug)
    (idxs : List Nat) :
    ∀ diags : List Diag, (∀ d ∈ diags, d.isCodingError = false) →
      ∀ d ∈ (instanceLoop jointName plug idxs diags).2, d.isCodingError = false := by
  induction idxs with
  | nil => intro diags h; exact h
  | cons i rest ih =>
    intro diags h
    have hf := skinClusterFold_noCodingError jointName (plug.destinations i)
      { result := 0, resultNode := none, hasResult := false, diags := diags } h
    unfold instanceLoop
    simp only
    split
    · exact hf
    · exact ih _ hf

theorem dagPoseLoop_noCodingError (l : List MPlug) :
    ∀ diags : List Diag, (∀ d ∈ diags, d.isCodingError = false) →
      ∀ d ∈ (dagPoseLoop l diags).2, d.isCodingError = false := by
  induction l with
  | nil => intro diags h; exact h
  | cons p l ih =>
    intro diags h
    have hv : ∀ d ∈ (if p.isElement then diags
        else diags ++ [Diag.tfVerifyFailed "plgDest.isElement()"]), d.isCodingError = false := by
      intro d hd
      cases hi : p.isElement
      · simp only [hi, Bool.false_eq_true, if_false, List.mem_append, List.mem_singleton] at hd
        rcases hd with hd | rfl
        · exact h d hd
        · rfl
      · simp only [hi, if_true] at hd
        exact h d hd
    unfold dagPoseLoop
    simp only
    split
    · exact ih _ h
    · split
      · exact ih _ hv
      · split
        · exact ih _ hv
        · split
          · exact ih _ hv
          · exact hv

theorem getJointWorldBindTransform_noCodingError (env : Env) (dagPath : MDagPath) :
    ∀ d ∈ (_GetJointWorldBindTransform env dagPath).2, d.isCodingError = false := by
  intro d hd
  unfold _GetJointWorldBindTransform at hd
  generalize env.node dagPath = dagNode at hd
  obtain ⟨name, wm, msg, bp, incl, tr⟩ := dagNode
  have hnil : ∀ d ∈ ([] : List Diag), d.isCodingError = false := by simp
  have hone : ∀ d ∈ [Diag.tfVerifyFailed "numInstance < 2 && status"],
      d.isCodingError = false := by
    intro d hd
    rw [List.mem_singleton] at hd
    rw [hd]
    rfl
  cases wm with
  | none =>
    cases msg with
    | none => simp only at hd; (repeat' split at hd) <;> simp at hd
    | some plgMsg =>
      obtain ⟨isSource, dests⟩ := plgMsg
      have hp := dagPoseLoop_noCodingError dests [] hnil
      cases isSource <;> simp only at hd <;> (repeat' split at hd) <;>
        first
        | exact hp d hd
        | exact hnil d hd
  | some plug =>
    have hs := instanceLoop_noCodingError name plug (List.range plug.numElements)
    cases msg with
    | none =>
      simp only at hd
      (repeat' split at hd) <;>
        first
        | exact hs _ hnil d hd
        | exact hs _ hone d hd
    | some plgMsg =>
      obtain ⟨isSource, dests⟩ := plgMsg
      have hp := dagPoseLoop_noCodingError dests
      cases isSource <;> simp only at hd <;> (repeat' split at hd) <;>
        first
        | exact hs _ hnil d hd
        | exact hs _ hone d hd
        | exact hp _ (hs _ hnil) d hd
        | exact hp _ (hs _ hone) d hd

theorem getJointWorldBindTransforms_noCodingError (env : Env) (topology : UsdSkelTopology)
    (jointDagPaths : List MDagPath) :
    ∀ d ∈ (_GetJointWorldBindTransforms env topology jointDagPaths).2,
      d.isCodingError = false := by
  unfold _GetJointWorldBindTransforms
  have key : ∀ (l : List MDagPath) (acc : List GfMatrix4d × List Diag),
      (∀ d ∈ acc.2, d.isCodingError = false) →
      ∀ d ∈ (l.foldl
        (fun acc dagPath =>
          ((acc.1 ++ [(_GetJointWorldBindTransform env dagPath).1],
            acc.2 ++ (_GetJointWorldBindTransform env dagPath).2) : List GfMatrix4d × List Diag))
        acc).2, d.isCodingError = false := by
    intro l
    induction l with
    | nil => intro acc h; exact h
    | cons p l ih =>
      intro acc h
      simp only [List.foldl_cons]
      apply ih
      intro d hd
      simp only [List.mem_append] at hd
      rcases hd with hd | hd
      · exact h d hd
      · exact getJointWorldBindTransform_noCodingError env p d hd
  exact key jointDagPaths ([], []) (by simp)

theorem getAnimatedJoints_noCodingError (usdJointNames : List TfToken)
    (jointDagPaths : List MDagPath) (restXforms : List GfMatrix4d)
    (animatedJointNames : List TfToken) (animatedJointPaths : List MDagPath) :
    ∀ d ∈ (_GetAnimatedJoints usdJointNames jointDagPaths restXforms animatedJointNames
        animatedJointPaths).2, d.isCodingError = false := by
  unfold _GetAnimatedJoints
  intro d hd
  split at hd
  · rw [List.mem_singleton] at hd; rw [hd]; rfl
  · split at hd <;> simp at hd

theorem restStateAttrs_log (env : Env) (skelJointNames : List TfToken)
    (w : PxrUsdTranslators_JointWriter) (log : List Event) :
    ∃ new : List Event,
      (PxrUsdTranslators_JointWriter.restStateAttrs env skelJointNames w log).2.2 = log ++ new
        ∧ Event.SetAttribute (skelAttr w._skel jointsAttrName) (VtValue.tokens skelJointNames)
            UsdTimeCode.Default ∈ new
        ∧ ∀ e ∈ new, e.isAnimSample = false ∧ e.isCodingError = false := by
  have hb := getJointWorldBindTransforms_noCodingError env w._topology w._joints
  have ha := getAnimatedJoints_noCodingError skelJointNames w._joints
    (_GetJointLocalTransforms env w._topology w._joints
      (_GetJointWorldTransform env w._jointHierarchyRootPath) []).2 [] w._animatedJoints
  unfold PxrUsdTranslators_JointWriter.restStateAttrs
  simp only
  split
  · refine ⟨_, by simp only [List.append_assoc]; rfl, by simp, ?_⟩
    intro e he
    simp only [List.mem_append, List.mem_cons, List.mem_map, List.mem_singleton,
      List.not_mem_nil, or_false] at he
    rcases he with rfl | rfl | rfl | ⟨d, hd, rfl⟩ | rfl | rfl | ⟨d, hd, rfl⟩
    · exact ⟨rfl, rfl⟩
    · exact ⟨rfl, rfl⟩
    · exact ⟨rfl, rfl⟩
    · exact ⟨rfl, by cases d <;> first | rfl | exact absurd (hb _ hd) (by simp [Diag.isCodingError])⟩
    · exact ⟨rfl, rfl⟩
    · exact ⟨rfl, rfl⟩
    · exact ⟨rfl, by cases d <;> first | rfl | exact absurd (ha _ hd) (by simp [Diag.isCodingError])⟩
  · refine ⟨_, by simp only [List.append_assoc]; rfl, by simp, ?_⟩
    intro e he
    simp only [List.mem_append, List.mem_cons, List.mem_map, List.mem_singleton,
      List.not_mem_nil, or_false] at he
    rcases he with rfl | rfl | rfl | ⟨d, hd, rfl⟩ | rfl | rfl | ⟨d, hd, rfl⟩
    · exact ⟨rfl, rfl⟩
    · exact ⟨rfl, rfl⟩
    · exact ⟨rfl, rfl⟩
    · exact ⟨rfl, by cases d <;> first | rfl | exact absurd (hb _ hd) (by simp [Diag.isCodingError])⟩
    · exact ⟨rfl, rfl⟩
    · exact ⟨rfl, rfl⟩
    · exact ⟨rfl, by cases d <;> first | rfl | exact absurd (ha _ hd) (by simp [Diag.isCodingError])⟩

theorem restStateAnim_log (env : Env) (haveUsdSkelXform : Bool)
    (skelJointNames animJointNames : List TfToken) (w : PxrUsdTranslators_JointWriter)
    (log : List Event) :
    ∃ new : List Event,
      (PxrUsdTranslators_JointWriter.restStateAnim env haveUsdSkelXform skelJointNames
          animJointNames w log).2.2 = log ++ new
        ∧ ∀ e ∈ new, e.isAnimSample = false ∧ e.isCodingError = false
            ∧ e.setsAttrNamed restTransformsAttrName = false := by
  unfold PxrUsdTranslators_JointWriter.restStateAnim
  cases haveUsdSkelXform <;> cases hn : animJointNames.isEmpty <;>
    simp only [hn, Bool.not_true, Bool.not_false, Bool.false_eq_true, if_true, if_false]
  · split
    · refine ⟨_, by simp only [List.append_assoc]; rfl, ?_⟩
      intro e he
      simp only [List.mem_append, List.mem_cons, List.mem_singleton, List.not_mem_nil,
        or_false] at he
      rcases he with rfl | rfl | rfl <;> exact ⟨rfl, rfl, rfl⟩
    · refine ⟨_, by simp only [List.append_assoc]; rfl, ?_⟩
      intro e he
      simp only [List.mem_append, List.mem_cons, List.mem_singleton, List.not_mem_nil,
        or_false] at he
      rcases he with rfl | rfl <;> exact ⟨rfl, rfl, rfl⟩
  · exact ⟨[], by simp, by simp⟩
  · split
    · refine ⟨_, by simp only [List.append_assoc]; rfl, ?_⟩
      intro e he
      simp only [List.mem_append, List.mem_cons, List.mem_singleton, List.not_mem_nil,
        or_false] at he
      rcases he with rfl | rfl | rfl | rfl <;> exact ⟨rfl, rfl, rfl⟩
    · refine ⟨_, by simp only [List.append_assoc]; rfl, ?_⟩
      intro e he
      simp only [List.mem_append, List.mem_cons, List.mem_singleton, List.not_mem_nil,
        or_false] at he
      rcases he with rfl | rfl | rfl <;> exact ⟨rfl, rfl, rfl⟩
  · refine ⟨[Event.MakeMatrixXform w._skel], rfl, ?_⟩
    intro e he
    rw [List.mem_singleton] at he
    rw [he]
    exact ⟨rfl, rfl, rfl⟩

theorem writeRestState_log (env : Env) (w : PxrUsdTranslators_JointWriter) (log : List Event) :
    ∃ new : List Event,
      (PxrUsdTranslators_JointWriter._WriteRestState env w log).2.2 = log ++ new
        ∧ ∀ e ∈ new, e.isAnimSample = false := by
  have hl := restStateTopology_log env w log
  unfold PxrUsdTranslators_JointWriter._WriteRestState
  simp only
  split
  · rw [hl]
    refine ⟨_, by rw [List.append_assoc], ?_⟩
    intro e he
    simp only [List.mem_append] at he
    rcases he with he | he
    · split at he
      · simp at he
      · rw [List.mem_singleton] at he; rw [he]; rfl
    · split at he
      · simp at he
      · rw [List.mem_singleton] at he; rw [he]; rfl
  · obtain ⟨n3, h3, h3a⟩ := restStateAnim_log env
      (PxrUsdTranslators_JointWriter.restStateTopology env w log).2.1
      (PxrUsdTranslators_JointWriter.restStateTopology env w log).1
      (PxrUsdTranslators_JointWriter.restStateAttrs env
        (PxrUsdTranslators_JointWriter.restStateTopology env w log).1
        (PxrUsdTranslators_JointWriter.restStateTopology env w log).2.2.2.1
        (PxrUsdTranslators_JointWriter.restStateTopology env w log).2.2.2.2).1
      (PxrUsdTranslators_JointWriter.restStateAttrs env
        (PxrUsdTranslators_JointWriter.restStateTopology env w log).1
        (PxrUsdTranslators_JointWriter.restStateTopology env w log).2.2.2.1
        (PxrUsdTranslators_JointWriter.restStateTopology env w log).2.2.2.2).2.1
      (PxrUsdTranslators_JointWriter.restStateAttrs env
        (PxrUsdTranslators_JointWriter.restStateTopology env w log).1
        (PxrUsdTranslators_JointWriter.restStateTopology env w log).2.2.2.1
        (PxrUsdTranslators_JointWriter.restStateTopology env w log).2.2.2.2).2.2
    obtain ⟨n2, h2, _, h2a⟩ := restStateAttrs_log env
      (PxrUsdTranslators_JointWriter.restStateTopology env w log).1
      (PxrUsdTranslators_JointWriter.restStateTopology env w log).2.2.2.1
      (PxrUsdTranslators_JointWriter.restStateTopology env w log).2.2.2.2
    rw [h3, h2, hl]
    refine ⟨_, by simp only [List.append_assoc]; rfl, ?_⟩
    intro e he
    simp only [List.mem_append] at he
    rcases he with he | he | he | he
    · split at he
      · simp at he
      · rw [List.mem_singleton] at he; rw [he]; rfl
    · split at he
      · simp at he
      · rw [List.mem_singleton] at he; rw [he]; rfl
    · exact (h2a e he).1
    · exact (h3a e he).1

theorem writeRestPass_log (env : Env) (usdTime : UsdTimeCode)
    (w : PxrUsdTranslators_JointWriter) (log : List Event) :
    ∃ new : List Event,
      (PxrUsdTranslators_JointWriter.writeRestPass env usdTime w log).2 = log ++ new
        ∧ ∀ e ∈ new, e.isAnimSample = false := by
  unfold PxrUsdTranslators_JointWriter.writeRestPass
  split
  · exact writeRestState_log env w log
  · exact ⟨[], by simp, by simp⟩

/-! ### The writer: a missing SkelAnimation -/

/-- C7. Take the writer as it stands when `Write` reaches its validity check
(after the default-time pass, when the time code is the default one). If it
is valid, its animated-joint list is non-empty and its SkelAnimation is
absent, then `Write` reports the coding error "SkelAnimation doesn't exist
but should have been created during default-time pass" as its last action,
and nothing it appended to the log is a translations, rotations or scales
write. -/
theorem write_of_missing_skelAnim (env : Env) (usdTime : UsdTimeCode)
    (w : PxrUsdTranslators_JointWriter) (log : List Event)
    (hvalid : (PxrUsdTranslators_JointWriter.writeRestPass env usdTime w log).1._valid = true)
    (hanim : (PxrUsdTranslators_JointWriter.writeRestPass env usdTime w log).1._animatedJoints
      ≠ [])
    (hnone : (PxrUsdTranslators_JointWriter.writeRestPass env usdTime w log).1._skelAnim
      = none) :
    ∃ new : List Event,
      (PxrUsdTranslators_JointWriter.Write env usdTime w log).2
          = log ++ new ++ [Event.diag (Diag.tfCodingError (skelAnimMissingMsg
              (env.getAnimationPath (skelPrimPath
                (PxrUsdTranslators_JointWriter.writeRestPass env usdTime w log).1._skel))))]
        ∧ ∀ e ∈ new, e.isAnimSample = false := by
  obtain ⟨n1, h1, h1a⟩ := writeRestPass_log env usdTime w log
  have hempty : (PxrUsdTranslators_JointWriter.writeRestPass env usdTime w log).1._animatedJoints.isEmpty
      = false := by
    cases hl : (PxrUsdTranslators_JointWriter.writeRestPass env usdTime w log).1._animatedJoints with
    | nil => exact absurd hl hanim
    | cons a l => rfl
  have ha : PxrUsdTranslators_JointWriter.writeAnimation env usdTime
      (PxrUsdTranslators_JointWriter.writeRestPass env usdTime w log).1
      = [Event.diag (Diag.tfCodingError (skelAnimMissingMsg
          (env.getAnimationPath (skelPrimPath
            (PxrUsdTranslators_JointWriter.writeRestPass env usdTime w log).1._skel))))] := by
    unfold PxrUsdTranslators_JointWriter.writeAnimation
    simp only [hempty, Bool.not_false, if_true, hnone]
  unfold PxrUsdTranslators_JointWriter.Write PxrUsdTranslators_JointWriter.writeSample
  simp only [hvalid, Bool.not_true, Bool.false_eq_true, if_false, ha, h1]
  split
  · refine ⟨n1 ++ [Event.SetAttribute
        (PxrUsdTranslators_JointWriter.writeRestPass env usdTime w log).1._skelXformAttr
        (VtValue.matrix (_GetJointLocalTransform env
          (PxrUsdTranslators_JointWriter.writeRestPass env usdTime w log).1._skelXformPath))
        usdTime], by simp only [List.append_assoc], ?_⟩
    intro e he
    rw [List.mem_append, List.mem_singleton] at he
    rcases he with he | rfl
    · exact h1a e he
    · rfl
  · exact ⟨n1, rfl, h1a⟩

/-- Witness of C7: a sample at frame 1 on a valid writer with one animated
joint and no SkelAnimation. -/
theorem write_of_missing_skelAnim_witness :
    ∃ new : List Event,
      (PxrUsdTranslators_JointWriter.Write
          (sampleEnv sampleFreeJoint [⟨"|rig|a"⟩] ⟨[-1]⟩ exportSkelsAuto) (UsdTimeCode.Numeric 1)
          sampleOrphanWriter []).2
          = [] ++ new ++ [Event.diag (Diag.tfCodingError (skelAnimMissingMsg ⟨"/Animation"⟩))]
        ∧ ∀ e ∈ new, e.isAnimSample = false :=
  write_of_missing_skelAnim (sampleEnv sampleFreeJoint [⟨"|rig|a"⟩] ⟨[-1]⟩ exportSkelsAuto)
    (UsdTimeCode.Numeric 1) sampleOrphanWriter [] rfl (by decide) rfl

/-! ### The writer: sampling twice -/

theorem writeSample_log (env : Env) (usdTime : UsdTimeCode)
    (w : PxrUsdTranslators_JointWriter) :
    ∃ new : List Event, ∀ log : List Event,
      PxrUsdTranslators_JointWriter.writeSample env usdTime w log = (w, log ++ new) := by
  unfold PxrUsdTranslators_JointWriter.writeSample
  cases hv : w._valid
  · exact ⟨[], fun log => by simp⟩
  · by_cases hx : ((usdTime.IsDefault || w._skelXformIsAnimated) && w._skelXformAttr.isValid)
        = true
    · exact ⟨[Event.SetAttribute w._skelXformAttr
          (VtValue.matrix (_GetJointLocalTransform env w._skelXformPath)) usdTime]
          ++ PxrUsdTranslators_JointWriter.writeAnimation env usdTime w,
        fun log => by simp only [Bool.not_true, Bool.false_eq_true, if_false, hx,
          if_true, List.append_assoc]⟩
    · exact ⟨PxrUsdTranslators_JointWriter.writeAnimation env usdTime w,
        fun log => by simp only [Bool.not_true, Bool.false_eq_true, if_false, hx]⟩

/-- C8. At a non-default time code and in a fixed scene state, `Write` leaves
the writer unchanged, and calling it twice in a row appends the same events
both times: the translations, rotations and scales computed by the second
call are those of the first. -/
theorem write_nonDefault_twice (env : Env) (usdTime : UsdTimeCode)
    (w : PxrUsdTranslators_JointWriter) (log : List Event)
    (ht : usdTime.IsDefault = false) :
    (PxrUsdTranslators_JointWriter.Write env usdTime w log).1 = w
      ∧ ∃ new : List Event,
          (PxrUsdTranslators_JointWriter.Write env usdTime w log).2 = log ++ new
            ∧ PxrUsdTranslators_JointWriter.Write env usdTime
                (PxrUsdTranslators_JointWriter.Write env usdTime w log).1
                (PxrUsdTranslators_JointWriter.Write env usdTime w log).2
              = (w, log ++ new ++ new) := by
  obtain ⟨new, hnew⟩ := writeSample_log env usdTime w
  have hw : ∀ log : List Event,
      PxrUsdTranslators_JointWriter.Write env usdTime w log = (w, log ++ new) := by
    intro log
    unfold PxrUsdTranslators_JointWriter.Write PxrUsdTranslators_JointWriter.writeRestPass
    simp only [ht, Bool.false_eq_true, if_false]
    exact hnew log
  refine ⟨by rw [hw], new, by rw [hw], ?_⟩
  rw [hw log]
  exact hw (log ++ new)

/-- Witness of C8: frame 1 of a one-joint skeleton, after its default-time
pass. -/
theorem write_nonDefault_twice_witness :
    (PxrUsdTranslators_JointWriter.Write
        (sampleEnv sampleFreeJoint [⟨"|rig|a"⟩] ⟨[-1]⟩ exportSkelsAuto) (UsdTimeCode.Numeric 1)
        sampleExportedWriter.1 sampleExportedWriter.2).1 = sampleExportedWriter.1 :=
  (write_nonDefault_twice (sampleEnv sampleFreeJoint [⟨"|rig|a"⟩] ⟨[-1]⟩ exportSkelsAuto)
    (UsdTimeCode.Numeric 1) sampleExportedWriter.1 sampleExportedWriter.2 rfl).1

/-! ### Topology: trees, cycles and outside parents -/

theorem ancestor_lt_of_parentsFirst (t : UsdSkelTopology) (hpf : t.parentsFirst) (k : Nat) :
    ∀ i j, i < t.size → t.ancestor (k + 1) i = some j → j < i := by
  induction k with
  | zero =>
    intro i j hi h
    unfold UsdSkelTopology.ancestor UsdSkelTopology.parentJoint at h
    by_cases hp : 0 ≤ t.GetParent i
    · simp only [hp, if_true, UsdSkelTopology.ancestor, Option.some.injEq] at h
      rcases hpf i hi with h1 | h1 <;> omega
    · simp [hp] at h
  | succ k ih =>
    intro i j hi h
    unfold UsdSkelTopology.ancestor UsdSkelTopology.parentJoint at h
    by_cases hp : 0 ≤ t.GetParent i
    · simp only [hp, if_true] at h
      have hlt : (t.GetParent i).toNat < i := by
        rcases hpf i hi with h1 | h1 <;> omega
      have := ih (t.GetParent i).toNat j (by omega) h
      omega
    · simp [hp] at h

theorem not_parentsFirst_of_hasCycle (t : UsdSkelTopology) (h : t.hasCycle) :
    ¬ t.parentsFirst := by
  intro hpf
  obtain ⟨i, k, hi, hk, hc⟩ := h
  obtain ⟨k, rfl⟩ : ∃ m, k = m + 1 := ⟨k - 1, by omega⟩
  exact absurd (ancestor_lt_of_parentsFirst t hpf k i i hi hc) (Nat.lt_irrefl i)

theorem not_parentsFirst_of_hasOutsideParent (t : UsdSkelTopology) (h : t.hasOutsideParent) :
    ¬ t.parentsFirst := by
  intro hpf
  obtain ⟨i, hi, hp⟩ := h
  rcases hpf i hi with h1 | h1 <;> omega

theorem validate_false_of_not_parentsFirst (t : UsdSkelTopology) (h : ¬ t.parentsFirst) :
    t.Validate.1 = false := by
  cases hv : t.Validate.1
  · rfl
  · exact absurd ((validate_iff_parentsFirst t).mp hv) h

/-! ### The writer: what the default-time pass leaves in the writer -/

theorem restStateAttrs_writer (env : Env) (skelJointNames : List TfToken)
    (w : PxrUsdTranslators_JointWriter) (log : List Event) :
    (PxrUsdTranslators_JointWriter.restStateAttrs env skelJointNames w log).2.1
      = { w with _animatedJoints :=
          (_GetAnimatedJoints skelJointNames w._joints
            (_GetJointLocalTransforms env w._topology w._joints
              (_GetJointWorldTransform env w._jointHierarchyRootPath) []).2 []
            w._animatedJoints).1.2 } := rfl

theorem restStateAttrs_names (env : Env) (skelJointNames : List TfToken)
    (w : PxrUsdTranslators_JointWriter) (log : List Event) :
    (PxrUsdTranslators_JointWriter.restStateAttrs env skelJointNames w log).1
      = (_GetAnimatedJoints skelJointNames w._joints
          (_GetJointLocalTransforms env w._topology w._joints
            (_GetJointWorldTransform env w._jointHierarchyRootPath) []).2 []
          w._animatedJoints).1.1 := rfl

theorem restStateAnim_result (env : Env) (haveUsdSkelXform : Bool)
    (skelJointNames animJointNames : List TfToken) (w : PxrUsdTranslators_JointWriter)
    (log : List Event) :
    (PxrUsdTranslators_JointWriter.restStateAnim env haveUsdSkelXform skelJointNames
        animJointNames w log).1
      = (animJointNames.isEmpty
          || (env.defineSkelAnimation (env.getAnimationPath (skelPrimPath w._skel))).isSome) := by
  unfold PxrUsdTranslators_JointWriter.restStateAnim
  cases haveUsdSkelXform <;> cases hn : animJointNames.isEmpty <;>
    simp only [hn, Bool.not_true, Bool.not_false, Bool.false_eq_true, if_true, if_false,
      Bool.true_or, Bool.false_or]
  · cases env.defineSkelAnimation (env.getAnimationPath (skelPrimPath w._skel)) <;> rfl
  · cases env.defineSkelAnimation (env.getAnimationPath (skelPrimPath w._skel)) <;> rfl

theorem restStateAnim_writer (env : Env) (haveUsdSkelXform : Bool)
    (skelJointNames animJointNames : List TfToken) (w : PxrUsdTranslators_JointWriter)
    (log : List Event) :
    (PxrUsdTranslators_JointWriter.restStateAnim env haveUsdSkelXform skelJointNames
        animJointNames w log).2.1._topology = w._topology
      ∧ (PxrUsdTranslators_JointWriter.restStateAnim env haveUsdSkelXform skelJointNames
          animJointNames w log).2.1._joints = w._joints
      ∧ (PxrUsdTranslators_JointWriter.restStateAnim env haveUsdSkelXform skelJointNames
          animJointNames w log).2.1._animatedJoints = w._animatedJoints := by
  unfold PxrUsdTranslators_JointWriter.restStateAnim
  cases haveUsdSkelXform <;> cases hn : animJointNames.isEmpty <;>
    simp only [hn, Bool.not_true, Bool.not_false, Bool.false_eq_true, if_true, if_false]
  all_goals
    first
    | exact ⟨trivial, trivial, trivial⟩
    | exact ⟨rfl, rfl, rfl⟩
    | (split <;> exact ⟨rfl, rfl, rfl⟩)

theorem writeRestState_topology (env : Env) (w : PxrUsdTranslators_JointWriter)
    (log : List Event) :
    (PxrUsdTranslators_JointWriter._WriteRestState env w log).2.1._topology
      = env.topologyOfNames
          (getJointNames env (env.getJointHierarchyComponents w.dagPath).2.2) := by
  have hw := restStateTopology_writer env w log
  unfold PxrUsdTranslators_JointWriter._WriteRestState
  simp only
  split
  · rw [hw]
  · rw [(restStateAnim_writer _ _ _ _ _ _).1, restStateAttrs_writer, hw]

theorem writeRestState_true_valid (env : Env) (w : PxrUsdTranslators_JointWriter)
    (log : List Event)
    (h : (PxrUsdTranslators_JointWriter._WriteRestState env w log).1 = true) :
    (env.topologyOfNames
      (getJointNames env (env.getJointHierarchyComponents w.dagPath).2.2)).Validate.1 = true := by
  cases hv : (env.topologyOfNames
      (getJointNames env (env.getJointHierarchyComponents w.dagPath).2.2)).Validate.1
  · rw [(writeRestState_of_invalidTopology env w log hv).1] at h
    exact absurd h (by decide)
  · rfl

theorem write_preserves_topologyInvariant (env : Env) (usdTime : UsdTimeCode)
    (w : PxrUsdTranslators_JointWriter) (log : List Event)
    (hinv : w._valid = true → w._topology.Validate.1 = true) :
    (PxrUsdTranslators_JointWriter.Write env usdTime w log).1._valid = true →
      (PxrUsdTranslators_JointWriter.Write env usdTime w log).1._topology.Validate.1 = true := by
  cases ht : usdTime.IsDefault
  · rw [write_nonDefault_writer env usdTime w log ht]
    exact hinv
  · obtain ⟨new, hnew⟩ := writeSample_log env usdTime
      (PxrUsdTranslators_JointWriter.writeRestPass env usdTime w log).1
    have hw : (PxrUsdTranslators_JointWriter.Write env usdTime w log).1
        = { (PxrUsdTranslators_JointWriter._WriteRestState env w log).2.1 with
            _valid := (PxrUsdTranslators_JointWriter._WriteRestState env w log).1 } := by
      unfold PxrUsdTranslators_JointWriter.Write
      rw [hnew]
      unfold PxrUsdTranslators_JointWriter.writeRestPass
      simp only [ht, if_true]
    rw [hw]
    intro hvalid
    have := writeRestState_true_valid env w log hvalid
    simp only [writeRestState_topology]
    exact this

theorem writeAll_preserves_topologyInvariant (calls : List (Env × UsdTimeCode)) :
    ∀ st : PxrUsdTranslators_JointWriter × List Event,
      (st.1._valid = true → st.1._topology.Validate.1 = true) →
      (PxrUsdTranslators_JointWriter.WriteAll calls st).1._valid = true →
      (PxrUsdTranslators_JointWriter.WriteAll calls st).1._topology.Validate.1 = true := by
  induction calls with
  | nil => intro st h; exact h
  | cons c rest ih =>
    intro st h
    obtain ⟨env, usdTime⟩ := c
    unfold PxrUsdTranslators_JointWriter.WriteAll
    exact ih _ (write_preserves_topologyInvariant env usdTime st.1 st.2 h)

theorem construct_valid (env : Env) (dagPath : MDagPath) (usdPath : SdfPath)
    (skelXformIsAnimated : Bool) :
    (PxrUsdTranslators_JointWriter.construct env dagPath usdPath skelXformIsAnimated).1._valid
      = false := by
  unfold PxrUsdTranslators_JointWriter.construct
  simp only
  split
  · rfl
  · split
    · rfl
    · split <;> rfl

theorem writeRestState_of_validTopology (env : Env) (w : PxrUsdTranslators_JointWriter)
    (log : List Event)
    (hok : (env.topologyOfNames
      (getJointNames env (env.getJointHierarchyComponents w.dagPath).2.2)).Validate.1 = true) :
    (∃ new : List Event,
        (PxrUsdTranslators_JointWriter._WriteRestState env w log).2.2 = log ++ new
          ∧ Event.SetAttribute (skelAttr w._skel jointsAttrName)
              (VtValue.tokens (getJointNames env (env.getJointHierarchyComponents w.dagPath).2.2))
              UsdTimeCode.Default ∈ new
          ∧ ∀ e ∈ new, e.isCodingError = false)
      ∧ ((PxrUsdTranslators_JointWriter._WriteRestState env w log).1 = false →
          env.defineSkelAnimation (env.getAnimationPath (skelPrimPath w._skel)) = none) := by
  have hv := restStateTopology_valid env w log
  have hl := restStateTopology_log env w log
  have hw := restStateTopology_writer env w log
  have hn := restStateTopology_names env w log
  rw [hok] at hv
  rw [hok] at hl
  simp only [if_true, List.append_nil] at hl
  have hr : PxrUsdTranslators_JointWriter._WriteRestState env w log
      = PxrUsdTranslators_JointWriter.restStateAnim env
          (PxrUsdTranslators_JointWriter.restStateTopology env w log).2.1
          (PxrUsdTranslators_JointWriter.restStateTopology env w log).1
          (PxrUsdTranslators_JointWriter.restStateAttrs env
            (PxrUsdTranslators_JointWriter.restStateTopology env w log).1
            (PxrUsdTranslators_JointWriter.restStateTopology env w log).2.2.2.1
            (PxrUsdTranslators_JointWriter.restStateTopology env w log).2.2.2.2).1
          (PxrUsdTranslators_JointWriter.restStateAttrs env
            (PxrUsdTranslators_JointWriter.restStateTopology env w log).1
            (PxrUsdTranslators_JointWriter.restStateTopology env w log).2.2.2.1
            (PxrUsdTranslators_JointWriter.restStateTopology env w log).2.2.2.2).2.1
          (PxrUsdTranslators_JointWriter.restStateAttrs env
            (PxrUsdTranslators_JointWriter.restStateTopology env w log).1
            (PxrUsdTranslators_JointWriter.restStateTopology env w log).2.2.2.1
            (PxrUsdTranslators_JointWriter.restStateTopology env w log).2.2.2.2).2.2 := by
    unfold PxrUsdTranslators_JointWriter._WriteRestState
    simp only [hv, Bool.not_true, Bool.false_eq_true, if_false]
  obtain ⟨n3, h3, h3a⟩ := restStateAnim_log env
    (PxrUsdTranslators_JointWriter.restStateTopology env w log).2.1
    (PxrUsdTranslators_JointWriter.restStateTopology env w log).1
    (PxrUsdTranslators_JointWriter.restStateAttrs env
      (PxrUsdTranslators_JointWriter.restStateTopology env w log).1
      (PxrUsdTranslators_JointWriter.restStateTopology env w log).2.2.2.1
      (PxrUsdTranslators_JointWriter.restStateTopology env w log).2.2.2.2).1
    (PxrUsdTranslators_JointWriter.restStateAttrs env
      (PxrUsdTranslators_JointWriter.restStateTopology env w log).1
      (PxrUsdTranslators_JointWriter.restStateTopology env w log).2.2.2.1
      (PxrUsdTranslators_JointWriter.restStateTopology env w log).2.2.2.2).2.1
    (PxrUsdTranslators_JointWriter.restStateAttrs env
      (PxrUsdTranslators_JointWriter.restStateTopology env w log).1
      (PxrUsdTranslators_JointWriter.restStateTopology env w log).2.2.2.1
      (PxrUsdTranslators_JointWriter.restStateTopology env w log).2.2.2.2).2.2
  obtain ⟨n2, h2, h2j, h2a⟩ := restStateAttrs_log env
    (PxrUsdTranslators_JointWriter.restStateTopology env w log).1
    (PxrUsdTranslators_JointWriter.restStateTopology env w log).2.2.2.1
    (PxrUsdTranslators_JointWriter.restStateTopology env w log).2.2.2.2
  have hres := restStateAnim_result env
    (PxrUsdTranslators_JointWriter.restStateTopology env w log).2.1
    (PxrUsdTranslators_JointWriter.restStateTopology env w log).1
    (PxrUsdTranslators_JointWriter.restStateAttrs env
      (PxrUsdTranslators_JointWriter.restStateTopology env w log).1
      (PxrUsdTranslators_JointWriter.restStateTopology env w log).2.2.2.1
      (PxrUsdTranslators_JointWriter.restStateTopology env w log).2.2.2.2).1
    (PxrUsdTranslators_JointWriter.restStateAttrs env
      (PxrUsdTranslators_JointWriter.restStateTopology env w log).1
      (PxrUsdTranslators_JointWriter.restStateTopology env w log).2.2.2.1
      (PxrUsdTranslators_JointWriter.restStateTopology env w log).2.2.2.2).2.1
    (PxrUsdTranslators_JointWriter.restStateAttrs env
      (PxrUsdTranslators_JointWriter.restStateTopology env w log).1
      (PxrUsdTranslators_JointWriter.restStateTopology env w log).2.2.2.1
      (PxrUsdTranslators_JointWriter.restStateTopology env w log).2.2.2.2).2.2
  rw [hr]
  refine ⟨⟨(if env.IsUsdSkeleton w.dagPath then []
      else [Event.MarkSkelAsMayaGenerated w._skel]) ++ n2 ++ n3, ?_, ?_, ?_⟩, ?_⟩
  · rw [h3, h2, hl]
    simp only [List.append_assoc]
  · apply List.mem_append_left
    apply List.mem_append_right
    rw [hn, hw] at h2j
    exact h2j
  · intro e he
    simp only [List.mem_append] at he
    rcases he with (he | he) | he
    · split at he
      · simp at he
      · rw [List.mem_singleton] at he; rw [he]; rfl
    · exact (h2a e he).2
    · exact (h3a e he).2.1
  · intro hfalse
    rw [hres, restStateAttrs_writer, hw] at hfalse
    simp only [Bool.or_eq_false_iff] at hfalse
    cases hd : env.defineSkelAnimation (env.getAnimationPath (skelPrimPath w._skel)) with
    | none => rfl
    | some a => rw [hd] at hfalse; exact absurd hfalse.2 (by simp)

/-- C9. `_WriteRestState` accepts every joint list that forms a valid tree
(each joint's parent, if it has one, appears earlier): it reports no coding
error, authors the joints attribute, and can only return false when the
SkelAnimation prim cannot be defined. It rejects every joint list with a cycle
or with a joint whose parent lies outside the hierarchy: it returns false and
its last action is the "Joint topology is invalid" coding error. And after any
run of `Write` calls on a freshly constructed writer, a valid writer's stored
topology has every parent before its child. -/
theorem writeRestState_validates_topology (env : Env) (w : PxrUsdTranslators_JointWriter)
    (log : List Event) :
    ((env.topologyOfNames
        (getJointNames env (env.getJointHierarchyComponents w.dagPath).2.2)).parentsFirst →
      (∃ new : List Event,
        (PxrUsdTranslators_JointWriter._WriteRestState env w log).2.2 = log ++ new
          ∧ Event.SetAttribute (skelAttr w._skel jointsAttrName)
              (VtValue.tokens (getJointNames env (env.getJointHierarchyComponents w.dagPath).2.2))
              UsdTimeCode.Default ∈ new
          ∧ ∀ e ∈ new, e.isCodingError = false)
      ∧ ((PxrUsdTranslators_JointWriter._WriteRestState env w log).1 = false →
          env.defineSkelAnimation (env.getAnimationPath (skelPrimPath w._skel)) = none))
    ∧ ((env.topologyOfNames
          (getJointNames env (env.getJointHierarchyComponents w.dagPath).2.2)).hasCycle
        ∨ (env.topologyOfNames
          (getJointNames env (env.getJointHierarchyComponents w.dagPath).2.2)).hasOutsideParent →
      (PxrUsdTranslators_JointWriter._WriteRestState env w log).1 = false
        ∧ ∃ (pre : List Event) (whyNotValid : String),
            (PxrUsdTranslators_JointWriter._WriteRestState env w log).2.2
              = log ++ pre ++ [Event.diag (Diag.tfCodingError (topologyInvalidMsg whyNotValid))])
    ∧ (∀ (env0 : Env) (dagPath : MDagPath) (usdPath : SdfPath) (skelXformIsAnimated : Bool)
        (calls : List (Env × UsdTimeCode)),
        (PxrUsdTranslators_JointWriter.WriteAll calls
          (PxrUsdTranslators_JointWriter.construct env0 dagPath usdPath
            skelXformIsAnimated)).1._valid = true →
        (PxrUsdTranslators_JointWriter.WriteAll calls
          (PxrUsdTranslators_JointWriter.construct env0 dagPath usdPath
            skelXformIsAnimated)).1._topology.parentsFirst) := by
  refine ⟨?_, ?_, ?_⟩
  · intro hpf
    exact writeRestState_of_validTopology env w log ((validate_iff_parentsFirst _).mpr hpf)
  · intro hbad
    have hnot : ¬ (env.topologyOfNames
        (getJointNames env (env.getJointHierarchyComponents w.dagPath).2.2)).parentsFirst := by
      rcases hbad with h | h
      · exact not_parentsFirst_of_hasCycle _ h
      · exact not_parentsFirst_of_hasOutsideParent _ h
    obtain ⟨h1, h2⟩ := writeRestState_of_invalidTopology env w log
      (validate_false_of_not_parentsFirst _ hnot)
    exact ⟨h1, _, _, h2⟩
  · intro env0 dagPath usdPath skelXformIsAnimated calls hvalid
    apply (validate_iff_parentsFirst _).mp
    apply writeAll_preserves_topologyInvariant calls _ _ hvalid
    intro h
    rw [construct_valid] at h
    exact absurd h (by decide)

/-- Witness of C9: a joint that is its own parent is a cycle, and the default
time pass rejects it; a chain of two joints is a valid tree, and the default
time pass reports no coding error for it. -/
theorem writeRestState_validates_topology_witness :
    (PxrUsdTranslators_JointWriter._WriteRestState
        (sampleEnv sampleFreeJoint [⟨"|rig|a"⟩] ⟨[0]⟩ exportSkelsAuto)
        (PxrUsdTranslators_JointWriter.initial ⟨"|rig|a"⟩ ⟨"/rig/a"⟩ false) []).1 = false
      ∧ ∃ new : List Event,
          (PxrUsdTranslators_JointWriter._WriteRestState
              (sampleEnv sampleFreeJoint [⟨"|rig|a"⟩, ⟨"|rig|a|b"⟩] ⟨[-1, 0]⟩ exportSkelsAuto)
              (PxrUsdTranslators_JointWriter.initial ⟨"|rig|a"⟩ ⟨"/rig/a"⟩ false) []).2.2
            = [] ++ new
          ∧ ∀ e ∈ new, e.isCodingError = false :=
  ⟨((writeRestState_validates_topology
        (sampleEnv sampleFreeJoint [⟨"|rig|a"⟩] ⟨[0]⟩ exportSkelsAuto)
        (PxrUsdTranslators_JointWriter.initial ⟨"|rig|a"⟩ ⟨"/rig/a"⟩ false) []).2.1
      (Or.inl ⟨0, 1, by decide, by decide, rfl⟩)).1,
    match ((writeRestState_validates_topology
        (sampleEnv sampleFreeJoint [⟨"|rig|a"⟩, ⟨"|rig|a|b"⟩] ⟨[-1, 0]⟩ exportSkelsAuto)
        (PxrUsdTranslators_JointWriter.initial ⟨"|rig|a"⟩ ⟨"/rig/a"⟩ false) []).1
      ((validate_iff_parentsFirst _).mp (by decide))).1 with
    | ⟨new, h1, _, h3⟩ => ⟨new, h1, h3⟩⟩

/-! ### The writer: a failed rest-transform computation -/

theorem computeJointLocalTransforms_failed (topology : UsdSkelTopology)
    (xforms : List GfMatrix4d) (rootInverseXform : GfMatrix4d)
    (hvalid : topology.parentsFirst)
    (hfail : (UsdSkelComputeJointLocalTransforms topology xforms (xforms.map GetInverse)
      rootInverseXform).1 = false) :
    xforms.length ≠ topology.size
      ∧ (UsdSkelComputeJointLocalTransforms topology xforms (xforms.map GetInverse)
          rootInverseXform).2.length = topology.size := by
  by_cases hx : xforms.length = topology.size
  · rw [computeJointLocalTransforms_ok topology xforms (xforms.map GetInverse) rootInverseXform
      hvalid hx (by rw [List.length_map, hx])] at hfail
    exact absurd hfail (by simp)
  · refine ⟨hx, ?_⟩
    unfold UsdSkelComputeJointLocalTransforms
    rw [if_pos (Or.inl hx)]
    simp

theorem getJointLocalTransforms_failed (env : Env) (topology : UsdSkelTopology)
    (dagPaths : List MDagPath) (rootXf : GfMatrix4d) (localXforms : List GfMatrix4d)
    (hvalid : topology.parentsFirst)
    (hfail : (_GetJointLocalTransforms env topology dagPaths rootXf localXforms).1 = false) :
    (_GetJointLocalTransforms env topology dagPaths rootXf localXforms).2.length
      ≠ dagPaths.length := by
  have he : _GetJointLocalTransforms env topology dagPaths rootXf localXforms
      = UsdSkelComputeJointLocalTransforms topology (dagPaths.map (_GetJointWorldTransform env))
          ((dagPaths.map (_GetJointWorldTransform env)).map GetInverse) (GetInverse rootXf) := by
    unfold _GetJointLocalTransforms _GetJointWorldTransforms
    simp only [if_true]
  rw [he] at hfail ⊢
  obtain ⟨h1, h2⟩ := computeJointLocalTransforms_failed topology _ _ hvalid hfail
  rw [h2]
  rw [List.length_map] at h1
  exact fun h => h1 h.symm

theorem restStateAttrs_of_failed (env : Env) (skelJointNames : List TfToken)
    (w : PxrUsdTranslators_JointWriter) (log : List Event)
    (hlen : skelJointNames.length = w._joints.length)
    (hvalid : w._topology.parentsFirst)
    (hfail : (_GetJointLocalTransforms env w._topology w._joints
      (_GetJointWorldTransform env w._jointHierarchyRootPath) []).1 = false) :
    PxrUsdTranslators_JointWriter.restStateAttrs env skelJointNames w log
      = (skelJointNames, { w with _animatedJoints := w._joints },
          log ++ ([Event.GetBindingAPIForAuthoring w._skel,
              Event.SetAttribute (skelAttr w._skel jointsAttrName)
                (VtValue.tokens skelJointNames) UsdTimeCode.Default,
              Event.MarkSkelBindings (skelPrimPath w._skel) env.exportSkels]
            ++ (_GetJointWorldBindTransforms env w._topology w._joints).2.map Event.diag
            ++ [Event.SetAttribute (skelAttr w._skel bindTransformsAttrName)
                (VtValue.matrices (_GetJointWorldBindTransforms env w._topology w._joints).1)
                UsdTimeCode.Default,
              Event.diag (Diag.tfWarn restTransformsWarning)])) := by
  have hne := getJointLocalTransforms_failed env w._topology w._joints
    (_GetJointWorldTransform env w._jointHierarchyRootPath) [] hvalid hfail
  have ha := getAnimatedJoints_of_restCount_mismatch skelJointNames w._joints
    (_GetJointLocalTransforms env w._topology w._joints
      (_GetJointWorldTransform env w._jointHierarchyRootPath) []).2 [] w._animatedJoints hlen
    (by rw [hlen]; exact hne)
  unfold PxrUsdTranslators_JointWriter.restStateAttrs
  simp only [hfail, ha, Bool.false_eq_true, if_false, List.map_nil, List.append_nil,
    List.append_assoc, List.cons_append, List.nil_append]

theorem restStateAnim_authors_joints (env : Env) (haveUsdSkelXform : Bool)
    (skelJointNames animJointNames : List TfToken) (w : PxrUsdTranslators_JointWriter)
    (log : List Event) (skelAnim : UsdSkelAnimation)
    (hne : animJointNames ≠ [])
    (hdef : env.defineSkelAnimation (env.getAnimationPath (skelPrimPath w._skel))
      = some skelAnim) :
    Event.SetAttribute (animAttr skelAnim jointsAttrName) (VtValue.tokens animJointNames)
        UsdTimeCode.Default
      ∈ (PxrUsdTranslators_JointWriter.restStateAnim env haveUsdSkelXform skelJointNames
          animJointNames w log).2.2 := by
  have hn : animJointNames.isEmpty = false := by
    cases animJointNames with
    | nil => exact absurd rfl hne
    | cons a l => rfl
  unfold PxrUsdTranslators_JointWriter.restStateAnim
  cases haveUsdSkelXform <;>
    simp only [hn, Bool.not_false, Bool.false_eq_true, if_true, if_false, hdef] <;>
    simp

/-- C10. If the joint topology is valid but the local rest-transform
computation fails during the default-time pass, `_WriteRestState` issues the
warning "Unable to set rest transforms", makes no `SetAttribute` call on the
rest-transforms attribute, and goes on: the animated-joint list becomes the
full joint list, every joint name is authored on the SkelAnimation when that
prim can be defined, and the pass returns true exactly when there are no
joints or the SkelAnimation prim can be defined. -/
theorem writeRestState_of_failed_restTransforms (env : Env)
    (w : PxrUsdTranslators_JointWriter) (log : List Event)
    (hok : (env.topologyOfNames
      (getJointNames env (env.getJointHierarchyComponents w.dagPath).2.2)).Validate.1 = true)
    (hfail : (_GetJointLocalTransforms env
      (env.topologyOfNames (getJointNames env (env.getJointHierarchyComponents w.dagPath).2.2))
      (env.getJointHierarchyComponents w.dagPath).2.2
      (_GetJointWorldTransform env (env.getJointHierarchyComponents w.dagPath).2.1) []).1
        = false) :
    (∃ new : List Event,
        (PxrUsdTranslators_JointWriter._WriteRestState env w log).2.2 = log ++ new
          ∧ Event.diag (Diag.tfWarn restTransformsWarning) ∈ new
          ∧ ∀ e ∈ new, e.setsAttrNamed restTransformsAttrName = false)
      ∧ (PxrUsdTranslators_JointWriter._WriteRestState env w log).2.1._animatedJoints
          = (env.getJointHierarchyComponents w.dagPath).2.2
      ∧ (∀ skelAnim : UsdSkelAnimation,
          (env.getJointHierarchyComponents w.dagPath).2.2 ≠ [] →
          env.defineSkelAnimation (env.getAnimationPath (skelPrimPath w._skel)) = some skelAnim →
          Event.SetAttribute (animAttr skelAnim jointsAttrName)
              (VtValue.tokens (getJointNames env (env.getJointHierarchyComponents w.dagPath).2.2))
              UsdTimeCode.Default
            ∈ (PxrUsdTranslators_JointWriter._WriteRestState env w log).2.2)
      ∧ (PxrUsdTranslators_JointWriter._WriteRestState env w log).1
          = ((env.getJointHierarchyComponents w.dagPath).2.2.isEmpty
              || (env.defineSkelAnimation
                  (env.getAnimationPath (skelPrimPath w._skel))).isSome) := by
  have hv := restStateTopology_valid env w log
  have hl := restStateTopology_log env w log
  have hw := restStateTopology_writer env w log
  have hn := restStateTopology_names env w log
  rw [hok] at hv
  rw [hok] at hl
  simp only [if_true, List.append_nil] at hl
  have hattrs := restStateAttrs_of_failed env
    (getJointNames env (env.getJointHierarchyComponents w.dagPath).2.2)
    { w with
      _skelXformPath := (env.getJointHierarchyComponents w.dagPath).1
      _jointHierarchyRootPath := (env.getJointHierarchyComponents w.dagPath).2.1
      _joints := (env.getJointHierarchyComponents w.dagPath).2.2
      _topology := env.topologyOfNames
        (getJointNames env (env.getJointHierarchyComponents w.dagPath).2.2) }
    (log ++ (if env.IsUsdSkeleton w.dagPath then []
      else [Event.MarkSkelAsMayaGenerated w._skel]))
    (by simp [getJointNames]) ((validate_iff_parentsFirst _).mp hok) hfail
  have hr : PxrUsdTranslators_JointWriter._WriteRestState env w log
      = PxrUsdTranslators_JointWriter.restStateAnim env
          (PxrUsdTranslators_JointWriter.restStateTopology env w log).2.1
          (getJointNames env (env.getJointHierarchyComponents w.dagPath).2.2)
          (getJointNames env (env.getJointHierarchyComponents w.dagPath).2.2)
          { w with
            _skelXformPath := (env.getJointHierarchyComponents w.dagPath).1
            _jointHierarchyRootPath := (env.getJointHierarchyComponents w.dagPath).2.1
            _joints := (env.getJointHierarchyComponents w.dagPath).2.2
            _topology := env.topologyOfNames
              (getJointNames env (env.getJointHierarchyComponents w.dagPath).2.2)
            _animatedJoints := (env.getJointHierarchyComponents w.dagPath).2.2 }
          (log ++ (if env.IsUsdSkeleton w.dagPath then []
              else [Event.MarkSkelAsMayaGenerated w._skel])
            ++ ([Event.GetBindingAPIForAuthoring w._skel,
              Event.SetAttribute (skelAttr w._skel jointsAttrName)
                (VtValue.tokens
                  (getJointNames env (env.getJointHierarchyComponents w.dagPath).2.2))
                UsdTimeCode.Default,
              Event.MarkSkelBindings (skelPrimPath w._skel) env.exportSkels]
            ++ (_GetJointWorldBindTransforms env
                (env.topologyOfNames
                  (getJointNames env (env.getJointHierarchyComponents w.dagPath).2.2))
                (env.getJointHierarchyComponents w.dagPath).2.2).2.map Event.diag
            ++ [Event.SetAttribute (skelAttr w._skel bindTransformsAttrName)
                (VtValue.matrices (_GetJointWorldBindTransforms env
                  (env.topologyOfNames
                    (getJointNames env (env.getJointHierarchyComponents w.dagPath).2.2))
                  (env.getJointHierarchyComponents w.dagPath).2.2).1)
                UsdTimeCode.Default,
              Event.diag (Diag.tfWarn restTransformsWarning)])) := by
    unfold PxrUsdTranslators_JointWriter._WriteRestState
    simp only [hv, Bool.not_true, Bool.false_eq_true, if_false]
    rw [hn, hw, hl, hattrs]
  obtain ⟨n3, h3, h3a⟩ := restStateAnim_log env
    (PxrUsdTranslators_JointWriter.restStateTopology env w log).2.1
    (getJointNames env (env.getJointHierarchyComponents w.dagPath).2.2)
    (getJointNames env (env.getJointHierarchyComponents w.dagPath).2.2)
    { w with
      _skelXformPath := (env.getJointHierarchyComponents w.dagPath).1
      _jointHierarchyRootPath := (env.getJointHierarchyComponents w.dagPath).2.1
      _joints := (env.getJointHierarchyComponents w.dagPath).2.2
      _topology := env.topologyOfNames
        (getJointNames env (env.getJointHierarchyComponents w.dagPath).2.2)
      _animatedJoints := (env.getJointHierarchyComponents w.dagPath).2.2 }
    (log ++ (if env.IsUsdSkeleton w.dagPath then []
        else [Event.MarkSkelAsMayaGenerated w._skel])
      ++ ([Event.GetBindingAPIForAuthoring w._skel,
        Event.SetAttribute (skelAttr w._skel jointsAttrName)
          (VtValue.tokens
            (getJointNames env (env.getJointHierarchyComponents w.dagPath).2.2))
          UsdTimeCode.Default,
        Event.MarkSkelBindings (skelPrimPath w._skel) env.exportSkels]
      ++ (_GetJointWorldBindTransforms env
          (env.topologyOfNames
            (getJointNames env (env.getJointHierarchyComponents w.dagPath).2.2))
          (env.getJointHierarchyComponents w.dagPath).2.2).2.map Event.diag
      ++ [Event.SetAttribute (skelAttr w._skel bindTransformsAttrName)
          (VtValue.matrices (_GetJointWorldBindTransforms env
            (env.topologyOfNames
              (getJointNames env (env.getJointHierarchyComponents w.dagPath).2.2))
            (env.getJointHierarchyComponents w.dagPath).2.2).1)
          UsdTimeCode.Default,
        Event.diag (Diag.tfWarn restTransformsWarning)]))
  rw [hr]
  refine ⟨⟨_, by rw [h3]; simp only [List.append_assoc]; rfl, ?_, ?_⟩, ?_, ?_, ?_⟩
  · simp
  · intro e he
    simp only [List.mem_append, List.mem_cons, List.mem_map, List.mem_singleton,
      List.not_mem_nil, or_false] at he
    rcases he with he | (rfl | rfl | rfl) | ⟨d, _, rfl⟩ | (rfl | rfl) | he
    · split at he
      · simp at he
      · rw [List.mem_singleton] at he; rw [he]; rfl
    · rfl
    · rfl
    · rfl
    · rfl
    · rfl
    · rfl
    · exact (h3a e he).2.2
  · exact (restStateAnim_writer _ _ _ _ _ _).2.2
  · intro skelAnim hne hdef
    apply restStateAnim_authors_joints
    · intro hnil
      apply hne
      simpa [getJointNames] using hnil
    · exact hdef
  · rw [restStateAnim_result]
    have hemp : (getJointNames env (env.getJointHierarchyComponents w.dagPath).2.2).isEmpty
        = (env.getJointHierarchyComponents w.dagPath).2.2.isEmpty := by
      unfold getJointNames
      cases (env.getJointHierarchyComponents w.dagPath).2.2 <;> rfl
    rw [hemp]

/-- Witness of C10: one joint, and a topology that holds no joint at all, so
that validation passes and the local-transform computation fails on the size
check. -/
theorem writeRestState_of_failed_restTransforms_witness :
    (PxrUsdTranslators_JointWriter._WriteRestState
        (sampleEnv sampleFreeJoint [⟨"|rig|a"⟩] ⟨[]⟩ exportSkelsAuto)
        (PxrUsdTranslators_JointWriter.initial ⟨"|rig|a"⟩ ⟨"/rig/a"⟩ false) []).2.1._animatedJoints
        = [⟨"|rig|a"⟩]
      ∧ (PxrUsdTranslators_JointWriter._WriteRestState
          (sampleEnv sampleFreeJoint [⟨"|rig|a"⟩] ⟨[]⟩ exportSkelsAuto)
          (PxrUsdTranslators_JointWriter.initial ⟨"|rig|a"⟩ ⟨"/rig/a"⟩ false) []).1 = true :=
  have h := writeRestState_of_failed_restTransforms
    (sampleEnv sampleFreeJoint [⟨"|rig|a"⟩] ⟨[]⟩ exportSkelsAuto)
    (PxrUsdTranslators_JointWriter.initial ⟨"|rig|a"⟩ ⟨"/rig/a"⟩ false) [] (by decide) (by decide)
  ⟨h.2.1, h.2.2.2⟩

/-! ### Animated joints: the unconditional loop -/

theorem getAnimatedJoints_loop (usdJointNames : List TfToken) (jointDagPaths : List MDagPath)
    (hlen : usdJointNames.length = jointDagPaths.length)
    (animatedJointNames : List TfToken) (animatedJointPaths : List MDagPath) (k : Nat)
    (hk : k ≤ jointDagPaths.length) :
    (List.range k).foldl
        (fun (acc : List TfToken × List MDagPath) i =>
          match usdJointNames[i]?, jointDagPaths[i]? with
          | some jointName, some dagPath => (acc.1 ++ [jointName], acc.2 ++ [dagPath])
          | _, _ => acc)
        (animatedJointNames, animatedJointPaths)
      = (animatedJointNames ++ usdJointNames.take k, animatedJointPaths ++ jointDagPaths.take k) := by
  induction k with
  | zero => simp
  | succ k ih =>
    have hk1 : k < jointDagPaths.length := by omega
    have hk2 : k < usdJointNames.length := by omega
    rw [List.range_succ, List.foldl_append, ih (by omega)]
    simp only [List.foldl_cons, List.foldl_nil, List.getElem?_eq_getElem hk1,
      List.getElem?_eq_getElem hk2, List.take_succ, Option.toList, List.append_assoc]

theorem getAnimatedJoints_of_restCount_match (usdJointNames : List TfToken)
    (jointDagPaths : List MDagPath) (restXforms : List GfMatrix4d)
    (animatedJointNames : List TfToken) (animatedJointPaths : List MDagPath)
    (hlen : usdJointNames.length = jointDagPaths.length)
    (hrest : restXforms.length = usdJointNames.length) :
    _GetAnimatedJoints usdJointNames jointDagPaths restXforms animatedJointNames
        animatedJointPaths
      = ((animatedJointNames ++ usdJointNames, animatedJointPaths ++ jointDagPaths), []) := by
  unfold _GetAnimatedJoints
  rw [if_neg (not_not.mpr hlen), if_neg (not_not.mpr hrest),
    getAnimatedJoints_loop usdJointNames jointDagPaths hlen animatedJointNames
      animatedJointPaths jointDagPaths.length (Nat.le_refl _)]
  rw [List.take_length, ← hlen, List.take_length]

/-- C14. With a joint-name list and a dag-path list of equal length n, a
rest-transform array of length n and empty output lists, `_GetAnimatedJoints`
includes every joint: the animated names and the animated paths are the full
input lists in the same order, whatever the poses are. -/
theorem animatedJoints_all_of_restCount_match (usdJointNames : List TfToken)
    (jointDagPaths : List MDagPath) (restXforms : List GfMatrix4d)
    (hlen : usdJointNames.length = jointDagPaths.length)
    (hrest : restXforms.length = usdJointNames.length) :
    (_GetAnimatedJoints usdJointNames jointDagPaths restXforms [] []).1
      = (usdJointNames, jointDagPaths) := by
  rw [getAnimatedJoints_of_restCount_match usdJointNames jointDagPaths restXforms [] [] hlen
    hrest]
  rfl

/-- Witness of C14: two joints with two rest transforms. -/
theorem animatedJoints_all_of_restCount_match_witness :
    (_GetAnimatedJoints [⟨"a"⟩, ⟨"a/b"⟩] [⟨"|a"⟩, ⟨"|a|b"⟩] [1, 1] [] []).1
      = ([⟨"a"⟩, ⟨"a/b"⟩], [⟨"|a"⟩, ⟨"|a|b"⟩]) :=
  animatedJoints_all_of_restCount_match [⟨"a"⟩, ⟨"a/b"⟩] [⟨"|a"⟩, ⟨"|a|b"⟩] [1, 1] rfl rfl

/-! ### `OpUndoItemRecorder` -/

theorem foldl_addItem (recorded : List OpUndoItem) :
    ∀ l : OpUndoItemList, recorded.foldl OpUndoItemList.addItem l = ⟨l.items ++ recorded⟩ := by
  induction recorded with
  | nil => intro l; simp
  | cons item rest ih =>
    intro l
    rw [List.foldl_cons, ih]
    simp [OpUndoItemList.addItem]

/-- C13. An `OpUndoItemRecorder` redirects the global undo-item list into the
caller's list for its scope: whatever the caller's list and the global list
held, both are empty right after construction, and after destruction the
caller's list holds exactly the items recorded into the global list while the
recorder was alive, in recording order, and the global list is empty. -/
theorem opUndoItemRecorder_scope (callerList globalList movedFrom : OpUndoItemList)
    (recorded : List OpUndoItem) :
    (OpUndoItemRecorder.construct ⟨callerList, globalList⟩).undoInfo.items = []
      ∧ (OpUndoItemRecorder.construct ⟨callerList, globalList⟩).globalList.items = []
      ∧ (OpUndoItemRecorder.destruct movedFrom
          ((OpUndoItemRecorder.construct ⟨callerList, globalList⟩).record recorded)).undoInfo.items
          = recorded
      ∧ (OpUndoItemRecorder.destruct movedFrom
          ((OpUndoItemRecorder.construct ⟨callerList, globalList⟩).record recorded)).globalList.items
          = [] := by
  refine ⟨rfl, rfl, ?_, rfl⟩
  unfold OpUndoItemRecorder.destruct UndoLists.record OpUndoItemRecorder.construct
  simp only [foldl_addItem, OpUndoItemList.clear, List.nil_append]

/-! ### `UsdTransform3dPointInstanceHandler` -/

/-- C15. `UsdTransform3dPointInstanceHandler` tries the specialised handler
and falls through to the general one. For every scene item, `transform3d` and
`editTransform3d` return null without consulting the next handler when the
item is not a USD scene item, return exactly the next handler's result (one
call on it, with the same arguments) when the item is a USD item that is not a
point instance, and return a new `UsdTransform3dPointInstance` on the item
without consulting the next handler when it is a point instance. -/
theorem pointInstanceHandler_fallThrough (nextHandler : Transform3dHandler)
    (item : SceneItemPtr) (hint : EditTransform3dHint) :
    (downcast item = none →
        UsdTransform3dPointInstanceHandler.transform3d nextHandler item
            = (Transform3dPtr.null, [])
          ∧ UsdTransform3dPointInstanceHandler.editTransform3d nextHandler item hint
            = (Transform3dPtr.null, []))
      ∧ (∀ usdItem : UsdSceneItem, downcast item = some usdItem →
          usdItem.isPointInstance = false →
          UsdTransform3dPointInstanceHandler.transform3d nextHandler item
              = (nextHandler.transform3d item, [NextHandlerCall.transform3d item])
            ∧ UsdTransform3dPointInstanceHandler.editTransform3d nextHandler item hint
              = (nextHandler.editTransform3d item hint,
                  [NextHandlerCall.editTransform3d item hint]))
      ∧ (∀ usdItem : UsdSceneItem, downcast item = some usdItem →
          usdItem.isPointInstance = true →
          UsdTransform3dPointInstanceHandler.transform3d nextHandler item
              = (Transform3dPtr.pointInstance usdItem, [])
            ∧ UsdTransform3dPointInstanceHandler.editTransform3d nextHandler item hint
              = (Transform3dPtr.pointInstance usdItem, [])) := by
  unfold UsdTransform3dPointInstanceHandler.transform3d
    UsdTransform3dPointInstanceHandler.editTransform3d UsdTransform3dPointInstance.create
  refine ⟨?_, ?_, ?_⟩
  · intro h
    simp only [h, and_self]
  · intro usdItem h hp
    simp only [h, hp, Bool.not_false, if_true, and_self]
  · intro usdItem h hp
    simp only [h, hp, Bool.not_true, Bool.false_eq_true, if_false, and_self]

/-- Witness of C15: a USD item that is not a point instance goes to the next
handler, a point instance does not. -/
theorem pointInstanceHandler_fallThrough_witness :
    UsdTransform3dPointInstanceHandler.transform3d sampleNextHandler
        (SceneItemPtr.usd ⟨"/a/b", false⟩)
        = (Transform3dPtr.other "next",
            [NextHandlerCall.transform3d (SceneItemPtr.usd ⟨"/a/b", false⟩)])
      ∧ UsdTransform3dPointInstanceHandler.transform3d sampleNextHandler
          (SceneItemPtr.usd ⟨"/a/instancer/3", true⟩)
        = (Transform3dPtr.pointInstance ⟨"/a/instancer/3", true⟩, []) :=
  ⟨((pointInstanceHandler_fallThrough sampleNextHandler (SceneItemPtr.usd ⟨"/a/b", false⟩)
      ⟨0⟩).2.1 ⟨"/a/b", false⟩ rfl rfl).1,
    ((pointInstanceHandler_fallThrough sampleNextHandler
      (SceneItemPtr.usd ⟨"/a/instancer/3", true⟩) ⟨0⟩).2.2 ⟨"/a/instancer/3", true⟩ rfl rfl).1⟩

/-! ### The writer: one sample per animated joint -/

theorem decomposeTransforms_some (env : Env) (xs : List GfMatrix4d) :
    ∀ (ts : List GfVec3f) (rs : List GfQuatf) (ss : List GfVec3h),
      UsdSkelDecomposeTransforms env xs = some (ts, rs, ss) →
      ts.length = xs.length ∧ rs.length = xs.length ∧ ss.length = xs.length
        ∧ ∀ i, i < xs.length →
            ∃ t r s, ts[i]? = some t ∧ rs[i]? = some r ∧ ss[i]? = some s
              ∧ env.decomposeTransform (xs.getD i 0) = some (t, r, s) := by
  induction xs with
  | nil =>
    intro ts rs ss h
    simp only [UsdSkelDecomposeTransforms, Option.some.injEq, Prod.mk.injEq] at h
    obtain ⟨rfl, rfl, rfl⟩ := h
    exact ⟨rfl, rfl, rfl, fun i hi => absurd hi (Nat.not_lt_zero i)⟩
  | cons x rest ih =>
    intro ts rs ss h
    unfold UsdSkelDecomposeTransforms at h
    cases hx : env.decomposeTransform x with
    | none => simp [hx] at h
    | some trs =>
      obtain ⟨t, r, s⟩ := trs
      cases hr : UsdSkelDecomposeTransforms env rest with
      | none => simp [hx, hr] at h
      | some rest3 =>
        obtain ⟨ts0, rs0, ss0⟩ := rest3
        simp only [hx, hr, Option.some.injEq, Prod.mk.injEq] at h
        obtain ⟨rfl, rfl, rfl⟩ := h
        obtain ⟨h1, h2, h3, h4⟩ := ih ts0 rs0 ss0 hr
        refine ⟨by simp [h1], by simp [h2], by simp [h3], ?_⟩
        intro i hi
        cases i with
        | zero => exact ⟨t, r, s, by simp, by simp, by simp, by simpa using hx⟩
        | succ i =>
          obtain ⟨t1, r1, s1, a1, a2, a3, a4⟩ := h4 i (by simpa using hi)
          exact ⟨t1, r1, s1, by simpa using a1, by simpa using a2, by simpa using a3,
            by simpa using a4⟩

theorem remap_getD (mapper : UsdSkelAnimMapper) (source : List GfMatrix4d) (i : Nat)
    (hi : i < mapper.targetOrder.length) :
    (mapper.Remap source).2.getD i 0
      = source.getD (mapper.sourceOrder.indexOf mapper.targetOrder[i]) 0 := by
  unfold UsdSkelAnimMapper.Remap
  rw [List.getD_eq_getElem?_getD, List.getElem?_map, List.getElem?_eq_getElem hi]
  rfl

theorem indexOf_getElem_of_nodup (names : List TfToken) (hnd : names.Nodup) (i : Nat)
    (hi : i < names.length) : names.indexOf names[i] = i := by
  induction names generalizing i with
  | nil => exact absurd hi (Nat.not_lt_zero i)
  | cons a l ih =>
    cases i with
    | zero => simp
    | succ i =>
      have hi2 : i < l.length := by simpa using hi
      have hne : l[i] ≠ a := by
        intro h
        have hmem : a ∈ l := h ▸ List.getElem_mem hi2
        exact (List.nodup_cons.mp hnd).1 hmem
      simp only [List.getElem_cons_succ]
      rw [List.indexOf_cons_ne _ (Ne.symm hne), ih (List.nodup_cons.mp hnd).2 i hi2]

theorem writeAnimation_of_success (env : Env) (usdTime : UsdTimeCode)
    (w : PxrUsdTranslators_JointWriter) (skelAnim : UsdSkelAnimation)
    (ts : List GfVec3f) (rs : List GfQuatf) (ss : List GfVec3h)
    (hanim : w._animatedJoints ≠ [])
    (hskel : w._skelAnim = some skelAnim)
    (hlocal : (PxrUsdTranslators_JointWriter.sampleLocalXforms env w).1 = true)
    (hremap : (PxrUsdTranslators_JointWriter.sampleAnimLocalXforms env w).1 = true)
    (hdec : UsdSkelDecomposeTransforms env
      (PxrUsdTranslators_JointWriter.sampleAnimLocalXforms env w).2 = some (ts, rs, ss)) :
    PxrUsdTranslators_JointWriter.writeAnimation env usdTime w
      = animSampleEvents skelAnim usdTime ts rs ss := by
  have hempty : w._animatedJoints.isEmpty = false := by
    cases hl : w._animatedJoints with
    | nil => exact absurd hl hanim
    | cons a l => rfl
  unfold PxrUsdTranslators_JointWriter.sampleAnimLocalXforms at hremap hdec
  unfold PxrUsdTranslators_JointWriter.sampleLocalXforms at hlocal hremap hdec
  unfold PxrUsdTranslators_JointWriter.writeAnimation
  simp only [hempty, Bool.not_false, if_true, hskel, hlocal, hremap, hdec]
  rfl

theorem write_log_of_valid (env : Env) (usdTime : UsdTimeCode)
    (w : PxrUsdTranslators_JointWriter) (log : List Event)
    (hvalid : (PxrUsdTranslators_JointWriter.writeRestPass env usdTime w log).1._valid = true) :
    ∃ pre : List Event,
      (PxrUsdTranslators_JointWriter.Write env usdTime w log).2
          = log ++ pre ++ PxrUsdTranslators_JointWriter.writeAnimation env usdTime
              (PxrUsdTranslators_JointWriter.writeRestPass env usdTime w log).1
        ∧ ∀ e ∈ pre, e.isAnimSample = false := by
  obtain ⟨n1, h1, h1a⟩ := writeRestPass_log env usdTime w log
  unfold PxrUsdTranslators_JointWriter.Write PxrUsdTranslators_JointWriter.writeSample
  simp only [hvalid, Bool.not_true, Bool.false_eq_true, if_false, h1]
  split
  · refine ⟨n1 ++ [Event.SetAttribute
        (PxrUsdTranslators_JointWriter.writeRestPass env usdTime w log).1._skelXformAttr
        (VtValue.matrix (_GetJointLocalTransform env
          (PxrUsdTranslators_JointWriter.writeRestPass env usdTime w log).1._skelXformPath))
        usdTime], by simp only [List.append_assoc], ?_⟩
    intro e he
    rw [List.mem_append, List.mem_singleton] at he
    rcases he with he | rfl
    · exact h1a e he
    · rfl
  · exact ⟨n1, rfl, h1a⟩

/-- C11. Take the writer as it stands when `Write` reaches its validity check
(after the default-time pass, when the time code is the default one): valid,
with animated joints and a SkelAnimation. If the local-transform computation,
the remapping and the decomposition all succeed, the last three events of
`Write` are the translations, rotations and scales writes at that time code;
each array has one entry per animated joint of the mapper (the joint names the
default-time pass authored on the SkelAnimation), and entry i of each array is
the decomposition of the local transform of the skeleton joint that the i-th
animated joint names. When the mapper maps a list of distinct names onto
itself and the animated-joint path list has that length, as a default-time
pass leaves it, each array has one entry per animated joint path and entry i
is the decomposition of the local transform of the i-th joint. -/
theorem write_samples_per_animated_joint (env : Env) (usdTime : UsdTimeCode)
    (w : PxrUsdTranslators_JointWriter) (log : List Event) (skelAnim : UsdSkelAnimation)
    (ts : List GfVec3f) (rs : List GfQuatf) (ss : List GfVec3h)
    (hvalid : (PxrUsdTranslators_JointWriter.writeRestPass env usdTime w log).1._valid = true)
    (hanim : (PxrUsdTranslators_JointWriter.writeRestPass env usdTime w log).1._animatedJoints
      ≠ [])
    (hskel : (PxrUsdTranslators_JointWriter.writeRestPass env usdTime w log).1._skelAnim
      = some skelAnim)
    (hlocal : (PxrUsdTranslators_JointWriter.sampleLocalXforms env
      (PxrUsdTranslators_JointWriter.writeRestPass env usdTime w log).1).1 = true)
    (hremap : (PxrUsdTranslators_JointWriter.sampleAnimLocalXforms env
      (PxrUsdTranslators_JointWriter.writeRestPass env usdTime w log).1).1 = true)
    (hdec : UsdSkelDecomposeTransforms env
      (PxrUsdTranslators_JointWriter.sampleAnimLocalXforms env
        (PxrUsdTranslators_JointWriter.writeRestPass env usdTime w log).1).2
        = some (ts, rs, ss)) :
    (∃ pre : List Event,
        (PxrUsdTranslators_JointWriter.Write env usdTime w log).2
            = log ++ pre ++ animSampleEvents skelAnim usdTime ts rs ss
          ∧ ∀ e ∈ pre, e.isAnimSample = false)
      ∧ ts.length = (PxrUsdTranslators_JointWriter.writeRestPass env usdTime w
          log).1._skelToAnimMapper.targetOrder.length
      ∧ rs.length = (PxrUsdTranslators_JointWriter.writeRestPass env usdTime w
          log).1._skelToAnimMapper.targetOrder.length
      ∧ ss.length = (PxrUsdTranslators_JointWriter.writeRestPass env usdTime w
          log).1._skelToAnimMapper.targetOrder.length
      ∧ (∀ (i : Nat) (hi : i < (PxrUsdTranslators_JointWriter.writeRestPass env usdTime w
            log).1._skelToAnimMapper.targetOrder.length),
          ∃ t r s, ts[i]? = some t ∧ rs[i]? = some r ∧ ss[i]? = some s
            ∧ env.decomposeTransform
                ((PxrUsdTranslators_JointWriter.sampleLocalXforms env
                    (PxrUsdTranslators_JointWriter.writeRestPass env usdTime w log).1).2.getD
                  ((PxrUsdTranslators_JointWriter.writeRestPass env usdTime w
                      log).1._skelToAnimMapper.sourceOrder.indexOf
                    ((PxrUsdTranslators_JointWriter.writeRestPass env usdTime w
                      log).1._skelToAnimMapper.targetOrder[i])) 0)
              = some (t, r, s))
      ∧ ((PxrUsdTranslators_JointWriter.writeRestPass env usdTime w
            log).1._skelToAnimMapper.sourceOrder
          = (PxrUsdTranslators_JointWriter.writeRestPass env usdTime w
            log).1._skelToAnimMapper.targetOrder →
        (PxrUsdTranslators_JointWriter.writeRestPass env usdTime w
            log).1._skelToAnimMapper.targetOrder.Nodup →
        (PxrUsdTranslators_JointWriter.writeRestPass env usdTime w
            log).1._skelToAnimMapper.targetOrder.length
          = (PxrUsdTranslators_JointWriter.writeRestPass env usdTime w
            log).1._animatedJoints.length →
        ts.length = (PxrUsdTranslators_JointWriter.writeRestPass env usdTime w
            log).1._animatedJoints.length
          ∧ rs.length = (PxrUsdTranslators_JointWriter.writeRestPass env usdTime w
            log).1._animatedJoints.length
          ∧ ss.length = (PxrUsdTranslators_JointWriter.writeRestPass env usdTime w
            log).1._animatedJoints.length
          ∧ ∀ i, i < (PxrUsdTranslators_JointWriter.writeRestPass env usdTime w
              log).1._animatedJoints.length →
            ∃ t r s, ts[i]? = some t ∧ rs[i]? = some r ∧ ss[i]? = some s
              ∧ env.decomposeTransform
                  ((PxrUsdTranslators_JointWriter.sampleLocalXforms env
                    (PxrUsdTranslators_JointWriter.writeRestPass env usdTime w
                      log).1).2.getD i 0)
                = some (t, r, s)) := by
  generalize hw1 : (PxrUsdTranslators_JointWriter.writeRestPass env usdTime w log).1 = w1
    at hanim hskel hlocal hremap hdec ⊢
  obtain ⟨pre, hpre, hprea⟩ := write_log_of_valid env usdTime w log hvalid
  rw [hw1, writeAnimation_of_success env usdTime w1 skelAnim ts rs ss hanim hskel hlocal hremap
    hdec] at hpre
  obtain ⟨d1, d2, d3, d4⟩ := decomposeTransforms_some env _ ts rs ss hdec
  have hlen : (PxrUsdTranslators_JointWriter.sampleAnimLocalXforms env w1).2.length
      = w1._skelToAnimMapper.targetOrder.length := by
    simp [PxrUsdTranslators_JointWriter.sampleAnimLocalXforms, UsdSkelAnimMapper.Remap]
  have hentry : ∀ (i : Nat) (hi : i < w1._skelToAnimMapper.targetOrder.length),
      ∃ t r s, ts[i]? = some t ∧ rs[i]? = some r ∧ ss[i]? = some s
        ∧ env.decomposeTransform
            ((PxrUsdTranslators_JointWriter.sampleLocalXforms env w1).2.getD
              (w1._skelToAnimMapper.sourceOrder.indexOf (w1._skelToAnimMapper.targetOrder[i])) 0)
          = some (t, r, s) := by
    intro i hi
    obtain ⟨t, r, s, a1, a2, a3, a4⟩ := d4 i (by rw [hlen]; exact hi)
    refine ⟨t, r, s, a1, a2, a3, ?_⟩
    rw [← a4]
    unfold PxrUsdTranslators_JointWriter.sampleAnimLocalXforms
    rw [remap_getD _ _ i hi]
  refine ⟨⟨pre, hpre, hprea⟩, by rw [d1, hlen], by rw [d2, hlen], by rw [d3, hlen], hentry, ?_⟩
  intro hsame hnd hcount
  refine ⟨by rw [d1, hlen, hcount], by rw [d2, hlen, hcount], by rw [d3, hlen, hcount], ?_⟩
  intro i hi
  have hi2 : i < w1._skelToAnimMapper.targetOrder.length := by rw [hcount]; exact hi
  obtain ⟨t, r, s, a1, a2, a3, a4⟩ := hentry i hi2
  refine ⟨t, r, s, a1, a2, a3, ?_⟩
  rw [hsame, indexOf_getElem_of_nodup _ hnd i hi2] at a4
  exact a4

/-- Witness of C11: frame 1 of a one-joint skeleton, after its default-time
pass; each array has one entry. -/
theorem write_samples_per_animated_joint_witness :
    (sampleAnimLocalXformsAtFrame1.map
        (fun (xf : GfMatrix4d) => (⟨xf 3 0, xf 3 1, xf 3 2⟩ : GfVec3f))).length
      = (PxrUsdTranslators_JointWriter.writeRestPass
          (sampleEnv sampleFreeJoint [⟨"|rig|a"⟩] ⟨[-1]⟩ exportSkelsAuto) (UsdTimeCode.Numeric 1)
          sampleExportedWriter.1 sampleExportedWriter.2).1._animatedJoints.length :=
  ((write_samples_per_animated_joint
      (sampleEnv sampleFreeJoint [⟨"|rig|a"⟩] ⟨[-1]⟩ exportSkelsAuto) (UsdTimeCode.Numeric 1)
      sampleExportedWriter.1 sampleExportedWriter.2 ⟨⟨"/rig/a/Animation"⟩⟩
      (sampleAnimLocalXformsAtFrame1.map (fun (xf : GfMatrix4d) => (⟨xf 3 0, xf 3 1, xf 3 2⟩ : GfVec3f)))
      (sampleAnimLocalXformsAtFrame1.map (fun (_ : GfMatrix4d) => (⟨1, 0, 0, 0⟩ : GfQuatf)))
      (sampleAnimLocalXformsAtFrame1.map (fun (_ : GfMatrix4d) => (⟨1, 1, 1⟩ : GfVec3h)))
      (by decide) (by decide) (by decide) (by decide) (by rfl) (by rfl)).2.2.2.2.2
    (by decide) (by decide) (by decide)).1

/-! ### The writer: repeated default-time passes -/

/-- C16, the code at the failing input. A freshly constructed writer gets two
`Write` calls at the default time code, the first in a scene with one joint
where `UsdSkelAnimation::Define` fails, the second in a scene whose hierarchy
has no joints. After them the writer is valid, its animated-joint list still
holds the joint of the first pass, its SkelAnimation is absent, and the second
call has reported the coding error of the missing SkelAnimation. -/
theorem write_reaches_missing_skelAnim_error :
    sampleStaleWriter.1._valid = true
      ∧ sampleStaleWriter.1._animatedJoints = [⟨"|rig|a"⟩]
      ∧ sampleStaleWriter.1._joints = []
      ∧ sampleStaleWriter.1._skelAnim = none
      ∧ (sampleStaleWriter.2.filter Event.isCodingError).length = 1 := by
  refine ⟨by decide, by decide, by decide, by decide, by decide⟩

/-- C17, the code at the failing input. The first default-time `Write` on a
freshly constructed writer of a one-joint skeleton leaves one animated-joint
path and authors one joint name on the SkelAnimation. A second default-time
`Write` in the same scene succeeds and again authors one joint name on the
SkelAnimation for a skeleton of one joint, but leaves two animated-joint
paths. -/
theorem write_default_twice_animatedJoints :
    sampleExportedWriter.1._valid = true
      ∧ sampleExportedWriter.1._animatedJoints.length = 1
      ∧ animJointNamesAuthored ⟨⟨"/rig/a/Animation"⟩⟩ sampleExportedWriter.2 = [[⟨"|rig|a"⟩]]
      ∧ sampleTwiceExportedWriter.1._valid = true
      ∧ sampleTwiceExportedWriter.1._joints.length = 1
      ∧ animJointNamesAuthored ⟨⟨"/rig/a/Animation"⟩⟩ sampleTwiceExportedWriter.2
          = [[⟨"|rig|a"⟩]]
      ∧ sampleTwiceExportedWriter.1._animatedJoints = [⟨"|rig|a"⟩, ⟨"|rig|a"⟩] := by
  refine ⟨by decide, by decide, by decide, by decide, by decide, by decide, by decide⟩

/-! ### A chain of three translated joints -/

theorem mul_getInverse_self (m : GfMatrix4d) (h : m.det ≠ 0) : m * GetInverse m = 1 := by
  unfold GetInverse
  rw [Matrix.mul_smul, Matrix.mul_adjugate, smul_smul, inv_mul_cancel₀ h, one_smul]

theorem det_translationMatrix (v : GfVec3f) : (translationMatrix v).det = 1 := by
  unfold translationMatrix
  rw [Matrix.det_succ_row_zero]
  simp [Fin.sum_univ_succ, Matrix.det_fin_three, Matrix.submatrix, Fin.succAbove]

theorem det_translation_mul (v : GfVec3f) (m : GfMatrix4d) (h : m.det ≠ 0) :
    (translationMatrix v * m).det ≠ 0 := by
  rw [Matrix.det_mul, det_translationMatrix, one_mul]
  exact h

theorem translation_mul_cancel (v : GfVec3f) (m : GfMatrix4d) (h : m.det ≠ 0) :
    (translationMatrix v * m) * GetInverse m = translationMatrix v := by
  rw [Matrix.mul_assoc, mul_getInverse_self m h, Matrix.mul_one]

theorem chain_parentsFirst : (⟨[-1, 0, 1]⟩ : UsdSkelTopology).parentsFirst :=
  (validate_iff_parentsFirst _).mp (by decide)

theorem chain_localXforms (env : Env) (hierarchyRoot root mid tip : MDagPath)
    (rootXf : GfMatrix4d) (a b c : GfVec3f)
    (hpose : ChainPose env hierarchyRoot root mid tip rootXf a b c)
    (localXforms : List GfMatrix4d) :
    _GetJointLocalTransforms env ⟨[-1, 0, 1]⟩ [root, mid, tip]
        (_GetJointWorldTransform env hierarchyRoot) localXforms
      = (true, [translationMatrix a, translationMatrix b, translationMatrix c]) := by
  have hr : _GetJointWorldTransform env root = translationMatrix a * rootXf := by
    unfold _GetJointWorldTransform; rw [hpose.rootWorld]
  have hm : _GetJointWorldTransform env mid
      = translationMatrix b * (translationMatrix a * rootXf) := by
    unfold _GetJointWorldTransform; rw [hpose.midWorld]
  have ht : _GetJointWorldTransform env tip
      = translationMatrix c * (translationMatrix b * (translationMatrix a * rootXf)) := by
    unfold _GetJointWorldTransform; rw [hpose.tipWorld]
  have h1 := det_translation_mul a rootXf hpose.hierarchyRootInvertible
  have h2 := det_translation_mul b _ h1
  have hc := computeJointLocalTransforms_ok ⟨[-1, 0, 1]⟩
    [translationMatrix a * rootXf, translationMatrix b * (translationMatrix a * rootXf),
      translationMatrix c * (translationMatrix b * (translationMatrix a * rootXf))]
    ([translationMatrix a * rootXf, translationMatrix b * (translationMatrix a * rootXf),
      translationMatrix c * (translationMatrix b * (translationMatrix a * rootXf))].map
        GetInverse)
    (GetInverse rootXf) chain_parentsFirst rfl rfl
  simp only [List.map_cons, List.map_nil] at hc
  unfold _GetJointLocalTransforms _GetJointWorldTransforms
  simp only [if_true, List.map_cons, List.map_nil, hr, hm, ht, hpose.hierarchyRootWorld]
  rw [hc]
  have e0 : (⟨[-1, 0, 1]⟩ : UsdSkelTopology).GetParent 0 = -1 := rfl
  have e1 : (⟨[-1, 0, 1]⟩ : UsdSkelTopology).GetParent 1 = 0 := rfl
  have e2 : (⟨[-1, 0, 1]⟩ : UsdSkelTopology).GetParent 2 = 1 := rfl
  have hrange : List.range (⟨[-1, 0, 1]⟩ : UsdSkelTopology).size = [0, 1, 2] := rfl
  rw [hrange]
  simp only [List.map_cons, List.map_nil, e0, e1, e2]
  simp only [List.getD_cons_zero, List.getD_cons_succ, Int.toNat_zero, Int.toNat_one,
    Int.reduceNeg, Int.reduceLE, if_true, if_false, le_refl, zero_le_one]
  rw [translation_mul_cancel a rootXf hpose.hierarchyRootInvertible,
    translation_mul_cancel b _ h1, translation_mul_cancel c _ h2]

theorem remap_self (names : List TfToken) (hnd : names.Nodup) (source : List GfMatrix4d)
    (hlen : source.length = names.length) :
    (⟨names, names⟩ : UsdSkelAnimMapper).Remap source = (true, source) := by
  unfold UsdSkelAnimMapper.Remap
  congr 1
  apply List.ext_getElem
  · rw [List.length_map, hlen]
  · intro i h1 h2
    rw [List.length_map] at h1
    rw [List.getElem_map, indexOf_getElem_of_nodup names hnd i h1,
      List.getD_eq_getElem?_getD, List.getElem?_eq_getElem h2]
    rfl

theorem decomposeTransforms_chain (env : Env) (a b c : GfVec3f)
    (hdec : ∀ v : GfVec3f,
      env.decomposeTransform (translationMatrix v) = some (v, identityQuat, unitScale)) :
    UsdSkelDecomposeTransforms env
        [translationMatrix a, translationMatrix b, translationMatrix c]
      = some ([a, b, c], [identityQuat, identityQuat, identityQuat],
          [unitScale, unitScale, unitScale]) := by
  simp only [UsdSkelDecomposeTransforms, hdec]

theorem getAnimatedJoints_fresh (usdJointNames : List TfToken) (jointDagPaths : List MDagPath)
    (restXforms : List GfMatrix4d) (hlen : usdJointNames.length = jointDagPaths.length) :
    _GetAnimatedJoints usdJointNames jointDagPaths restXforms [] []
      = ((usdJointNames, jointDagPaths), []) := by
  by_cases hrest : restXforms.length = usdJointNames.length
  · rw [getAnimatedJoints_of_restCount_match usdJointNames jointDagPaths restXforms [] [] hlen
      hrest]
    rfl
  · exact getAnimatedJoints_of_restCount_mismatch usdJointNames jointDagPaths restXforms [] []
      hlen hrest

theorem getJointNames_length (env : Env) (joints : List MDagPath) :
    (getJointNames env joints).length = joints.length := by
  unfold getJointNames
  rw [List.length_map]

theorem writeRestState_first_pass (env : Env) (w : PxrUsdTranslators_JointWriter)
    (log : List Event) (skelAnim : UsdSkelAnimation)
    (hu : env.IsUsdSkeleton w.dagPath = false)
    (hok : (env.topologyOfNames
      (getJointNames env (env.getJointHierarchyComponents w.dagPath).2.2)).Validate.1 = true)
    (hrest : (_GetJointLocalTransforms env
      (env.topologyOfNames (getJointNames env (env.getJointHierarchyComponents w.dagPath).2.2))
      (env.getJointHierarchyComponents w.dagPath).2.2
      (_GetJointWorldTransform env (env.getJointHierarchyComponents w.dagPath).2.1) []).1 = true)
    (hfresh : w._animatedJoints = [])
    (hne : (env.getJointHierarchyComponents w.dagPath).2.2 ≠ [])
    (hdef : env.defineSkelAnimation (env.getAnimationPath (skelPrimPath w._skel))
      = some skelAnim) :
    PxrUsdTranslators_JointWriter._WriteRestState env w log
      = (true,
          { w with
            _skelXformPath := (env.getJointHierarchyComponents w.dagPath).1
            _jointHierarchyRootPath := (env.getJointHierarchyComponents w.dagPath).2.1
            _joints := (env.getJointHierarchyComponents w.dagPath).2.2
            _topology := env.topologyOfNames
              (getJointNames env (env.getJointHierarchyComponents w.dagPath).2.2)
            _animatedJoints := (env.getJointHierarchyComponents w.dagPath).2.2
            _skelAnim := some skelAnim
            _skelToAnimMapper :=
              ⟨getJointNames env (env.getJointHierarchyComponents w.dagPath).2.2,
                getJointNames env (env.getJointHierarchyComponents w.dagPath).2.2⟩ },
          log ++ ([Event.MarkSkelAsMayaGenerated w._skel,
              Event.GetBindingAPIForAuthoring w._skel,
              Event.SetAttribute (skelAttr w._skel jointsAttrName)
                (VtValue.tokens
                  (getJointNames env (env.getJointHierarchyComponents w.dagPath).2.2))
                UsdTimeCode.Default,
              Event.MarkSkelBindings (skelPrimPath w._skel) env.exportSkels]
            ++ (_GetJointWorldBindTransforms env
                (env.topologyOfNames
                  (getJointNames env (env.getJointHierarchyComponents w.dagPath).2.2))
                (env.getJointHierarchyComponents w.dagPath).2.2).2.map Event.diag
            ++ [Event.SetAttribute (skelAttr w._skel bindTransformsAttrName)
                (VtValue.matrices (_GetJointWorldBindTransforms env
                  (env.topologyOfNames
                    (getJointNames env (env.getJointHierarchyComponents w.dagPath).2.2))
                  (env.getJointHierarchyComponents w.dagPath).2.2).1)
                UsdTimeCode.Default,
              Event.SetAttribute (skelAttr w._skel restTransformsAttrName)
                (VtValue.matrices (_GetJointLocalTransforms env
                  (env.topologyOfNames
                    (getJointNames env (env.getJointHierarchyComponents w.dagPath).2.2))
                  (env.getJointHierarchyComponents w.dagPath).2.2
                  (_GetJointWorldTransform env (env.getJointHierarchyComponents w.dagPath).2.1)
                  []).2)
                UsdTimeCode.Default,
              Event.DefineSkelAnimation (env.getAnimationPath (skelPrimPath w._skel)),
              Event.SetAttribute (animAttr skelAnim jointsAttrName)
                (VtValue.tokens
                  (getJointNames env (env.getJointHierarchyComponents w.dagPath).2.2))
                UsdTimeCode.Default,
              Event.SetAnimationSource (env.getAnimationPath (skelPrimPath w._skel))])) := by
  have hv := restStateTopology_valid env w log
  have hl := restStateTopology_log env w log
  have hw := restStateTopology_writer env w log
  have hn := restStateTopology_names env w log
  have hh : (PxrUsdTranslators_JointWriter.restStateTopology env w log).2.1 = false := by
    unfold PxrUsdTranslators_JointWriter.restStateTopology
    simp only [hu]
    split <;> rfl
  rw [hok] at hv
  rw [hok] at hl
  simp only [hu, Bool.false_eq_true, if_false, if_true, List.append_nil] at hl
  have hanim := getAnimatedJoints_fresh
    (getJointNames env (env.getJointHierarchyComponents w.dagPath).2.2)
    (env.getJointHierarchyComponents w.dagPath).2.2
    (_GetJointLocalTransforms env
      (env.topologyOfNames (getJointNames env (env.getJointHierarchyComponents w.dagPath).2.2))
      (env.getJointHierarchyComponents w.dagPath).2.2
      (_GetJointWorldTransform env (env.getJointHierarchyComponents w.dagPath).2.1) []).2
    (getJointNames_length env _)
  have hnames : (getJointNames env (env.getJointHierarchyComponents w.dagPath).2.2).isEmpty
      = false := by
    unfold getJointNames
    cases hj : (env.getJointHierarchyComponents w.dagPath).2.2 with
    | nil => exact absurd hj hne
    | cons a l => rfl
  unfold PxrUsdTranslators_JointWriter._WriteRestState
  simp only [hv, Bool.not_true, Bool.false_eq_true, if_false]
  rw [hn, hw, hl, hh]
  unfold PxrUsdTranslators_JointWriter.restStateAttrs
  simp only [hrest, if_true, hfresh, hanim, List.map_nil, List.append_nil]
  unfold PxrUsdTranslators_JointWriter.restStateAnim
  simp only [Bool.false_eq_true, if_false, hnames, Bool.not_false, if_true, hdef,
    List.append_assoc, List.cons_append, List.nil_append]

theorem getJointWorldBindTransforms_map (env : Env) (topology : UsdSkelTopology)
    (jointDagPaths : List MDagPath) :
    (_GetJointWorldBindTransforms env topology jointDagPaths).1
      = jointDagPaths.map (fun p => bindTransformByPriority (env.node p)) := by
  unfold _GetJointWorldBindTransforms
  rw [getJointWorldBindTransforms_fold env jointDagPaths ([], [])]
  simp [getJointWorldBindTransform_eq]

theorem bindTransformByPriority_of_noBindData (dagNode : JointNode)
    (h : firstSkinClusterBindPreMatrix dagNode = none
      ∧ firstDagPoseWorldMatrix dagNode = none ∧ dagNode.bindPose = none) :
    bindTransformByPriority dagNode = 1 := by
  unfold bindTransformByPriority
  rw [h.1, h.2.1, h.2.2]

theorem construct_fresh (env : Env) (dagPath : MDagPath) (usdPath : SdfPath)
    (skelXformIsAnimated : Bool) :
    (PxrUsdTranslators_JointWriter.construct env dagPath usdPath
        skelXformIsAnimated).1._animatedJoints = []
      ∧ (PxrUsdTranslators_JointWriter.construct env dagPath usdPath
          skelXformIsAnimated).1._skelXformAttr.isValid = false
      ∧ (PxrUsdTranslators_JointWriter.construct env dagPath usdPath
          skelXformIsAnimated).1._skelAnim = none := by
  unfold PxrUsdTranslators_JointWriter.construct
  simp only
  split
  · exact ⟨rfl, rfl, rfl⟩
  · split
    · exact ⟨rfl, rfl, rfl⟩
    · split <;> exact ⟨rfl, rfl, rfl⟩

theorem construct_skel_of_not_earlyReturn (env : Env) (dagPath : MDagPath) (usdPath : SdfPath)
    (skelXformIsAnimated : Bool)
    (h : PxrUsdTranslators_JointWriter.constructorReturnedEarly env dagPath usdPath = false) :
    (PxrUsdTranslators_JointWriter.construct env dagPath usdPath
        skelXformIsAnimated).1._skel.isSome = true := by
  unfold PxrUsdTranslators_JointWriter.constructorReturnedEarly at h
  simp only [Bool.or_eq_false_iff, Bool.not_eq_false', Bool.and_eq_false_iff,
    decide_eq_false_iff_not, not_not] at h
  obtain ⟨⟨hd, he⟩, hs⟩ := h
  unfold PxrUsdTranslators_JointWriter.construct
  have he2 : ¬ (env.exportSkels ≠ exportSkelsAuto ∧ env.exportSkels ≠ exportSkelsExplicit) := by
    intro hx
    rcases he with h1 | h1
    · exact hx.1 h1
    · exact hx.2 h1
  simp only [hd, Bool.not_true, Bool.false_eq_true, if_false, he2]
  cases hdef : env.defineSkeleton usdPath with
  | none => rw [hdef] at hs; simp at hs
  | some skel => rfl

theorem writeSample_of_success (env : Env) (usdTime : UsdTimeCode)
    (w : PxrUsdTranslators_JointWriter) (log : List Event) (skelAnim : UsdSkelAnimation)
    (ts : List GfVec3f) (rs : List GfQuatf) (ss : List GfVec3h)
    (hvalid : w._valid = true)
    (hxform : w._skelXformAttr.isValid = false)
    (hanim : w._animatedJoints ≠ [])
    (hskel : w._skelAnim = some skelAnim)
    (hlocal : (PxrUsdTranslators_JointWriter.sampleLocalXforms env w).1 = true)
    (hremap : (PxrUsdTranslators_JointWriter.sampleAnimLocalXforms env w).1 = true)
    (hdec : UsdSkelDecomposeTransforms env
      (PxrUsdTranslators_JointWriter.sampleAnimLocalXforms env w).2 = some (ts, rs, ss)) :
    PxrUsdTranslators_JointWriter.writeSample env usdTime w log
      = (w, log ++ animSampleEvents skelAnim usdTime ts rs ss) := by
  unfold PxrUsdTranslators_JointWriter.writeSample
  simp only [hvalid, Bool.not_true, Bool.false_eq_true, if_false, hxform, Bool.and_false,
    writeAnimation_of_success env usdTime w skelAnim ts rs ss hanim hskel hlocal hremap hdec]

theorem chain_first_write (env : Env) (w : PxrUsdTranslators_JointWriter) (log : List Event)
    (hierarchyRoot root mid tip : MDagPath) (skelAnim : UsdSkelAnimation)
    (rootXf : GfMatrix4d) (a b c : GfVec3f)
    (hfresh : w._animatedJoints = [])
    (hxform : w._skelXformAttr.isValid = false)
    (hscene : ChainScene env w hierarchyRoot root mid tip skelAnim)
    (hpose : ChainPose env hierarchyRoot root mid tip rootXf a b c) :
    PxrUsdTranslators_JointWriter.Write env UsdTimeCode.Default w log
      = ({ w with
            _valid := true
            _skelXformPath := (env.getJointHierarchyComponents w.dagPath).1
            _jointHierarchyRootPath := hierarchyRoot
            _joints := [root, mid, tip]
            _topology := ⟨[-1, 0, 1]⟩
            _animatedJoints := [root, mid, tip]
            _skelAnim := some skelAnim
            _skelToAnimMapper :=
              ⟨getJointNames env [root, mid, tip], getJointNames env [root, mid, tip]⟩ },
          log ++ ([Event.MarkSkelAsMayaGenerated w._skel,
              Event.GetBindingAPIForAuthoring w._skel,
              Event.SetAttribute (skelAttr w._skel jointsAttrName)
                (VtValue.tokens (getJointNames env [root, mid, tip])) UsdTimeCode.Default,
              Event.MarkSkelBindings (skelPrimPath w._skel) env.exportSkels]
            ++ (_GetJointWorldBindTransforms env ⟨[-1, 0, 1]⟩ [root, mid, tip]).2.map Event.diag
            ++ [Event.SetAttribute (skelAttr w._skel bindTransformsAttrName)
                (VtValue.matrices [1, 1, 1]) UsdTimeCode.Default,
              Event.SetAttribute (skelAttr w._skel restTransformsAttrName)
                (VtValue.matrices
                  [translationMatrix a, translationMatrix b, translationMatrix c])
                UsdTimeCode.Default,
              Event.DefineSkelAnimation (env.getAnimationPath (skelPrimPath w._skel)),
              Event.SetAttribute (animAttr skelAnim jointsAttrName)
                (VtValue.tokens (getJointNames env [root, mid, tip])) UsdTimeCode.Default,
              Event.SetAnimationSource (env.getAnimationPath (skelPrimPath w._skel))])
            ++ animSampleEvents skelAnim UsdTimeCode.Default [a, b, c]
                [identityQuat, identityQuat, identityQuat] [unitScale, unitScale, unitScale]) := by
  have h21 : (env.getJointHierarchyComponents w.dagPath).2.1 = hierarchyRoot := by
    rw [hscene.hierarchy]
  have h22 : (env.getJointHierarchyComponents w.dagPath).2.2 = [root, mid, tip] := by
    rw [hscene.hierarchy]
  have hlocal := chain_localXforms env hierarchyRoot root mid tip rootXf a b c hpose []
  have hbind : (_GetJointWorldBindTransforms env ⟨[-1, 0, 1]⟩ [root, mid, tip]).1 = [1, 1, 1] := by
    rw [getJointWorldBindTransforms_map]
    simp only [List.map_cons, List.map_nil]
    rw [bindTransformByPriority_of_noBindData _ (hscene.noBindData root (by simp)),
      bindTransformByPriority_of_noBindData _ (hscene.noBindData mid (by simp)),
      bindTransformByPriority_of_noBindData _ (hscene.noBindData tip (by simp))]
  have hfirst := writeRestState_first_pass env w log skelAnim hscene.notUsdSkeleton
    (by rw [h22, hscene.chainTopology]; decide)
    (by rw [h22, h21, hscene.chainTopology, hlocal])
    hfresh (by rw [h22]; simp) hscene.animationDefined
  rw [h22, h21, hscene.chainTopology, hlocal, hbind] at hfirst
  unfold PxrUsdTranslators_JointWriter.Write PxrUsdTranslators_JointWriter.writeRestPass
  simp only [UsdTimeCode.IsDefault, if_true, hfirst]
  have hremap := remap_self (getJointNames env [root, mid, tip]) hscene.namesDistinct
    [translationMatrix a, translationMatrix b, translationMatrix c] rfl
  rw [← List.append_assoc]
  exact writeSample_of_success env UsdTimeCode.Default _ _ skelAnim [a, b, c]
    [identityQuat, identityQuat, identityQuat] [unitScale, unitScale, unitScale]
    rfl hxform (by simp) rfl
    (by
      unfold PxrUsdTranslators_JointWriter.sampleLocalXforms
      simp only [hlocal])
    (by
      unfold PxrUsdTranslators_JointWriter.sampleAnimLocalXforms
        PxrUsdTranslators_JointWriter.sampleLocalXforms
      simp only [hlocal, hremap])
    (by
      unfold PxrUsdTranslators_JointWriter.sampleAnimLocalXforms
        PxrUsdTranslators_JointWriter.sampleLocalXforms
      simp only [hlocal, hremap]
      exact decomposeTransforms_chain env a b c hpose.decomposesTranslation)

theorem chain_later_write (env : Env) (usdTime : UsdTimeCode)
    (w : PxrUsdTranslators_JointWriter) (log : List Event)
    (hierarchyRoot root mid tip : MDagPath) (skelAnim : UsdSkelAnimation)
    (names : List TfToken) (rootXf : GfMatrix4d) (a b c : GfVec3f)
    (htime : usdTime.IsDefault = false)
    (hvalid : w._valid = true)
    (hxform : w._skelXformAttr.isValid = false)
    (hskel : w._skelAnim = some skelAnim)
    (hanim : w._animatedJoints = [root, mid, tip])
    (hjoints : w._joints = [root, mid, tip])
    (htopo : w._topology = ⟨[-1, 0, 1]⟩)
    (hroot : w._jointHierarchyRootPath = hierarchyRoot)
    (hmapper : w._skelToAnimMapper = ⟨names, names⟩)
    (hnames : names.Nodup) (hlen : names.length = 3)
    (hpose : ChainPose env hierarchyRoot root mid tip rootXf a b c) :
    PxrUsdTranslators_JointWriter.Write env usdTime w log
      = (w, log ++ animSampleEvents skelAnim usdTime [a, b, c]
          [identityQuat, identityQuat, identityQuat] [unitScale, unitScale, unitScale]) := by
  have hlocal := chain_localXforms env hierarchyRoot root mid tip rootXf a b c hpose []
  have hremap := remap_self names hnames
    [translationMatrix a, translationMatrix b, translationMatrix c] (by rw [hlen]; rfl)
  unfold PxrUsdTranslators_JointWriter.Write PxrUsdTranslators_JointWriter.writeRestPass
  simp only [htime, Bool.false_eq_true, if_false]
  exact writeSample_of_success env usdTime w log skelAnim [a, b, c]
    [identityQuat, identityQuat, identityQuat] [unitScale, unitScale, unitScale]
    hvalid hxform (by rw [hanim]; simp) hskel
    (by
      unfold PxrUsdTranslators_JointWriter.sampleLocalXforms
      rw [htopo, hjoints, hroot, hlocal])
    (by
      unfold PxrUsdTranslators_JointWriter.sampleAnimLocalXforms
        PxrUsdTranslators_JointWriter.sampleLocalXforms
      rw [htopo, hjoints, hroot, hlocal, hmapper]
      simp only [hremap])
    (by
      unfold PxrUsdTranslators_JointWriter.sampleAnimLocalXforms
        PxrUsdTranslators_JointWriter.sampleLocalXforms
      rw [htopo, hjoints, hroot, hlocal, hmapper]
      simp only [hremap]
      exact decomposeTransforms_chain env a b c hpose.decomposesTranslation)

theorem sampleChainEnv_pose (a b c : GfVec3f) :
    ChainPose (sampleChainEnv a b c) ⟨"|rig"⟩ ⟨"|rig|root"⟩ ⟨"|rig|root|mid"⟩
      ⟨"|rig|root|mid|tip"⟩ 1 a b c where
  hierarchyRootWorld := by
    simp [_GetJointWorldTransform, sampleChainEnv, sampleEnv, sampleFreeJoint]
  hierarchyRootInvertible := by simp
  rootWorld := by simp [sampleChainEnv, sampleEnv, sampleChainJoint]
  midWorld := by simp [sampleChainEnv, sampleEnv, sampleChainJoint]
  tipWorld := by simp [sampleChainEnv, sampleEnv, sampleChainJoint]
  decomposesTranslation := by
    intro v
    simp [sampleChainEnv, sampleEnv, translationMatrix, identityQuat, unitScale]

theorem sampleChainEnv_scene (a b c : GfVec3f) (w : PxrUsdTranslators_JointWriter) :
    ChainScene (sampleChainEnv a b c) w ⟨"|rig"⟩ ⟨"|rig|root"⟩ ⟨"|rig|root|mid"⟩
      ⟨"|rig|root|mid|tip"⟩ ⟨⟨(skelPrimPath w._skel).text ++ "/Animation"⟩⟩ where
  notUsdSkeleton := rfl
  hierarchy := rfl
  namesDistinct := by
    simp [getJointNames, sampleChainEnv, sampleEnv]
  chainTopology := rfl
  noBindData := by
    intro j hj
    simp only [List.mem_cons, List.mem_singleton, List.not_mem_nil, or_false] at hj
    rcases hj with rfl | rfl | rfl <;>
      simp [sampleChainEnv, sampleEnv, sampleChainJoint, sampleFreeJoint,
        firstSkinClusterBindPreMatrix, firstDagPoseWorldMatrix]
  animationDefined := rfl

theorem filter_setsAttrNamed_diag (name : String) (ds : List Diag) :
    (ds.map Event.diag).filter (Event.setsAttrNamed name) = [] := by
  induction ds with
  | nil => rfl
  | cons d ds ih => simp [List.filter_cons, Event.setsAttrNamed]

theorem chain_restEvents_filter (skel : Option UsdSkelSkeleton) (skelAnim : UsdSkelAnimation)
    (names : List TfToken) (animPath : SdfPath) (exportSkels : TfToken) (ds : List Diag)
    (bind rest : List GfMatrix4d) :
    let pre := [Event.MarkSkelAsMayaGenerated skel,
        Event.GetBindingAPIForAuthoring skel,
        Event.SetAttribute (skelAttr skel jointsAttrName) (VtValue.tokens names)
          UsdTimeCode.Default,
        Event.MarkSkelBindings (skelPrimPath skel) exportSkels]
      ++ ds.map Event.diag
      ++ [Event.SetAttribute (skelAttr skel bindTransformsAttrName) (VtValue.matrices bind)
          UsdTimeCode.Default,
        Event.SetAttribute (skelAttr skel restTransformsAttrName) (VtValue.matrices rest)
          UsdTimeCode.Default,
        Event.DefineSkelAnimation animPath,
        Event.SetAttribute (animAttr skelAnim jointsAttrName) (VtValue.tokens names)
          UsdTimeCode.Default,
        Event.SetAnimationSource animPath]
    pre.filter (Event.setsAttrNamed bindTransformsAttrName)
        = [Event.SetAttribute (skelAttr skel bindTransformsAttrName) (VtValue.matrices bind)
            UsdTimeCode.Default]
      ∧ pre.filter (Event.setsAttrNamed restTransformsAttrName)
        = [Event.SetAttribute (skelAttr skel restTransformsAttrName) (VtValue.matrices rest)
            UsdTimeCode.Default]
      ∧ pre.filter (Event.setsAttrNamed translationsAttrName) = []
      ∧ pre.filter (Event.setsAttrNamed rotationsAttrName) = []
      ∧ pre.filter (Event.setsAttrNamed scalesAttrName) = [] := by
  intro pre
  simp only [pre, List.filter_append, filter_setsAttrNamed_diag, List.append_nil]
  refine ⟨?_, ?_, ?_, ?_, ?_⟩ <;>
    simp [List.filter_cons, Event.setsAttrNamed, skelAttr, animAttr, jointsAttrName,
      bindTransformsAttrName, restTransformsAttrName, translationsAttrName, rotationsAttrName,
      scalesAttrName]

/-- C12. A chain of three joints root, mid, tip whose world matrices differ
from their parents (the hierarchy root for the first) by translations `a`, `b`,
`c` only, and which carry no skin-cluster, dagPose or `bindPose` data, is
exported by a freshly constructed writer as follows, provided the external
decomposition is exact on pure translations. The default-time `Write` sets
`bindTransforms` once, to three identity matrices, and `restTransforms` once, to
the three translation matrices of the current offsets, on valid attributes, and
ends with one sample of the three animation channels: translations `a`, `b`,
`c`, identity quaternions and unit scales. Every later `Write` at a non-default
time code, whatever the offsets `a1`, `b1`, `c1` of the chain are then, leaves
the writer unchanged and appends exactly one sample at that time code with
translations `a1`, `b1`, `c1`, identity quaternions and unit scales. -/
theorem chain_export_translation_only (envC env : Env) (dagPath : MDagPath) (usdPath : SdfPath)
    (skelXformIsAnimated : Bool) (hierarchyRoot root mid tip : MDagPath)
    (skelAnim : UsdSkelAnimation) (rootXf : GfMatrix4d) (a b c : GfVec3f) (log : List Event)
    (hctor : PxrUsdTranslators_JointWriter.constructorReturnedEarly envC dagPath usdPath = false)
    (hscene : ChainScene env
      (PxrUsdTranslators_JointWriter.construct envC dagPath usdPath skelXformIsAnimated).1
      hierarchyRoot root mid tip skelAnim)
    (hpose : ChainPose env hierarchyRoot root mid tip rootXf a b c) :
    (skelAttr (PxrUsdTranslators_JointWriter.construct envC dagPath usdPath
        skelXformIsAnimated).1._skel bindTransformsAttrName).isValid = true
      ∧ (skelAttr (PxrUsdTranslators_JointWriter.construct envC dagPath usdPath
          skelXformIsAnimated).1._skel restTransformsAttrName).isValid = true
      ∧ (∃ pre,
          (PxrUsdTranslators_JointWriter.Write env UsdTimeCode.Default
              (PxrUsdTranslators_JointWriter.construct envC dagPath usdPath
                skelXformIsAnimated).1 log).2
            = log ++ pre ++ animSampleEvents skelAnim UsdTimeCode.Default [a, b, c]
                [identityQuat, identityQuat, identityQuat] [unitScale, unitScale, unitScale]
          ∧ pre.filter (Event.setsAttrNamed bindTransformsAttrName)
            = [Event.SetAttribute
                (skelAttr (PxrUsdTranslators_JointWriter.construct envC dagPath usdPath
                  skelXformIsAnimated).1._skel bindTransformsAttrName)
                (VtValue.matrices [1, 1, 1]) UsdTimeCode.Default]
          ∧ pre.filter (Event.setsAttrNamed restTransformsAttrName)
            = [Event.SetAttribute
                (skelAttr (PxrUsdTranslators_JointWriter.construct envC dagPath usdPath
                  skelXformIsAnimated).1._skel restTransformsAttrName)
                (VtValue.matrices
                  [translationMatrix a, translationMatrix b, translationMatrix c])
                UsdTimeCode.Default]
          ∧ pre.filter (Event.setsAttrNamed translationsAttrName) = []
          ∧ pre.filter (Event.setsAttrNamed rotationsAttrName) = []
          ∧ pre.filter (Event.setsAttrNamed scalesAttrName) = [])
      ∧ ∀ (env1 : Env) (usdTime : UsdTimeCode) (rootXf1 : GfMatrix4d) (a1 b1 c1 : GfVec3f)
          (log1 : List Event), usdTime.IsDefault = false →
          ChainPose env1 hierarchyRoot root mid tip rootXf1 a1 b1 c1 →
          PxrUsdTranslators_JointWriter.Write env1 usdTime
              (PxrUsdTranslators_JointWriter.Write env UsdTimeCode.Default
                (PxrUsdTranslators_JointWriter.construct envC dagPath usdPath
                  skelXformIsAnimated).1 log).1 log1
            = ((PxrUsdTranslators_JointWriter.Write env UsdTimeCode.Default
                (PxrUsdTranslators_JointWriter.construct envC dagPath usdPath
                  skelXformIsAnimated).1 log).1,
               log1 ++ animSampleEvents skelAnim usdTime [a1, b1, c1]
                [identityQuat, identityQuat, identityQuat]
                [unitScale, unitScale, unitScale]) := by
  obtain ⟨hfresh, hxform, -⟩ := construct_fresh envC dagPath usdPath skelXformIsAnimated
  have hskel := construct_skel_of_not_earlyReturn envC dagPath usdPath skelXformIsAnimated hctor
  generalize PxrUsdTranslators_JointWriter.construct envC dagPath usdPath
    skelXformIsAnimated = cw at hfresh hxform hskel hscene ⊢
  have hfirst := chain_first_write env cw.1 log hierarchyRoot root mid tip skelAnim rootXf
    a b c hfresh hxform hscene hpose
  refine ⟨hskel, hskel, ?_, ?_⟩
  · rw [hfirst]
    refine ⟨_, rfl, ?_⟩
    exact chain_restEvents_filter cw.1._skel skelAnim _ _ _ _ _ _
  · intro env1 usdTime rootXf1 a1 b1 c1 log1 htime hpose1
    rw [hfirst]
    exact chain_later_write env1 usdTime _ log1 hierarchyRoot root mid tip skelAnim
      (getJointNames env [root, mid, tip]) rootXf1 a1 b1 c1 htime rfl hxform rfl rfl rfl rfl
      rfl rfl hscene.namesDistinct (getJointNames_length env _) hpose1

theorem chain_export_translation_only_witness :
    PxrUsdTranslators_JointWriter.constructorReturnedEarly sampleChain ⟨"|rig"⟩ ⟨"/rig"⟩ = false
      ∧ ChainScene sampleChain sampleChainWriter ⟨"|rig"⟩ ⟨"|rig|root"⟩ ⟨"|rig|root|mid"⟩
          ⟨"|rig|root|mid|tip"⟩ ⟨⟨"/rig/Animation"⟩⟩
      ∧ ChainPose sampleChain ⟨"|rig"⟩ ⟨"|rig|root"⟩ ⟨"|rig|root|mid"⟩ ⟨"|rig|root|mid|tip"⟩ 1
          ⟨1, 0, 0⟩ ⟨0, 2, 0⟩ ⟨0, 0, 3⟩
      ∧ ∀ (usdTime : UsdTimeCode) (log1 : List Event), usdTime.IsDefault = false →
          PxrUsdTranslators_JointWriter.Write sampleChain usdTime
              (PxrUsdTranslators_JointWriter.Write sampleChain UsdTimeCode.Default
                sampleChainWriter []).1 log1
            = ((PxrUsdTranslators_JointWriter.Write sampleChain UsdTimeCode.Default
                sampleChainWriter []).1,
               log1 ++ animSampleEvents ⟨⟨"/rig/Animation"⟩⟩ usdTime
                [⟨1, 0, 0⟩, ⟨0, 2, 0⟩, ⟨0, 0, 3⟩]
                [identityQuat, identityQuat, identityQuat]
                [unitScale, unitScale, unitScale]) :=
  ⟨by decide,
    sampleChainEnv_scene ⟨1, 0, 0⟩ ⟨0, 2, 0⟩ ⟨0, 0, 3⟩ sampleChainWriter,
    sampleChainEnv_pose ⟨1, 0, 0⟩ ⟨0, 2, 0⟩ ⟨0, 0, 3⟩,
    fun usdTime log1 htime =>
      (chain_export_translation_only sampleChain sampleChain ⟨"|rig"⟩ ⟨"/rig"⟩ false ⟨"|rig"⟩
        ⟨"|rig|root"⟩ ⟨"|rig|root|mid"⟩ ⟨"|rig|root|mid|tip"⟩ ⟨⟨"/rig/Animation"⟩⟩ 1
        ⟨1, 0, 0⟩ ⟨0, 2, 0⟩ ⟨0, 0, 3⟩ [] (by decide)
        (sampleChainEnv_scene ⟨1, 0, 0⟩ ⟨0, 2, 0⟩ ⟨0, 0, 3⟩ sampleChainWriter)
        (sampleChainEnv_pose ⟨1, 0, 0⟩ ⟨0, 2, 0⟩ ⟨0, 0, 3⟩)).2.2.2
        sampleChain usdTime 1 ⟨1, 0, 0⟩ ⟨0, 2, 0⟩ ⟨0, 0, 3⟩ log1 htime
        (sampleChainEnv_pose ⟨1, 0, 0⟩ ⟨0, 2, 0⟩ ⟨0, 0, 3⟩)⟩

end MayaUsd
